import Mathlib

/-!
# EcoBalance Score System: a verification development

A shallow embedding of the data store (`js/data/DataManager.js`), the score-band helpers and
`deepClone` (`js/utils/helpers.js`), the city comparison module
(`js/modules/ComparisonManager.js`), the dashboard summary and city cards
(`js/modules/DashboardManager.js`), the chart projections (`js/modules/ChartManager.js`),
navigation (`js/modules/NavigationManager.js`), the start-up of the modal and API modules and
the simulated API responses (`js/modules/ModalManager.js`, `js/modules/APIManager.js`), and
the start-up and refresh sequences of the application (`js/app.js`), followed by theorems
about them.

Conventions of the embedding:
* JavaScript numbers are rationals (`Rat`); decimal literals denote their exact decimal value.
  Comparisons are made on these values, and the sum and the quotient of the dashboard
  average (`sumOfScores`, `jsDivide`) are the exact ones, which JavaScript approximates in
  doubles.  The rate of the emissions chart is evaluated in double-precision arithmetic
  (`Double`, `toDouble`): each number is the nearest double and each operation is rounded to
  the nearest double again.
* A JavaScript value that may come out of `JSON.parse`, or out of a property read, is a `JsVal`.
* A function that may throw returns `Except JsError _`; a method that mutates `this` takes the
  receiver and returns the receiver after the call.
* Template-literal markup is represented by its structure (the values interpolated into the
  template), not by the concatenated text.
* A division can leave the finite numbers (`JsNum`, `Double`); `toFixed(2)` takes the exact
  value of the number it is called on (`toFixed2`).
* The document and the charting library are not part of the repository: an element the code
  looks up is an optional value, and whether a call into a module throws during start-up or
  refresh is a parameter (`AppEnv`).
-/

namespace EcoBalance

/-! ## JavaScript values -/

/-- JavaScript values as far as the program handles them: the results of `JSON.parse`
(null, booleans, numbers, strings, arrays, plain objects) and `undefined`, which property
reads produce.  An object is the list of its own properties; a read takes the first binding
of a key. -/
inductive JsVal where
  | undefined : JsVal
  | null : JsVal
  | bool (b : Bool) : JsVal
  | num (q : Rat) : JsVal
  | str (s : String) : JsVal
  | arr (xs : List JsVal) : JsVal
  | obj (kvs : List (String × JsVal)) : JsVal

/-- Errors a JavaScript expression can throw. -/
inductive JsError where
  | typeError (msg : String) : JsError
  | syntaxError (msg : String) : JsError
  | error (msg : String) : JsError

/-- Property read `v.key` for a key that no built-in prototype defines (`cities`, `name`,
`green_space_data`, `emissions_data`): a `TypeError` on `null` and `undefined`, the own
property of an object, and `undefined` everywhere else. -/
def getProp (v : JsVal) (key : String) : Except JsError JsVal :=
  match v with
  | .undefined => .error (.typeError "Cannot read properties of undefined")
  | .null => .error (.typeError "Cannot read properties of null")
  | .obj kvs => .ok ((kvs.lookup key).getD .undefined)
  | _ => .ok .undefined

/-- Strict equality `v === s` of a value with a string. -/
def strictEqualsString (v : JsVal) (s : String) : Bool :=
  match v with
  | .str t => t == s
  | _ => false

/-- JavaScript truthiness (`ToBoolean`). -/
def truthy (v : JsVal) : Bool :=
  match v with
  | .undefined => false
  | .null => false
  | .bool b => b
  | .num q => q != 0
  | .str s => s != ""
  | .arr _ => true
  | .obj _ => true

/-- The method `Array.prototype.find` with a callback that may throw: the first element, in
index order, on which the callback is true, `undefined` if there is none; elements after the
first hit are not visited. -/
def arrayFind (p : JsVal → Except JsError Bool) : List JsVal → Except JsError JsVal
  | [] => .ok .undefined
  | x :: xs =>
    match p x with
    | .error e => .error e
    | .ok true => .ok x
    | .ok false => arrayFind p xs

/-! ## Data model (`DataManager.js`) -/

/-- Geographic coordinates of a city. -/
structure Coordinates where
  lat : Rat
  lng : Rat
  deriving DecidableEq

/-- Sector breakdown of the emissions, in percent of the total. -/
structure Sectors where
  transport : Rat
  buildings : Rat
  industrial : Rat
  waste : Rat
  deriving DecidableEq

/-- Emissions profile of a city. -/
structure Emissions where
  total_co2_tons_per_year : Rat
  per_capita_tons : Rat
  sectors : Sectors
  deriving DecidableEq

/-- Vegetation profile of a city. -/
structure Vegetation where
  tree_canopy_percent : Rat
  green_space_percent : Rat
  parks_area_km2 : Rat
  estimated_trees : Rat
  carbon_sequestration_tons_per_year : Rat
  deriving DecidableEq

/-- City record.  The field `data_sources` is `none` when the record has no such property,
and `some v` when the property is present with value `v` (possibly `null`). -/
structure City where
  id : String
  name : String
  country : String
  population : Rat
  area_km2 : Rat
  coordinates : Coordinates
  emissions : Emissions
  vegetation : Vegetation
  eco_balance_score : Rat
  rank : String
  sdg13_alignment : Rat
  data_sources : Option JsVal

/-- Methodology metadata (`calculation_methodology`); `score_interpretation` keeps the
key order of the object literal. -/
structure Methodology where
  eco_balance_formula : String
  carbon_sequestration_rate : String
  emissions_metric : String
  score_interpretation : List (String × String)

/-- Top-level `data_sources` of the collection. -/
structure DataSources where
  emissions : List String
  vegetation : List String
  carbon_sequestration : List String

/-- Collection held by the store (`cityData`); `api_integration` is `none` when the object
has no such property. -/
structure CityData where
  cities : List City
  calculation_methodology : Methodology
  data_sources : DataSources
  api_integration : Option JsVal

/-- `DataManager.findCityDataSources(apiData, cityName)`:
`apiData.cities?.find(c => c.name === cityName)`, then the two attribution properties of the
entry found, or `null`. -/
def findCityDataSources (apiData : JsVal) (cityName : String) : Except JsError JsVal := do
  let cities ← getProp apiData "cities"
  let city ←
    match cities with
    | .undefined => pure JsVal.undefined
    | .null => pure JsVal.undefined
    | .arr xs =>
      arrayFind (fun c => do
        let n ← getProp c "name"
        pure (strictEqualsString n cityName)) xs
    | _ => throw (JsError.typeError "apiData.cities?.find is not a function")
  if truthy city then
    let g ← getProp city "green_space_data"
    let e ← getProp city "emissions_data"
    pure (JsVal.obj [("green_space", g), ("emissions", e)])
  else
    pure JsVal.null

/-- `DataManager.createCityDataWithAPISources(apiData)`: the literal catalog, each city with
the attribution looked up by its display name, in the evaluation order of the array literal. -/
def createCityDataWithAPISources (apiData : JsVal) : Except JsError CityData := do
  let ds1 ← findCityDataSources apiData "Singapore"
  let ds2 ← findCityDataSources apiData "New York City"
  let ds3 ← findCityDataSources apiData "London"
  let ds4 ← findCityDataSources apiData "Paris"
  let ds5 ← findCityDataSources apiData "Barcelona"
  let ds6 ← findCityDataSources apiData "Berlin"
  let ds7 ← findCityDataSources apiData "Madrid"
  let ds8 ← findCityDataSources apiData "Amsterdam"
  let ds9 ← findCityDataSources apiData "Rome"
  let cities : List City := [
    { id := "singapore"
      name := "Singapore"
      country := "Singapore"
      population := 5896000
      area_km2 := 728
      coordinates := { lat := 1.3521, lng := 103.8198 }
      emissions :=
        { total_co2_tons_per_year := 32000000
          per_capita_tons := 5.4
          sectors := { transport := 40, buildings := 30, industrial := 25, waste := 5 } }
      vegetation :=
        { tree_canopy_percent := 47
          green_space_percent := 47
          parks_area_km2 := 80
          estimated_trees := 3200000
          carbon_sequestration_tons_per_year := 52000 }
      eco_balance_score := 1.63
      rank := "Excellent"
      sdg13_alignment := 92
      data_sources := some ds1 },
    { id := "nyc"
      name := "New York City"
      country := "United States"
      population := 8336817
      area_km2 := 789
      coordinates := { lat := 40.7128, lng := (-74.0060) }
      emissions :=
        { total_co2_tons_per_year := 54000000
          per_capita_tons := 6.5
          sectors := { transport := 45, buildings := 35, industrial := 15, waste := 5 } }
      vegetation :=
        { tree_canopy_percent := 24
          green_space_percent := 27
          parks_area_km2 := 134
          estimated_trees := 5200000
          carbon_sequestration_tons_per_year := 48000 }
      eco_balance_score := 0.89
      rank := "Good"
      sdg13_alignment := 75
      data_sources := some ds2 },
    { id := "london"
      name := "London"
      country := "United Kingdom"
      population := 9540576
      area_km2 := 1572
      coordinates := { lat := 51.5074, lng := (-0.1278) }
      emissions :=
        { total_co2_tons_per_year := 38000000
          per_capita_tons := 4.0
          sectors := { transport := 35, buildings := 40, industrial := 20, waste := 5 } }
      vegetation :=
        { tree_canopy_percent := 33
          green_space_percent := 38
          parks_area_km2 := 210
          estimated_trees := 7200000
          carbon_sequestration_tons_per_year := 78000 }
      eco_balance_score := 2.05
      rank := "Excellent"
      sdg13_alignment := 88
      data_sources := some ds3 },
    { id := "paris"
      name := "Paris"
      country := "France"
      population := 2161000
      area_km2 := 105
      coordinates := { lat := 48.8566, lng := 2.3522 }
      emissions :=
        { total_co2_tons_per_year := 12500000
          per_capita_tons := 5.8
          sectors := { transport := 38, buildings := 42, industrial := 15, waste := 5 } }
      vegetation :=
        { tree_canopy_percent := 23
          green_space_percent := 25
          parks_area_km2 := 26
          estimated_trees := 200000
          carbon_sequestration_tons_per_year := 18500 }
      eco_balance_score := 0.61
      rank := "Fair"
      sdg13_alignment := 78
      data_sources := some ds4 },
    { id := "barcelona"
      name := "Barcelona"
      country := "Spain"
      population := 1636000
      area_km2 := 101
      coordinates := { lat := 41.3851, lng := 2.1734 }
      emissions :=
        { total_co2_tons_per_year := 8200000
          per_capita_tons := 5.0
          sectors := { transport := 42, buildings := 35, industrial := 18, waste := 5 } }
      vegetation :=
        { tree_canopy_percent := 21
          green_space_percent := 28
          parks_area_km2 := 28
          estimated_trees := 180000
          carbon_sequestration_tons_per_year := 16800 }
      eco_balance_score := 0.82
      rank := "Good"
      sdg13_alignment := 82
      data_sources := some ds5 },
    { id := "berlin"
      name := "Berlin"
      country := "Germany"
      population := 3677000
      area_km2 := 892
      coordinates := { lat := 52.5200, lng := 13.4050 }
      emissions :=
        { total_co2_tons_per_year := 20100000
          per_capita_tons := 5.5
          sectors := { transport := 35, buildings := 45, industrial := 15, waste := 5 } }
      vegetation :=
        { tree_canopy_percent := 30
          green_space_percent := 44
          parks_area_km2 := 392
          estimated_trees := 2800000
          carbon_sequestration_tons_per_year := 58800 }
      eco_balance_score := 1.46
      rank := "Good"
      sdg13_alignment := 85
      data_sources := some ds6 },
    { id := "madrid"
      name := "Madrid"
      country := "Spain"
      population := 3223000
      area_km2 := 604
      coordinates := { lat := 40.4168, lng := (-3.7038) }
      emissions :=
        { total_co2_tons_per_year := 18500000
          per_capita_tons := 5.7
          sectors := { transport := 40, buildings := 38, industrial := 17, waste := 5 } }
      vegetation :=
        { tree_canopy_percent := 26
          green_space_percent := 35
          parks_area_km2 := 211
          estimated_trees := 1800000
          carbon_sequestration_tons_per_year := 42300 }
      eco_balance_score := 1.31
      rank := "Good"
      sdg13_alignment := 79
      data_sources := some ds7 },
    { id := "amsterdam"
      name := "Amsterdam"
      country := "Netherlands"
      population := 873000
      area_km2 := 219
      coordinates := { lat := 52.3676, lng := 4.9041 }
      emissions :=
        { total_co2_tons_per_year := 4800000
          per_capita_tons := 5.5
          sectors := { transport := 45, buildings := 35, industrial := 15, waste := 5 } }
      vegetation :=
        { tree_canopy_percent := 20
          green_space_percent := 30
          parks_area_km2 := 66
          estimated_trees := 220000
          carbon_sequestration_tons_per_year := 19800 }
      eco_balance_score := 0.82
      rank := "Good"
      sdg13_alignment := 87
      data_sources := some ds8 },
    { id := "rome"
      name := "Rome"
      country := "Italy"
      population := 2873000
      area_km2 := 1285
      coordinates := { lat := 41.9028, lng := 12.4964 }
      emissions :=
        { total_co2_tons_per_year := 16800000
          per_capita_tons := 5.8
          sectors := { transport := 43, buildings := 32, industrial := 20, waste := 5 } }
      vegetation :=
        { tree_canopy_percent := 19
          green_space_percent := 34
          parks_area_km2 := 437
          estimated_trees := 1200000
          carbon_sequestration_tons_per_year := 52200 }
      eco_balance_score := 1.57
      rank := "Excellent"
      sdg13_alignment := 76
      data_sources := some ds9 }
  ]
  pure
    { cities := cities
      calculation_methodology :=
        { eco_balance_formula := "Carbon Sequestration Rate / Emissions Per Capita"
          carbon_sequestration_rate := "tonnes CO2/year per km2 of green space"
          emissions_metric := "tonnes CO2 per capita per year"
          score_interpretation :=
            [ ("0.0-0.5", "Poor - High emissions, low carbon absorption"),
              ("0.5-1.0", "Fair - Moderate balance"),
              ("1.0-1.5", "Good - Positive environmental impact"),
              ("1.5+", "Excellent - Strong carbon positive") ] }
      data_sources :=
        { emissions := ["Climate TRACE API", "Municipal GHG inventories"]
          vegetation := ["HUGSI satellite data", "i-Tree assessments", "OpenStreetMap"]
          carbon_sequestration := ["Scientific literature", "i-Tree Eco calculations"] }
      api_integration := some apiData }

/-- `DataManager.getFallbackData()`: the literal catalog used when loading fails. -/
def getFallbackData : CityData :=
  { cities := [
      { id := "singapore"
        name := "Singapore"
        country := "Singapore"
        population := 5896000
        area_km2 := 728
        coordinates := { lat := 1.3521, lng := 103.8198 }
        emissions :=
          { total_co2_tons_per_year := 32000000
            per_capita_tons := 5.4
            sectors := { transport := 40, buildings := 30, industrial := 25, waste := 5 } }
        vegetation :=
          { tree_canopy_percent := 47
            green_space_percent := 47
            parks_area_km2 := 80
            estimated_trees := 3200000
            carbon_sequestration_tons_per_year := 52000 }
        eco_balance_score := 1.63
        rank := "Excellent"
        sdg13_alignment := 92
        data_sources := none },
      { id := "nyc"
        name := "New York City"
        country := "United States"
        population := 8336817
        area_km2 := 789
        coordinates := { lat := 40.7128, lng := (-74.0060) }
        emissions :=
          { total_co2_tons_per_year := 54000000
            per_capita_tons := 6.5
            sectors := { transport := 45, buildings := 35, industrial := 15, waste := 5 } }
        vegetation :=
          { tree_canopy_percent := 24
            green_space_percent := 27
            parks_area_km2 := 134
            estimated_trees := 5200000
            carbon_sequestration_tons_per_year := 48000 }
        eco_balance_score := 0.89
        rank := "Good"
        sdg13_alignment := 75
        data_sources := none },
      { id := "london"
        name := "London"
        country := "United Kingdom"
        population := 9540576
        area_km2 := 1572
        coordinates := { lat := 51.5074, lng := (-0.1278) }
        emissions :=
          { total_co2_tons_per_year := 38000000
            per_capita_tons := 4.0
            sectors := { transport := 35, buildings := 40, industrial := 20, waste := 5 } }
        vegetation :=
          { tree_canopy_percent := 33
            green_space_percent := 38
            parks_area_km2 := 210
            estimated_trees := 7200000
            carbon_sequestration_tons_per_year := 78000 }
        eco_balance_score := 2.05
        rank := "Excellent"
        sdg13_alignment := 88
        data_sources := none },
      { id := "paris"
        name := "Paris"
        country := "France"
        population := 2161000
        area_km2 := 105
        coordinates := { lat := 48.8566, lng := 2.3522 }
        emissions :=
          { total_co2_tons_per_year := 12500000
            per_capita_tons := 5.8
            sectors := { transport := 38, buildings := 42, industrial := 15, waste := 5 } }
        vegetation :=
          { tree_canopy_percent := 23
            green_space_percent := 25
            parks_area_km2 := 26
            estimated_trees := 200000
            carbon_sequestration_tons_per_year := 18500 }
        eco_balance_score := 0.61
        rank := "Fair"
        sdg13_alignment := 78
        data_sources := none },
      { id := "barcelona"
        name := "Barcelona"
        country := "Spain"
        population := 1636000
        area_km2 := 101
        coordinates := { lat := 41.3851, lng := 2.1734 }
        emissions :=
          { total_co2_tons_per_year := 8200000
            per_capita_tons := 5.0
            sectors := { transport := 42, buildings := 35, industrial := 18, waste := 5 } }
        vegetation :=
          { tree_canopy_percent := 21
            green_space_percent := 28
            parks_area_km2 := 28
            estimated_trees := 180000
            carbon_sequestration_tons_per_year := 16800 }
        eco_balance_score := 0.82
        rank := "Good"
        sdg13_alignment := 82
        data_sources := none },
      { id := "berlin"
        name := "Berlin"
        country := "Germany"
        population := 3677000
        area_km2 := 892
        coordinates := { lat := 52.5200, lng := 13.4050 }
        emissions :=
          { total_co2_tons_per_year := 20100000
            per_capita_tons := 5.5
            sectors := { transport := 35, buildings := 45, industrial := 15, waste := 5 } }
        vegetation :=
          { tree_canopy_percent := 30
            green_space_percent := 44
            parks_area_km2 := 392
            estimated_trees := 2800000
            carbon_sequestration_tons_per_year := 58800 }
        eco_balance_score := 1.46
        rank := "Good"
        sdg13_alignment := 85
        data_sources := none },
      { id := "madrid"
        name := "Madrid"
        country := "Spain"
        population := 3223000
        area_km2 := 604
        coordinates := { lat := 40.4168, lng := (-3.7038) }
        emissions :=
          { total_co2_tons_per_year := 18500000
            per_capita_tons := 5.7
            sectors := { transport := 40, buildings := 38, industrial := 17, waste := 5 } }
        vegetation :=
          { tree_canopy_percent := 26
            green_space_percent := 35
            parks_area_km2 := 211
            estimated_trees := 1800000
            carbon_sequestration_tons_per_year := 42300 }
        eco_balance_score := 1.31
        rank := "Good"
        sdg13_alignment := 79
        data_sources := none },
      { id := "amsterdam"
        name := "Amsterdam"
        country := "Netherlands"
        population := 873000
        area_km2 := 219
        coordinates := { lat := 52.3676, lng := 4.9041 }
        emissions :=
          { total_co2_tons_per_year := 4800000
            per_capita_tons := 5.5
            sectors := { transport := 45, buildings := 35, industrial := 15, waste := 5 } }
        vegetation :=
          { tree_canopy_percent := 20
            green_space_percent := 30
            parks_area_km2 := 66
            estimated_trees := 220000
            carbon_sequestration_tons_per_year := 19800 }
        eco_balance_score := 0.82
        rank := "Good"
        sdg13_alignment := 87
        data_sources := none },
      { id := "rome"
        name := "Rome"
        country := "Italy"
        population := 2873000
        area_km2 := 1285
        coordinates := { lat := 41.9028, lng := 12.4964 }
        emissions :=
          { total_co2_tons_per_year := 16800000
            per_capita_tons := 5.8
            sectors := { transport := 43, buildings := 32, industrial := 20, waste := 5 } }
        vegetation :=
          { tree_canopy_percent := 19
            green_space_percent := 34
            parks_area_km2 := 437
            estimated_trees := 1200000
            carbon_sequestration_tons_per_year := 52200 }
        eco_balance_score := 1.57
        rank := "Excellent"
        sdg13_alignment := 76
        data_sources := none }
    ]
    calculation_methodology :=
      { eco_balance_formula := "Carbon Sequestration Rate / Emissions Per Capita"
        carbon_sequestration_rate := "tonnes CO2/year per km2 of green space"
        emissions_metric := "tonnes CO2 per capita per year"
        score_interpretation :=
          [ ("0.0-0.5", "Poor - High emissions, low carbon absorption"),
            ("0.5-1.0", "Fair - Moderate balance"),
            ("1.0-1.5", "Good - Positive environmental impact"),
            ("1.5+", "Excellent - Strong carbon positive") ] }
    data_sources :=
      { emissions := ["Climate TRACE API", "Municipal GHG inventories"]
        vegetation := ["HUGSI satellite data", "i-Tree assessments", "OpenStreetMap"]
        carbon_sequestration := ["Scientific literature", "i-Tree Eco calculations"] }
    api_integration := none }

/-! ## The data store (`DataManager.js`) -/

/-- Outcome of `fetch('./demo_data/august.json')` and of the `response.json()` that follows:
the fetch promise rejects, or it resolves to a response with its `ok` flag, its status and
the result of parsing its body (`none` when `response.json()` rejects). -/
inductive FetchOutcome where
  | rejected : FetchOutcome
  | response (ok : Bool) (status : Nat) (body : Option JsVal) : FetchOutcome

/-- Fields of a `DataManager` instance; `cityData` is `none` while it is `null`. -/
structure DataManager where
  cityData : Option CityData
  apiSources : JsVal
  isLoaded : Bool

/-- The constructor of `DataManager`. -/
def DataManager.new : DataManager :=
  { cityData := none, apiSources := JsVal.null, isLoaded := false }

/-- The `try` block of `DataManager.loadData`: the receiver when the block is left, and the
value it returns or the error it throws. -/
def DataManager.loadDataTry (self : DataManager) (o : FetchOutcome) :
    DataManager × Except JsError CityData :=
  match o with
  | .rejected => (self, .error (.typeError "Failed to fetch"))
  | .response ok status body =>
    if !ok then
      (self, .error (.error ("HTTP error! status: " ++ toString status)))
    else
      match body with
      | none => (self, .error (.syntaxError "Unexpected token in JSON"))
      | some data =>
        let s1 : DataManager := { self with apiSources := data }
        match createCityDataWithAPISources data with
        | .error e => (s1, .error e)
        | .ok cd => ({ s1 with cityData := some cd, isLoaded := true }, .ok cd)

/-- `DataManager.loadData()`: the `try` block, and on any error the `catch` block, which
stores and returns the fallback catalog.  The result is the receiver after the call and the
value the returned promise settles to (`.ok` resolved, `.error` rejected). -/
def DataManager.loadData (self : DataManager) (o : FetchOutcome) :
    DataManager × Except JsError CityData :=
  match self.loadDataTry o with
  | (s, .ok cd) => (s, .ok cd)
  | (s, .error _) =>
    ({ s with cityData := some getFallbackData, isLoaded := true }, .ok getFallbackData)

/-- `DataManager.getCities()`: `this.cityData?.cities || []` (an array is truthy). -/
def DataManager.getCities (self : DataManager) : List City :=
  match self.cityData with
  | none => []
  | some cd => cd.cities

/-- `DataManager.getCityById(id)`: `this.cityData?.cities?.find(city => city.id === id)`;
`none` is `undefined`. -/
def DataManager.getCityById (self : DataManager) (id : JsVal) : Option City :=
  match self.cityData with
  | none => none
  | some cd => cd.cities.find? (fun city => strictEqualsString id city.id)

/-- `DataManager.getMethodology()`; `none` is `undefined`. -/
def DataManager.getMethodology (self : DataManager) : Option Methodology :=
  self.cityData.map (fun cd => cd.calculation_methodology)

/-- `DataManager.getDataSources()`; `none` is `undefined`. -/
def DataManager.getDataSources (self : DataManager) : Option DataSources :=
  self.cityData.map (fun cd => cd.data_sources)

/-- `DataManager.getAPIIntegration()`; `none` is `undefined`. -/
def DataManager.getAPIIntegration (self : DataManager) : Option JsVal :=
  self.cityData.bind (fun cd => cd.api_integration)

/-! ## Score bands (`helpers.js`, `DashboardManager.js`, `ComparisonManager.js`) -/

/-- `getScoreClass(score)` of `helpers.js`. -/
def getScoreClass (score : Rat) : String :=
  if score ≥ 1.5 then "excellent"
  else if score ≥ 1.0 then "good"
  else if score ≥ 0.5 then "fair"
  else "poor"

/-- `DashboardManager.getScoreClass(score)`. -/
def DashboardManager.getScoreClass (score : Rat) : String :=
  if score ≥ 1.5 then "excellent"
  else if score ≥ 1.0 then "good"
  else if score ≥ 0.5 then "fair"
  else "poor"

/-- Rank label that the score-threshold table of the specification assigns to a score:
at least 1.5 "Excellent", at least 1.0 "Good", at least 0.5 "Fair", otherwise "Poor". -/
def specRankLabel (score : Rat) : String :=
  if score ≥ 1.5 then "Excellent"
  else if score ≥ 1.0 then "Good"
  else if score ≥ 0.5 then "Fair"
  else "Poor"

/-! ## City comparison (`ComparisonManager.js`) -/

/-- A `<select>` element, as far as the program reads and writes it: its value, and its
options as pairs of value and text. -/
structure SelectElement where
  value : String
  options : List (String × String) := []

/-- A value interpolated into a metric row: `formatNumber(n)`, the number `n` itself, or
`n + '%'`. -/
inductive MetricValue where
  | formatted (n : Rat) : MetricValue
  | plain (n : Rat) : MetricValue
  | percent (n : Rat) : MetricValue

/-- The markup of `createComparisonMetric`: its label, the two values and the class added
to each value. -/
structure MetricRow where
  label : String
  value1 : MetricValue
  value2 : MetricValue
  city1Class : String
  city2Class : String

/-- The markup of `determineWinner`: the winner's name with the two scores in the order
shown (each printed with `toFixed(2)`), or the tie message with its score. -/
inductive WinnerAnnouncement where
  | winner (name : String) (first : Rat) (second : Rat) : WinnerAnnouncement
  | tie (score : Rat) : WinnerAnnouncement

/-- One `city-comparison-card` of the header. -/
structure ComparisonCard where
  name : String
  scoreClass : String
  score : Rat
  rank : String

/-- One `comparison-section`: its heading and its metric rows. -/
structure ComparisonSection where
  title : String
  rows : List MetricRow

/-- The markup of `createComparisonContent`. -/
structure ComparisonContent where
  card1 : ComparisonCard
  card2 : ComparisonCard
  sections : List ComparisonSection
  winner : WinnerAnnouncement

/-- What is assigned to `innerHTML`: a fixed markup string or the comparison markup. -/
inductive Html where
  | text (s : String) : Html
  | comparison (c : ComparisonContent) : Html

/-- Fields of a `ComparisonManager` instance; an element field is `none` while it is
`null`, and `comparisonResult` holds the `innerHTML` of the result element. -/
structure ComparisonManager where
  dataManager : DataManager
  city1Select : Option SelectElement
  city2Select : Option SelectElement
  comparisonResult : Option Html

/-- The constructor of `ComparisonManager`. -/
def ComparisonManager.new (dataManager : DataManager) : ComparisonManager :=
  { dataManager := dataManager, city1Select := none, city2Select := none,
    comparisonResult := none }

/-- `ComparisonManager.getScoreClass(score)`. -/
def ComparisonManager.getScoreClass (score : Rat) : String :=
  if score ≥ 1.5 then "excellent"
  else if score ≥ 1.0 then "good"
  else if score ≥ 0.5 then "fair"
  else "poor"

/-- `ComparisonManager.createComparisonMetric(label, value1, value2, city1Better, betterType)`. -/
def ComparisonManager.createComparisonMetric (label : String) (value1 value2 : MetricValue)
    (city1Better : Bool) (betterType : String) : MetricRow :=
  let city1Class := if betterType ≠ "neutral" then (if city1Better then "better-value" else "") else ""
  let city2Class := if betterType ≠ "neutral" then (if city1Better then "" else "better-value") else ""
  { label := label, value1 := value1, value2 := value2,
    city1Class := city1Class, city2Class := city2Class }

/-- `ComparisonManager.determineWinner(city1, city2)`. -/
def ComparisonManager.determineWinner (city1 city2 : City) : WinnerAnnouncement :=
  if city1.eco_balance_score > city2.eco_balance_score then
    .winner city1.name city1.eco_balance_score city2.eco_balance_score
  else if city2.eco_balance_score > city1.eco_balance_score then
    .winner city2.name city2.eco_balance_score city1.eco_balance_score
  else
    .tie city1.eco_balance_score

/-- `ComparisonManager.createComparisonContent(city1, city2)`. -/
def ComparisonManager.createComparisonContent (city1 city2 : City) : ComparisonContent :=
  { card1 :=
      { name := city1.name, scoreClass := ComparisonManager.getScoreClass city1.eco_balance_score,
        score := city1.eco_balance_score, rank := city1.rank }
    card2 :=
      { name := city2.name, scoreClass := ComparisonManager.getScoreClass city2.eco_balance_score,
        score := city2.eco_balance_score, rank := city2.rank }
    sections :=
      [ { title := "🏭 Emissions"
          rows :=
            [ ComparisonManager.createComparisonMetric "Total CO₂ (tons/year)"
                (.formatted city1.emissions.total_co2_tons_per_year)
                (.formatted city2.emissions.total_co2_tons_per_year)
                (decide (city1.emissions.total_co2_tons_per_year
                  < city2.emissions.total_co2_tons_per_year)) "lower",
              ComparisonManager.createComparisonMetric "Per Capita (tons)"
                (.plain city1.emissions.per_capita_tons)
                (.plain city2.emissions.per_capita_tons)
                (decide (city1.emissions.per_capita_tons < city2.emissions.per_capita_tons))
                "lower" ] },
        { title := "🌳 Green Space"
          rows :=
            [ ComparisonManager.createComparisonMetric "Tree Canopy (%)"
                (.percent city1.vegetation.tree_canopy_percent)
                (.percent city2.vegetation.tree_canopy_percent)
                (decide (city1.vegetation.tree_canopy_percent
                  > city2.vegetation.tree_canopy_percent)) "higher",
              ComparisonManager.createComparisonMetric "Green Space (%)"
                (.percent city1.vegetation.green_space_percent)
                (.percent city2.vegetation.green_space_percent)
                (decide (city1.vegetation.green_space_percent
                  > city2.vegetation.green_space_percent)) "higher",
              ComparisonManager.createComparisonMetric "Parks Area (km²)"
                (.plain city1.vegetation.parks_area_km2)
                (.plain city2.vegetation.parks_area_km2)
                (decide (city1.vegetation.parks_area_km2 > city2.vegetation.parks_area_km2))
                "higher" ] },
        { title := "🌱 Carbon Impact"
          rows :=
            [ ComparisonManager.createComparisonMetric "Carbon Sequestration (tons/year)"
                (.formatted city1.vegetation.carbon_sequestration_tons_per_year)
                (.formatted city2.vegetation.carbon_sequestration_tons_per_year)
                (decide (city1.vegetation.carbon_sequestration_tons_per_year
                  > city2.vegetation.carbon_sequestration_tons_per_year)) "higher",
              ComparisonManager.createComparisonMetric "SDG 13 Alignment"
                (.percent city1.sdg13_alignment)
                (.percent city2.sdg13_alignment)
                (decide (city1.sdg13_alignment > city2.sdg13_alignment)) "higher" ] },
        { title := "📊 Demographics"
          rows :=
            [ ComparisonManager.createComparisonMetric "Population"
                (.formatted city1.population) (.formatted city2.population) false "neutral",
              ComparisonManager.createComparisonMetric "Area (km²)"
                (.plain city1.area_km2) (.plain city2.area_km2) false "neutral" ] } ]
    winner := ComparisonManager.determineWinner city1 city2 }

/-- Assignment `this.comparisonResult.innerHTML = html`: a `TypeError` when the element
field is `null`. -/
def ComparisonManager.setResultHtml (self : ComparisonManager) (html : Html) :
    Except JsError ComparisonManager :=
  match self.comparisonResult with
  | none => .error (.typeError "Cannot set properties of null (setting innerHTML)")
  | some _ => .ok { self with comparisonResult := some html }

/-- Read `select?.value`: `none` is `undefined`. -/
def selectValue (select : Option SelectElement) : Option String :=
  select.map (fun el => el.value)

/-- Negation `!id` of a value that is a string or `undefined`. -/
def idFalsy (id : Option String) : Bool :=
  match id with
  | none => true
  | some s => s == ""

/-- A string or `undefined` as a JavaScript value. -/
def idValue (id : Option String) : JsVal :=
  match id with
  | none => .undefined
  | some s => .str s

/-- `ComparisonManager.updateComparison()`. -/
def ComparisonManager.updateComparison (self : ComparisonManager) :
    Except JsError ComparisonManager :=
  let city1Id := selectValue self.city1Select
  let city2Id := selectValue self.city2Select
  if idFalsy city1Id || idFalsy city2Id || city1Id == city2Id then
    self.setResultHtml (.text "<p>Please select two different cities to compare.</p>")
  else
    match self.dataManager.getCityById (idValue city1Id),
        self.dataManager.getCityById (idValue city2Id) with
    | some city1, some city2 =>
      self.setResultHtml (.comparison (ComparisonManager.createComparisonContent city1 city2))
    | _, _ => self.setResultHtml (.text "<p>Error loading city data.</p>")

/-- The row of a comparison with the given label, if there is one. -/
def ComparisonContent.findRow (c : ComparisonContent) (label : String) : Option MetricRow :=
  (c.sections.flatMap (fun s => s.rows)).find? (fun r => r.label == label)

/-- A city record with its `data_sources` property set to the given value. -/
def City.withDataSources (c : City) (ds : JsVal) : City :=
  { c with data_sources := some ds }

/-- A city record without its `data_sources` property. -/
def City.withoutDataSources (c : City) : City :=
  { c with data_sources := none }

/-! ## Sample inputs -/

/-- A payload with one attribution entry, for Paris. -/
def samplePayload : JsVal :=
  .obj [("cities", .arr [.obj [("name", .str "Paris"),
    ("green_space_data", .obj [("source", .str "HUGSI")])]])]

/-- The collection `createCityDataWithAPISources` builds from `samplePayload`. -/
def sampleMerged : CityData :=
  { getFallbackData with
    cities := List.zipWith City.withDataSources getFallbackData.cities
      [.null, .null, .null,
        .obj [("green_space", .obj [("source", .str "HUGSI")]), ("emissions", .undefined)],
        .null, .null, .null, .null, .null]
    api_integration := some samplePayload }

/-- The load fails: the fetch rejects, `response.ok` is false, parsing the body throws, or
merging the parsed payload throws. -/
def FetchOutcome.loadFails (o : FetchOutcome) : Bool :=
  match o with
  | .rejected => true
  | .response false _ _ => true
  | .response true _ none => true
  | .response true _ (some data) =>
    match createCityDataWithAPISources data with
    | .error _ => true
    | .ok _ => false

/-- Two city records agree on every field except `data_sources`. -/
def City.sameStatistics (a b : City) : Prop :=
  a.id = b.id ∧ a.name = b.name ∧ a.country = b.country ∧ a.population = b.population ∧
  a.area_km2 = b.area_km2 ∧ a.coordinates = b.coordinates ∧ a.emissions = b.emissions ∧
  a.vegetation = b.vegetation ∧ a.eco_balance_score = b.eco_balance_score ∧
  a.rank = b.rank ∧ a.sdg13_alignment = b.sdg13_alignment

instance (a b : City) : Decidable (City.sameStatistics a b) := by
  unfold City.sameStatistics
  infer_instance

/-- The store after a load whose fetch was rejected: it holds the fallback catalog. -/
def fallbackStore : DataManager :=
  (DataManager.new.loadData FetchOutcome.rejected).1

/-- A comparison manager over `fallbackStore` with Paris selected on both sides and an empty
result element. -/
def sampleSameCityManager : ComparisonManager :=
  { dataManager := fallbackStore
    city1Select := some { value := "paris" }
    city2Select := some { value := "paris" }
    comparisonResult := some (Html.text "") }

/-- The guidance markup of `updateComparison`. -/
def guidanceHtml : Html :=
  Html.text "<p>Please select two different cities to compare.</p>"

/-- The per-capita emissions of the two cities with the given identifiers and the classes
of the two values in the 'Per Capita (tons)' row of their comparison, when both cities are
in the store. -/
def perCapitaRowOf (store : DataManager) (id1 id2 : String) :
    Option (Rat × Rat × String × String) := do
  let city1 ← store.getCityById (JsVal.str id1)
  let city2 ← store.getCityById (JsVal.str id2)
  let row ← (ComparisonManager.createComparisonContent city1 city2).findRow "Per Capita (tons)"
  pure (city1.emissions.per_capita_tons, city2.emissions.per_capita_tons,
    row.city1Class, row.city2Class)

/-- The winner announcement for the two cities with the given identifiers, when both are in
the store. -/
def winnerOf (store : DataManager) (id1 id2 : String) : Option WinnerAnnouncement := do
  let city1 ← store.getCityById (JsVal.str id1)
  let city2 ← store.getCityById (JsVal.str id2)
  pure (ComparisonManager.determineWinner city1 city2)

/-! ## Number formatting (`Number.prototype.toFixed`, division) -/

/-- The text that `toFixed(2)` prints for a finite number: a minus sign or none, and the
number of hundredths, printed with two digits after the point. -/
structure Fixed2 where
  negative : Bool
  hundredths : Nat
  deriving DecidableEq

/-- `x.toFixed(2)` for a finite `x`: the sign is taken off, and the hundredths are the
integer `n` for which `n / 100` is closest to the magnitude, the larger one when two are
equally close.  (For magnitudes of `10^21` and more JavaScript prints exponent notation
instead, which `Double.toFixed2` tells apart.) -/
def toFixed2 (x : Rat) : Fixed2 :=
  { negative := decide (x < 0), hundredths := (⌊|x| * 100 + 1 / 2⌋).toNat }

/-- The characters of a `Fixed2`. -/
def Fixed2.render (f : Fixed2) : String :=
  (if f.negative then "-" else "") ++ toString (f.hundredths / 100) ++ "." ++
    (if f.hundredths % 100 < 10 then "0" else "") ++ toString (f.hundredths % 100)

/-- The number that a `Fixed2` denotes. -/
def Fixed2.value (f : Fixed2) : Rat :=
  (if f.negative then -1 else 1) * ((f.hundredths : Rat) / 100)

/-- A JavaScript number that results from a division: finite, or one of the three
non-finite values. -/
inductive JsNum where
  | finite (q : Rat) : JsNum
  | posInf : JsNum
  | negInf : JsNum
  | nan : JsNum

/-- Division `a / b` of two finite numbers, with the exact quotient where JavaScript rounds
the quotient to the nearest double. -/
def jsDivide (a b : Rat) : JsNum :=
  if b = 0 then
    if a > 0 then .posInf else if a < 0 then .negInf else .nan
  else .finite (a / b)

/-- The string `x.toFixed(2)`. -/
def JsNum.toFixed2 (x : JsNum) : String :=
  match x with
  | .finite q => (EcoBalance.toFixed2 q).render
  | .posInf => "Infinity"
  | .negInf => "-Infinity"
  | .nan => "NaN"

/-! ## Double-precision arithmetic (the rate of the emissions chart) -/

/-- The integer nearest to a rational, the even one of the two when it lies halfway between
two integers. -/
def roundHalfEven (y : Rat) : Int :=
  if y - ⌊y⌋ < 1 / 2 then ⌊y⌋
  else if 1 / 2 < y - ⌊y⌋ then ⌊y⌋ + 1
  else if ⌊y⌋ % 2 = 0 then ⌊y⌋ else ⌊y⌋ + 1

/-- A JavaScript number as an IEEE 754 double: a finite one is a sign and a magnitude (the
two zeros are `finite false 0` and `finite true 0`), besides the two infinities and NaN. -/
inductive Double where
  | finite (negative : Bool) (magnitude : Rat) : Double
  | inf (negative : Bool) : Double
  | nan : Double

/-- The double with the given sign that is nearest to the magnitude `m` (which is not
negative), the one with the even significand when two are equally near: the magnitude is
rounded to a multiple of `2 ^ (e - 52)`, where `2 ^ e` is the power of two at or below it
and `e` is at least `-1022`; a result of `2 ^ 1024` or more is an infinity. -/
def roundToDouble (negative : Bool) (m : Rat) : Double :=
  if m = 0 then .finite negative 0
  else
    let ulp : Rat := 2 ^ (max (Int.log 2 m) (-1022) - 52)
    let r : Rat := (roundHalfEven (m / ulp) : Rat) * ulp
    if 2 ^ 1024 ≤ r then .inf negative else .finite negative r

/-- The double that a number written in decimal denotes, in source text and in
`JSON.parse`. -/
def toDouble (x : Rat) : Double :=
  roundToDouble (decide (x < 0)) |x|

/-- The number that a finite double of the given sign and magnitude denotes. -/
def signedValue (negative : Bool) (magnitude : Rat) : Rat :=
  if negative then -magnitude else magnitude

/-- The quotient `a / b` of two doubles. -/
def Double.divide : Double → Double → Double
  | .nan, _ => .nan
  | _, .nan => .nan
  | .inf _, .inf _ => .nan
  | .inf s, .finite t _ => .inf (s != t)
  | .finite s _, .inf t => .finite (s != t) 0
  | .finite s a, .finite t b =>
    if b = 0 then
      if a = 0 then .nan else .inf (s != t)
    else roundToDouble (s != t) (a / b)

/-- The product `a * b` of two doubles. -/
def Double.multiply : Double → Double → Double
  | .nan, _ => .nan
  | _, .nan => .nan
  | .inf s, .inf t => .inf (s != t)
  | .inf s, .finite t b => if b = 0 then .nan else .inf (s != t)
  | .finite s a, .inf t => if a = 0 then .nan else .inf (s != t)
  | .finite s a, .finite t b => roundToDouble (s != t) (a * b)

/-- The string that `toFixed(2)` returns, by its form: digits with two decimals; for a
magnitude of `10^21` or more the sign and the text of `Number::toString` for the magnitude
(exponent notation, whose characters are not spelled out here); "Infinity" with or without
a minus sign; "NaN". -/
inductive NumberText where
  | fixed (digits : Fixed2) : NumberText
  | exponent (negative : Bool) (magnitude : Rat) : NumberText
  | infinity (negative : Bool) : NumberText
  | nan : NumberText
  deriving DecidableEq

/-- The characters of a `NumberText`, except of one in exponent notation. -/
def NumberText.text : NumberText → Option String
  | .fixed digits => some digits.render
  | .exponent _ _ => none
  | .infinity negative => some (if negative then "-Infinity" else "Infinity")
  | .nan => some "NaN"

/-- The string `x.toFixed(2)` of a double. -/
def Double.toFixed2 : Double → NumberText
  | .nan => .nan
  | .inf s => .infinity s
  | .finite s m =>
    if 10 ^ 21 ≤ m then .exponent s m
    else .fixed (EcoBalance.toFixed2 (signedValue s m))

/-! ## Marks of a comparison (`ComparisonManager.js`) -/

/-- The first value of the row with the given label carries the 'better-value' class. -/
def ComparisonContent.city1Marked (c : ComparisonContent) (label : String) : Bool :=
  match c.findRow label with
  | some row => row.city1Class == "better-value"
  | none => false

/-- The second value of the row with the given label carries the 'better-value' class. -/
def ComparisonContent.city2Marked (c : ComparisonContent) (label : String) : Bool :=
  match c.findRow label with
  | some row => row.city2Class == "better-value"
  | none => false

/-- The comparison of the two cities with the given identifiers, when both are in the
store. -/
def comparisonOf (store : DataManager) (id1 id2 : String) : Option ComparisonContent := do
  let city1 ← store.getCityById (JsVal.str id1)
  let city2 ← store.getCityById (JsVal.str id2)
  pure (ComparisonManager.createComparisonContent city1 city2)

/-! ## Dashboard summary (`DashboardManager.js`) -/

/-- Fields of a `DashboardManager` instance. -/
structure DashboardManager where
  dataManager : DataManager

/-- The three summary elements of the document: `none` when `getElementById` finds no such
element, otherwise the `textContent` of the element. -/
structure DashboardDom where
  totalCities : Option String
  topPerformer : Option String
  avgScore : Option String

/-- The method `Array.prototype.reduce` without an initial value: a `TypeError` on an empty
array, otherwise the fold from the first element over the rest. -/
def reduceWithoutInitial {α : Type} (f : α → α → α) : List α → Except JsError α
  | [] => .error (.typeError "Reduce of empty array with no initial value")
  | x :: xs => .ok (xs.foldl f x)

/-- The callback of the top-performer `reduce`. -/
def betterOf (best city : City) : City :=
  if city.eco_balance_score > best.eco_balance_score then city else best

/-- The expression `cities.reduce((sum, city) => sum + city.eco_balance_score, 0)`, with
exact additions where JavaScript rounds each sum to the nearest double. -/
def sumOfScores (cities : List City) : Rat :=
  cities.foldl (fun sum city => sum + city.eco_balance_score) 0

/-- `DashboardManager.calculateAndDisplayMetrics()`: the document after the call, and the
error if the call throws. -/
def DashboardManager.calculateAndDisplayMetrics (self : DashboardManager)
    (dom : DashboardDom) : DashboardDom × Except JsError Unit :=
  let cities := self.dataManager.getCities
  let dom1 : DashboardDom :=
    { dom with totalCities := dom.totalCities.map (fun _ => toString cities.length) }
  match reduceWithoutInitial betterOf cities with
  | .error e => (dom1, .error e)
  | .ok topPerformer =>
    let dom2 : DashboardDom :=
      { dom1 with topPerformer := dom1.topPerformer.map (fun _ => topPerformer.name) }
    let avgScore := jsDivide (sumOfScores cities) cities.length
    let dom3 : DashboardDom :=
      { dom2 with avgScore := dom2.avgScore.map (fun _ => avgScore.toFixed2) }
    (dom3, .ok ())

/-- A document that has the three summary elements, all empty. -/
def emptyDashboardDom : DashboardDom :=
  { totalCities := some "", topPerformer := some "", avgScore := some "" }

/-! ## Chart projections (`ChartManager.js`) -/

/-- `ChartManager.getScoreColor(score)`. -/
def ChartManager.getScoreColor (score : Rat) : String :=
  if score ≥ 1.5 then "rgba(34, 197, 94, 0.8)"
  else if score ≥ 1.0 then "rgba(59, 130, 246, 0.8)"
  else if score ≥ 0.5 then "rgba(245, 158, 11, 0.8)"
  else "rgba(239, 68, 68, 0.8)"

/-- The `data` object of `createEcoBalanceChart`: labels and the one dataset. -/
structure EcoBalanceChartData where
  labels : List String
  data : List Rat
  backgroundColor : List String
  borderColor : List String

/-- The `data` object of `createEmissionsChart`: labels, the data of the emissions dataset
and the data of the sequestration dataset (strings, as `toFixed` returns them). -/
structure EmissionsChartData where
  labels : List String
  emissionsData : List Rat
  sequestrationData : List NumberText

/-- The double that `city.vegetation.carbon_sequestration_tons_per_year / city.population
* 1000` evaluates to: the quotient of the two doubles, rounded, times the double 1000,
rounded again. -/
def sequestrationDouble (city : City) : Double :=
  ((toDouble city.vegetation.carbon_sequestration_tons_per_year).divide
    (toDouble city.population)).multiply (toDouble 1000)

/-- The expression mapped over the cities for the sequestration dataset. -/
def sequestrationRate (city : City) : NumberText :=
  (sequestrationDouble city).toFixed2

/-- The `data` object that `createEcoBalanceChart(cities)` builds. -/
def ChartManager.ecoBalanceData (cities : List City) : EcoBalanceChartData :=
  { labels := cities.map (fun city => city.name)
    data := cities.map (fun city => city.eco_balance_score)
    backgroundColor := cities.map (fun city => ChartManager.getScoreColor city.eco_balance_score)
    borderColor := cities.map (fun city => ChartManager.getScoreColor city.eco_balance_score) }

/-- The `data` object that `createEmissionsChart(cities)` builds. -/
def ChartManager.emissionsData (cities : List City) : EmissionsChartData :=
  { labels := cities.map (fun city => city.name)
    emissionsData := cities.map (fun city => city.emissions.per_capita_tons)
    sequestrationData := cities.map sequestrationRate }

/-- Fields of a `ChartManager` instance: each chart is `none` while it is `null`, and
otherwise the data the chart was constructed with. -/
structure ChartManager where
  ecoBalanceChart : Option EcoBalanceChartData
  emissionsChart : Option EmissionsChartData

/-- `ChartManager.createEcoBalanceChart(cities)`; `ctx` tells whether the canvas element
exists.  The chart constructor of the charting library is taken to return a chart that
holds the data it is given. -/
def ChartManager.createEcoBalanceChart (self : ChartManager) (ctx : Bool)
    (cities : List City) : ChartManager :=
  if !ctx then self
  else { self with ecoBalanceChart := some (ChartManager.ecoBalanceData cities) }

/-- `ChartManager.createEmissionsChart(cities)`; `ctx` tells whether the canvas element
exists. -/
def ChartManager.createEmissionsChart (self : ChartManager) (ctx : Bool)
    (cities : List City) : ChartManager :=
  if !ctx then self
  else { self with emissionsChart := some (ChartManager.emissionsData cities) }

/-- The sum of the four sector percentages of a city. -/
def City.sectorTotal (c : City) : Rat :=
  c.emissions.sectors.transport + c.emissions.sectors.buildings +
    c.emissions.sectors.industrial + c.emissions.sectors.waste

/-- A city record used as a sample input: 3000 inhabitants and 10 tons of sequestration a
year, a rate of 3.33 per thousand inhabitants. -/
def sampleCity : City :=
  { id := "sample"
    name := "Sample"
    country := "Nowhere"
    population := 3000
    area_km2 := 10
    coordinates := { lat := 0, lng := 0 }
    emissions :=
      { total_co2_tons_per_year := 6000
        per_capita_tons := 2
        sectors := { transport := 25, buildings := 25, industrial := 25, waste := 25 } }
    vegetation :=
      { tree_canopy_percent := 10
        green_space_percent := 10
        parks_area_km2 := 1
        estimated_trees := 100
        carbon_sequestration_tons_per_year := 10 }
    eco_balance_score := 1
    rank := "Good"
    sdg13_alignment := 50
    data_sources := none }

/-- A city record with 3 tons of sequestration a year and 40000 inhabitants: a rate of
exactly 0.075 per thousand inhabitants, halfway between two hundredths. -/
def halfwayRateCity : City :=
  { sampleCity with
    population := 40000
    vegetation := { sampleCity.vegetation with carbon_sequestration_tons_per_year := 3 } }

/-- A city record whose rate per thousand inhabitants lies just below 41.645, closer to it
than the doubles resolve. -/
def nearHalfwayRateCity : City :=
  { sampleCity with
    population := 9803808155769
    vegetation :=
      { sampleCity.vegetation with carbon_sequestration_tons_per_year := 408279590647 } }

/-! ## Attribution entries (`findCityDataSources`) -/

/-- The callback `c => c.name === cityName` of `findCityDataSources`. -/
def nameIs (cityName : String) (c : JsVal) : Except JsError Bool := do
  let n ← getProp c "name"
  pure (strictEqualsString n cityName)

/-- An entry of the `cities` list whose properties can be read: any value but `null` and
`undefined`. -/
def entryReadable (e : JsVal) : Bool :=
  match e with
  | .undefined => false
  | .null => false
  | _ => true

/-- An entry of the `cities` list is an object whose `name` is the given string,
character for character. -/
def entryHasName (e : JsVal) (n : String) : Bool :=
  match e with
  | .obj kvs =>
    match kvs.lookup "name" with
    | some (.str t) => t == n
    | _ => false
  | _ => false

/-- The object `{green_space: e.green_space_data, emissions: e.emissions_data}` for an
entry with the given properties. -/
def attributionOfEntry (kvs : List (String × JsVal)) : JsVal :=
  .obj [("green_space", (kvs.lookup "green_space_data").getD .undefined),
    ("emissions", (kvs.lookup "emissions_data").getD .undefined)]

/-! ## Navigation (`NavigationManager.js`) -/

/-- A navigation button: its `data-view` attribute (`none` when it has none) and whether it
has the class 'active'. -/
structure NavButton where
  dataView : Option String
  active : Bool
  deriving DecidableEq

/-- An element of the document that has an `id` or the class 'view': whether it has the
class 'view', whether it has the class 'active', and its `style.display`. -/
structure ViewElement where
  id : String
  hasViewClass : Bool
  active : Bool
  display : String
  deriving DecidableEq

/-- The part of the document that navigation reads and writes: the buttons of class
'nav-btn' and the elements that carry an `id` or the class 'view', in document order. -/
structure NavDom where
  buttons : List NavButton
  elements : List ViewElement
  deriving DecidableEq

/-- Fields of a `NavigationManager` instance.  `bound` is false while `navButtons` and
`views` are the empty arrays of the constructor, and true once `initialize` has stored the
node lists of the document in them. -/
structure NavigationManager where
  currentView : String
  bound : Bool

/-- The constructor of `NavigationManager`. -/
def NavigationManager.new : NavigationManager :=
  { currentView := "dashboard", bound := false }

/-- Apply a change to the first element of a list that passes a test. -/
def updateFirst {α : Type} (p : α → Bool) (f : α → α) : List α → List α
  | [] => []
  | x :: xs => if p x then f x :: xs else x :: updateFirst p f xs

/-- `NavigationManager.showView(viewName)`: the receiver and the document after the call.
The 'viewChanged' event it dispatches has listeners that only log and schedule a chart
update; they are left out. -/
def NavigationManager.showView (self : NavigationManager) (dom : NavDom) (viewName : String) :
    NavigationManager × NavDom :=
  let buttons :=
    if self.bound then
      dom.buttons.map (fun btn => { btn with active := btn.dataView == some viewName })
    else dom.buttons
  let hidden :=
    if self.bound then
      dom.elements.map (fun view =>
        if view.hasViewClass then { view with active := false, display := "none" } else view)
    else dom.elements
  if hidden.any (fun el => el.id == viewName ++ "-view") then
    ({ self with currentView := viewName },
      { buttons := buttons
        elements := updateFirst (fun el => el.id == viewName ++ "-view")
          (fun el => { el with active := true, display := "block" }) hidden })
  else
    (self, { buttons := buttons, elements := hidden })

/-- `NavigationManager.initialize()`. -/
def NavigationManager.initialize (self : NavigationManager) (dom : NavDom) :
    NavigationManager × NavDom :=
  NavigationManager.showView { self with bound := true } dom "dashboard"

/-- `NavigationManager.getCurrentView()`. -/
def NavigationManager.getCurrentView (self : NavigationManager) : String :=
  self.currentView

/-! ## The application (`app.js`) -/

/-- The calls inside the `try` block of `EcoBalanceApp.init`, in source order; the three
manager constructions count as one step. -/
inductive InitStep where
  | loadData : InitStep
  | createManagers : InitStep
  | navigationInitialize : InitStep
  | modalInitialize : InitStep
  | dashboardInitialize : InitStep
  | comparisonInitialize : InitStep
  | apiInitialize : InitStep
  | createEcoBalanceChart : InitStep
  | createEmissionsChart : InitStep
  | setupEventListeners : InitStep
  | updateMethodologyView : InitStep
  deriving DecidableEq

/-- The calls inside the `try` block of `EcoBalanceApp.refreshData`, in source order. -/
inductive RefreshStep where
  | loadData : RefreshStep
  | dashboardUpdate : RefreshStep
  | updateCharts : RefreshStep
  | populateCitySelects : RefreshStep
  | populateDataSources : RefreshStep
  deriving DecidableEq

/-- What the surroundings of the application decide: the outcome of the fetch, and for each
call into a module whether it throws (the modules work on the document and on the charting
library, which are not part of the repository).  The flags range over every possibility,
also over throws that the code of a module excludes. -/
structure AppEnv where
  fetch : FetchOutcome
  initThrows : InitStep → Bool
  refreshThrows : RefreshStep → Bool

/-- Fields of an `EcoBalanceApp` instance.  For the three managers that the constructor
leaves `null` only the fact that they have been created is kept. -/
structure EcoBalanceApp where
  dataManager : DataManager
  navigationManager : NavigationManager
  hasDashboardManager : Bool
  hasComparisonManager : Bool
  hasApiManager : Bool
  isInitialized : Bool

/-- The application together with the document parts it works on: the navigation part, the
message of the error banner (`none` when there is no banner), and the calls made so far
inside `init` and `refreshData`, oldest first. -/
structure AppState where
  app : EcoBalanceApp
  nav : NavDom
  errorBanner : Option String
  initCalls : List InitStep
  refreshCalls : List RefreshStep

/-- The constructor of `EcoBalanceApp`, on a document without error banner. -/
def EcoBalanceApp.new (nav : NavDom) : AppState :=
  { app :=
      { dataManager := DataManager.new
        navigationManager := NavigationManager.new
        hasDashboardManager := false
        hasComparisonManager := false
        hasApiManager := false
        isInitialized := false }
    nav := nav
    errorBanner := none
    initCalls := []
    refreshCalls := [] }

/-- The statements of `init` in source order. -/
def initSteps : List InitStep :=
  [.loadData, .createManagers, .navigationInitialize, .modalInitialize, .dashboardInitialize,
    .comparisonInitialize, .apiInitialize, .createEcoBalanceChart, .createEmissionsChart,
    .setupEventListeners, .updateMethodologyView]

/-- The statements of `refreshData` in source order. -/
def refreshSteps : List RefreshStep :=
  [.loadData, .dashboardUpdate, .updateCharts, .populateCitySelects, .populateDataSources]

/-- The value of an awaited `loadData()`: nothing when the promise resolves, the error when
it rejects. -/
def awaitLoad (r : Except JsError CityData) : Except JsError Unit :=
  match r with
  | .ok _ => .ok ()
  | .error e => .error e

/-- One statement of `init`: the state after it, and the error if it throws. -/
def EcoBalanceApp.initStep (env : AppEnv) (w : AppState) (step : InitStep) :
    AppState × Except JsError Unit :=
  let w1 : AppState := { w with initCalls := w.initCalls ++ [step] }
  match step with
  | .loadData =>
    ({ w1 with app := { w1.app with dataManager := (w1.app.dataManager.loadData env.fetch).1 } },
      awaitLoad (w1.app.dataManager.loadData env.fetch).2)
  | .createManagers =>
    ({ w1 with app := { w1.app with
        hasDashboardManager := true, hasComparisonManager := true, hasApiManager := true } },
      .ok ())
  | .navigationInitialize =>
    ({ w1 with
        app := { w1.app with
          navigationManager :=
            ( NavigationManager.initialize w1.app.navigationManager w1.nav).1 }
        nav := ( NavigationManager.initialize w1.app.navigationManager w1.nav).2 },
      .ok ())
  | other =>
    if env.initThrows other then (w1, .error (.error "thrown by a module")) else (w1, .ok ())

/-- One statement of `refreshData`: the state after it, and the error if it throws.  A call
on a manager that is still `null` is a `TypeError`. -/
def EcoBalanceApp.refreshStep (env : AppEnv) (w : AppState) (step : RefreshStep) :
    AppState × Except JsError Unit :=
  let w1 : AppState := { w with refreshCalls := w.refreshCalls ++ [step] }
  let viaModule : AppState × Except JsError Unit :=
    if env.refreshThrows step then (w1, .error (.error "thrown by a module")) else (w1, .ok ())
  let onNull : AppState × Except JsError Unit :=
    (w1, .error (.typeError "Cannot read properties of null"))
  match step with
  | .loadData =>
    ({ w1 with app := { w1.app with dataManager := (w1.app.dataManager.loadData env.fetch).1 } },
      awaitLoad (w1.app.dataManager.loadData env.fetch).2)
  | .dashboardUpdate => if w.app.hasDashboardManager then viaModule else onNull
  | .updateCharts => viaModule
  | .populateCitySelects => if w.app.hasComparisonManager then viaModule else onNull
  | .populateDataSources => if w.app.hasApiManager then viaModule else onNull

/-- The statements of a `try` block of `init`, one after the other, up to the first that
throws. -/
def EcoBalanceApp.runInitSteps (env : AppEnv) (w : AppState) :
    List InitStep → AppState × Except JsError Unit
  | [] => (w, .ok ())
  | step :: rest =>
    match EcoBalanceApp.initStep env w step with
    | (w1, .ok _) => EcoBalanceApp.runInitSteps env w1 rest
    | (w1, .error e) => (w1, .error e)

/-- The statements of the `try` block of `refreshData`, one after the other, up to the first
that throws. -/
def EcoBalanceApp.runRefreshSteps (env : AppEnv) (w : AppState) :
    List RefreshStep → AppState × Except JsError Unit
  | [] => (w, .ok ())
  | step :: rest =>
    match EcoBalanceApp.refreshStep env w step with
    | (w1, .ok _) => EcoBalanceApp.runRefreshSteps env w1 rest
    | (w1, .error e) => (w1, .error e)

/-- `EcoBalanceApp.showErrorMessage(message)`: the banner is created if there is none and
shows the message.  (Its removal after 10 seconds is outside this model.) -/
def EcoBalanceApp.showErrorMessage (w : AppState) (message : String) : AppState :=
  { w with errorBanner := some message }

/-- `EcoBalanceApp.init()`: the `try` block, then `isInitialized = true`, or the `catch`
block.  The second component is the value the returned promise settles to. -/
def EcoBalanceApp.init (env : AppEnv) (w : AppState) : AppState × Except JsError Unit :=
  match EcoBalanceApp.runInitSteps env w initSteps with
  | (w1, .ok _) => ({ w1 with app := { w1.app with isInitialized := true } }, .ok ())
  | (w1, .error _) =>
    (EcoBalanceApp.showErrorMessage w1
      "Failed to load the application. Please refresh the page.", .ok ())

/-- `EcoBalanceApp.refreshData()`: the `try` block or the `catch` block. -/
def EcoBalanceApp.refreshData (env : AppEnv) (w : AppState) :
    AppState × Except JsError Unit :=
  match EcoBalanceApp.runRefreshSteps env w refreshSteps with
  | (w1, .ok _) => (w1, .ok ())
  | (w1, .error _) =>
    (EcoBalanceApp.showErrorMessage w1 "Failed to refresh data. Please try again.", .ok ())

/-- Whether a statement of `init` throws: the load, the constructors and
`NavigationManager.initialize` never do, for the other calls the surroundings decide. -/
def initStepThrows (env : AppEnv) (step : InitStep) : Bool :=
  match step with
  | .loadData => false
  | .createManagers => false
  | .navigationInitialize => false
  | other => env.initThrows other

/-- Surroundings in which the fetch is rejected and exactly the given `init` call throws. -/
def envFailingAt (step : InitStep) : AppEnv :=
  { fetch := FetchOutcome.rejected
    initThrows := fun s => decide (s = step)
    refreshThrows := fun _ => false }

/-- Surroundings in which the fetch is rejected and no module call throws. -/
def quietEnv : AppEnv :=
  { fetch := FetchOutcome.rejected
    initThrows := fun _ => false
    refreshThrows := fun _ => false }

/-- A document with the four views of the application and their buttons. -/
def sampleNavDom : NavDom :=
  { buttons :=
      [ { dataView := some "dashboard", active := true },
        { dataView := some "comparison", active := false },
        { dataView := some "data-sources", active := false },
        { dataView := some "methodology", active := false } ]
    elements :=
      [ { id := "dashboard-view", hasViewClass := true, active := true, display := "block" },
        { id := "comparison-view", hasViewClass := true, active := false, display := "none" },
        { id := "data-sources-view", hasViewClass := true, active := false, display := "none" },
        { id := "methodology-view", hasViewClass := true, active := false, display := "none" } ] }

/-- The user switches to a view: `showView(viewName)` on the navigation manager of the
application. -/
def AppState.switchView (w : AppState) (viewName : String) : AppState :=
  { w with
    app := { w.app with
      navigationManager := (w.app.navigationManager.showView w.nav viewName).1 }
    nav := (w.app.navigationManager.showView w.nav viewName).2 }

/-! ## Score colours and the remaining score-band copies (`helpers.js`, `ModalManager.js`) -/

/-- `getScoreColor(score)` of `helpers.js`. -/
def getScoreColor (score : Rat) : String :=
  if score ≥ 1.5 then "rgba(34, 197, 94, 0.8)"
  else if score ≥ 1.0 then "rgba(59, 130, 246, 0.8)"
  else if score ≥ 0.5 then "rgba(245, 158, 11, 0.8)"
  else "rgba(239, 68, 68, 0.8)"

/-- `ModalManager.getScoreClass(score)`. -/
def ModalManager.getScoreClass (score : Rat) : String :=
  if score ≥ 1.5 then "excellent"
  else if score ≥ 1.0 then "good"
  else if score ≥ 0.5 then "fair"
  else "poor"

/-! ## City cards (`DashboardManager.js`) -/

/-- The markup of `createCityCard`: the values interpolated into the template.  The rank is
kept once; the template prints it and its lower-cased form. -/
structure CityCard where
  cityId : String
  name : String
  scoreClass : String
  score : String
  country : String
  population : MetricValue
  rank : String
  perCapita : Rat
  treeCanopy : Rat
  sequestration : MetricValue
  sdg13 : Rat
  sectors : List (String × Rat)

/-- `DashboardManager.createCityCard(city)`. -/
def DashboardManager.createCityCard (city : City) : CityCard :=
  { cityId := city.id
    name := city.name
    scoreClass := DashboardManager.getScoreClass city.eco_balance_score
    score := (toFixed2 city.eco_balance_score).render
    country := city.country
    population := .formatted city.population
    rank := city.rank
    perCapita := city.emissions.per_capita_tons
    treeCanopy := city.vegetation.tree_canopy_percent
    sequestration := .formatted city.vegetation.carbon_sequestration_tons_per_year
    sdg13 := city.sdg13_alignment
    sectors :=
      [ ("transport".capitalize, city.emissions.sectors.transport),
        ("buildings".capitalize, city.emissions.sectors.buildings),
        ("industrial".capitalize, city.emissions.sectors.industrial),
        ("waste".capitalize, city.emissions.sectors.waste) ] }

/-- The dashboard part of the document: the three summary elements and the cards of the
`cities-grid` element (`none` when there is no such element). -/
structure DashboardPage where
  summary : DashboardDom
  citiesGrid : Option (List CityCard)

/-- `DashboardManager.renderCityCards()`. -/
def DashboardManager.renderCityCards (self : DashboardManager) (page : DashboardPage) :
    DashboardPage :=
  match page.citiesGrid with
  | none => page
  | some _ =>
    { page with citiesGrid := some (self.dataManager.getCities.map DashboardManager.createCityCard) }

/-- The two calls that `DashboardManager.initialize()` and `DashboardManager.update()` both
consist of: `calculateAndDisplayMetrics()`, then `renderCityCards()`. -/
def DashboardManager.metricsThenCards (self : DashboardManager) (page : DashboardPage) :
    DashboardPage × Except JsError Unit :=
  match self.calculateAndDisplayMetrics page.summary with
  | (summary, .error e) => ({ page with summary := summary }, .error e)
  | (summary, .ok _) => (self.renderCityCards { page with summary := summary }, .ok ())

/-- `DashboardManager.initialize()`. -/
def DashboardManager.initialize (self : DashboardManager) (page : DashboardPage) :
    DashboardPage × Except JsError Unit :=
  self.metricsThenCards page

/-- `DashboardManager.update()`. -/
def DashboardManager.update (self : DashboardManager) (page : DashboardPage) :
    DashboardPage × Except JsError Unit :=
  self.metricsThenCards page

/-- A dashboard document with the summary elements and an empty grid. -/
def emptyDashboardPage : DashboardPage :=
  { summary := emptyDashboardDom, citiesGrid := some [] }

/-- The announcement and the marks of the 'Per Capita (tons)' row for the two cities with
the given identifiers, when both are in the store. -/
def perCapitaMarksOf (store : DataManager) (id1 id2 : String) :
    Option (Rat × Rat × Bool × Bool) := do
  let city1 ← store.getCityById (JsVal.str id1)
  let city2 ← store.getCityById (JsVal.str id2)
  pure (city1.emissions.per_capita_tons, city2.emissions.per_capita_tons,
    (ComparisonManager.createComparisonContent city1 city2).city1Marked "Per Capita (tons)",
    (ComparisonManager.createComparisonContent city1 city2).city2Marked "Per Capita (tons)")

/-- A second sample city, which differs from `sampleCity` in identifier, name and score. -/
def otherSampleCity : City :=
  { sampleCity with id := "other", name := "Other", eco_balance_score := 2 }

/-! ## Views of the document and module order (for `NavigationManager.js`, `app.js`) -/

/-- What `showView` does to each element of `views`: the class 'active' is removed and the
element is hidden; elements that are not views are left alone. -/
def hideView (view : ViewElement) : ViewElement :=
  if view.hasViewClass then { view with active := false, display := "none" } else view

/-- The views of the document that have the class 'active'. -/
def NavDom.activeViews (dom : NavDom) : List ViewElement :=
  dom.elements.filter (fun el => el.hasViewClass && el.active)

/-- The views of the document that are displayed. -/
def NavDom.displayedViews (dom : NavDom) : List ViewElement :=
  dom.elements.filter (fun el => el.hasViewClass && el.display != "none")

/-- The data-dependent modules of the application. -/
inductive AppModule where
  | dashboard : AppModule
  | comparison : AppModule
  | apiCatalog : AppModule
  | charts : AppModule
  deriving DecidableEq

/-- The data-dependent module that a statement of `init` initializes, if any
(`updateMethodologyView` fills the methodology view, which a refresh does not touch). -/
def InitStep.target (step : InitStep) : Option AppModule :=
  match step with
  | .dashboardInitialize => some .dashboard
  | .comparisonInitialize => some .comparison
  | .apiInitialize => some .apiCatalog
  | .createEcoBalanceChart => some .charts
  | .createEmissionsChart => some .charts
  | _ => none

/-- The data-dependent module that a statement of `refreshData` updates, if any. -/
def RefreshStep.target (step : RefreshStep) : Option AppModule :=
  match step with
  | .loadData => none
  | .dashboardUpdate => some .dashboard
  | .updateCharts => some .charts
  | .populateCitySelects => some .comparison
  | .populateDataSources => some .apiCatalog

/-- The modules in the order in which `init` first reaches them. -/
def initModuleOrder : List AppModule :=
  (initSteps.filterMap InitStep.target).eraseDups

/-- The modules in the order in which `refreshData` reaches them. -/
def refreshModuleOrder : List AppModule :=
  refreshSteps.filterMap RefreshStep.target

/-- In a list of modules, `a` comes before `b`. -/
def comesBefore (order : List AppModule) (a b : AppModule) : Bool :=
  decide (order.indexOf a < order.indexOf b)

/-- An application after `init` on the sample document, with nothing throwing. -/
def initializedSampleApp : AppState :=
  (EcoBalanceApp.init quietEnv (EcoBalanceApp.new sampleNavDom)).1

/-! ## Module start-up (`ComparisonManager.js`, `ModalManager.js`, `APIManager.js`) -/

/-- What an `initialize()` call leaves behind: the receiver, the console warnings it
logged, whether it registered its event listeners, and the error if it throws. -/
structure ModuleStart (α : Type) where
  manager : α
  warnings : List String
  listening : Bool
  outcome : Except JsError Unit

/-- The elements that `ComparisonManager.initialize` looks up by `id`; `none` when the
document has no such element. -/
structure ComparisonDom where
  city1Select : Option SelectElement
  city2Select : Option SelectElement
  comparisonResult : Option Html

/-- The options that `populateCitySelects` writes into a select: the placeholder with the
empty value, then one option for each city with its `id` as value and its name as text. -/
def citySelectOptions (cities : List City) : List (String × String) :=
  ("", "Select a city...") :: cities.map (fun city => (city.id, city.name))

/-- `ComparisonManager.populateCitySelects()`: each select that exists receives the
options; with its content replaced, its value is that of the first option. -/
def ComparisonManager.populateCitySelects (self : ComparisonManager) : ComparisonManager :=
  { self with
    city1Select := self.city1Select.map (fun _ =>
      { value := "", options := citySelectOptions self.dataManager.getCities })
    city2Select := self.city2Select.map (fun _ =>
      { value := "", options := citySelectOptions self.dataManager.getCities }) }

/-- `ComparisonManager.initialize()`. -/
def ComparisonManager.initialize (self : ComparisonManager) (dom : ComparisonDom) :
    ModuleStart ComparisonManager :=
  let bound : ComparisonManager :=
    { self with
      city1Select := dom.city1Select
      city2Select := dom.city2Select
      comparisonResult := dom.comparisonResult }
  if bound.city1Select.isNone || bound.city2Select.isNone || bound.comparisonResult.isNone then
    { manager := bound, warnings := ["Comparison elements not found"], listening := false,
      outcome := .ok () }
  else
    { manager := bound.populateCitySelects, warnings := [], listening := true,
      outcome := .ok () }

/-- The modal element, as far as the program reads it. -/
structure ModalElement where
  active : Bool

/-- A button element. -/
structure ButtonElement where
  textContent : String
  disabled : Bool

/-- An element of which only the text is used. -/
structure PlainElement where
  textContent : String

/-- Fields of a `ModalManager` instance; a field is `none` while it is `null`. -/
structure ModalManager where
  modal : Option ModalElement
  modalContent : Option PlainElement
  closeBtn : Option ButtonElement

/-- The elements that `ModalManager.initialize` looks up. -/
structure ModalDom where
  modal : Option ModalElement
  modalContent : Option PlainElement
  closeBtn : Option ButtonElement

/-- The constructor of `ModalManager`. -/
def ModalManager.new : ModalManager :=
  { modal := none, modalContent := none, closeBtn := none }

/-- `ModalManager.initialize()`. -/
def ModalManager.initialize (self : ModalManager) (dom : ModalDom) : ModuleStart ModalManager :=
  let bound : ModalManager :=
    { self with modal := dom.modal, modalContent := dom.modalContent, closeBtn := dom.closeBtn }
  if bound.modal.isNone || bound.modalContent.isNone || bound.closeBtn.isNone then
    { manager := bound, warnings := ["Modal elements not found"], listening := false,
      outcome := .ok () }
  else
    { manager := bound, warnings := [], listening := true, outcome := .ok () }

/-- The markup of `createDataSourceCard`: the name and country of the entry, and its
`green_space_data` and `emissions_data` when they are truthy (the template prints their
`source`, `description` and further properties). -/
structure DataSourceCard where
  name : JsVal
  country : JsVal
  greenSpace : Option JsVal
  emissions : Option JsVal

/-- `APIManager.createDataSourceCard(city)`; it throws when the entry is `null` or
`undefined`. -/
def APIManager.createDataSourceCard (city : JsVal) : Except JsError DataSourceCard := do
  let name ← getProp city "name"
  let country ← getProp city "country"
  let g ← getProp city "green_space_data"
  let e ← getProp city "emissions_data"
  pure
    { name := name, country := country
      greenSpace := if truthy g then some g else none
      emissions := if truthy e then some e else none }

/-- Fields of an `APIManager` instance; an element field is `none` while it is `null`. -/
structure APIManager where
  dataManager : DataManager
  fetchDataBtn : Option ButtonElement
  apiResponse : Option PlainElement
  apiJson : Option PlainElement

/-- The elements that `APIManager` looks up; `dataSourcesList` holds the cards of the
'data-sources-list' element. -/
structure ApiDom where
  fetchDataBtn : Option ButtonElement
  apiResponse : Option PlainElement
  apiJson : Option PlainElement
  dataSourcesList : Option (List DataSourceCard)

/-- The constructor of `APIManager`. -/
def APIManager.new (dataManager : DataManager) : APIManager :=
  { dataManager := dataManager, fetchDataBtn := none, apiResponse := none, apiJson := none }

/-- A value that may be `undefined`, as a JavaScript value. -/
def optionToJs (v : Option JsVal) : JsVal :=
  v.getD JsVal.undefined

/-- `APIManager.populateDataSources()`: the content of the 'data-sources-list' element after
the call, and the error if the call throws. -/
def APIManager.populateDataSources (self : APIManager)
    (container : Option (List DataSourceCard)) :
    Option (List DataSourceCard) × Except JsError Unit :=
  let apiIntegration := optionToJs self.dataManager.getAPIIntegration
  if !truthy apiIntegration then (container, .ok ())
  else
    match getProp apiIntegration "cities" with
    | .error e => (container, .error e)
    | .ok cities =>
      if !truthy cities then (container, .ok ())
      else
        match container with
        | none => (none, .ok ())
        | some _ =>
          match cities with
          | .arr xs =>
            match xs.mapM APIManager.createDataSourceCard with
            | .ok cards => (some cards, .ok ())
            | .error e => (container, .error e)
          | _ => (container, .error (.typeError "apiIntegration.cities.map is not a function"))

/-- `APIManager.initialize()`: what it leaves behind, and the content of the
'data-sources-list' element after the call. -/
def APIManager.initialize (self : APIManager) (dom : ApiDom) :
    ModuleStart APIManager × Option (List DataSourceCard) :=
  let bound : APIManager :=
    { self with
      fetchDataBtn := dom.fetchDataBtn, apiResponse := dom.apiResponse, apiJson := dom.apiJson }
  match bound.fetchDataBtn with
  | none =>
    ({ manager := bound, warnings := [], listening := false, outcome := .ok () },
      dom.dataSourcesList)
  | some _ =>
    ({ manager := bound, warnings := [], listening := true,
        outcome := (bound.populateDataSources dom.dataSourcesList).2 },
      (bound.populateDataSources dom.dataSourcesList).1)

/-- Whether a call threw. -/
def threw (r : Except JsError Unit) : Bool :=
  match r with
  | .ok _ => false
  | .error _ => true

/-- The surroundings of a new application whose document has the given module surfaces: the
`initialize` calls of the comparison, modal and API managers throw exactly when their
embeddings do, on the store as the load of `init` leaves it; for the other calls the flags
are given. -/
def moduleEnv (fetch : FetchOutcome) (cdom : ComparisonDom) (mdom : ModalDom) (adom : ApiDom)
    (others : InitStep → Bool) : AppEnv :=
  { fetch := fetch
    initThrows := fun step =>
      match step with
      | .comparisonInitialize =>
        threw ( ComparisonManager.initialize
          (ComparisonManager.new (DataManager.new.loadData fetch).1) cdom).outcome
      | .modalInitialize => threw ( ModalManager.initialize ModalManager.new mdom).outcome
      | .apiInitialize =>
        threw ( APIManager.initialize
          (APIManager.new (DataManager.new.loadData fetch).1) adom).1.outcome
      | other => others other
    refreshThrows := fun _ => false }

/-- A document without the elements of the comparison view. -/
def noComparisonDom : ComparisonDom :=
  { city1Select := none, city2Select := none, comparisonResult := none }

/-- A document without the elements of the modal. -/
def noModalDom : ModalDom :=
  { modal := none, modalContent := none, closeBtn := none }

/-- A document without the elements of the API view. -/
def noApiDom : ApiDom :=
  { fetchDataBtn := none, apiResponse := none, apiJson := none, dataSourcesList := none }

/-! ## Simulated API responses (`APIManager.js`) -/

/-- The `green_space_api` object of a response. -/
structure GreenSpaceApi where
  source : JsVal
  endpoint : JsVal
  data_type : String
  tree_canopy_coverage : Rat
  green_space_percentage : Rat
  parks_area_km2 : Rat
  estimated_trees : Rat

/-- The `emissions_api` object of a response. -/
structure EmissionsApi where
  source : JsVal
  endpoint : JsVal
  data_type : String
  total_emissions_tons_co2 : Rat
  per_capita_emissions : Rat
  sectors : Sectors

/-- The `calculated_metrics` object of a response. -/
structure CalculatedMetrics where
  eco_balance_score : Rat
  rank : String
  sdg13_alignment : Rat
  carbon_sequestration_tons_year : Rat

/-- One element of the list that `generateAPIResponses` maps the cities to; an `api` field
is `none` when it is `null`. -/
structure ApiResponse where
  city : String
  country : String
  green_space_api : Option GreenSpaceApi
  emissions_api : Option EmissionsApi
  calculated_metrics : CalculatedMetrics

/-- The expression `apiIntegration?.cities?.find(c => c.name === name)`. -/
def lookupCityApiData (apiIntegration : JsVal) (name : String) : Except JsError JsVal :=
  match apiIntegration with
  | .undefined => .ok .undefined
  | .null => .ok .undefined
  | _ =>
    match getProp apiIntegration "cities" with
    | .error e => .error e
    | .ok .undefined => .ok .undefined
    | .ok .null => .ok .undefined
    | .ok (.arr xs) => arrayFind (nameIs name) xs
    | .ok _ => .error (.typeError "apiIntegration?.cities?.find is not a function")

/-- The expression `cityApiData?.key`: `undefined` on `null` and `undefined`. -/
def optionalProp (v : JsVal) (key : String) : JsVal :=
  match v with
  | .undefined => .undefined
  | .null => .undefined
  | .obj kvs => (kvs.lookup key).getD .undefined
  | _ => .undefined

/-- The object that the callback of `generateAPIResponses` returns for a city, given the
entry found for it. -/
def apiResponseOf (city : City) (cityApiData : JsVal) : ApiResponse :=
  { city := city.name
    country := city.country
    green_space_api :=
      if truthy (optionalProp cityApiData "green_space_data") then
        some
          { source := optionalProp (optionalProp cityApiData "green_space_data") "source"
            endpoint := optionalProp (optionalProp cityApiData "green_space_data") "api_url"
            data_type := "urban_greenery"
            tree_canopy_coverage := city.vegetation.tree_canopy_percent
            green_space_percentage := city.vegetation.green_space_percent
            parks_area_km2 := city.vegetation.parks_area_km2
            estimated_trees := city.vegetation.estimated_trees }
      else none
    emissions_api :=
      if truthy (optionalProp cityApiData "emissions_data") then
        some
          { source := optionalProp (optionalProp cityApiData "emissions_data") "source"
            endpoint := optionalProp (optionalProp cityApiData "emissions_data") "api_url"
            data_type := "city_emissions"
            total_emissions_tons_co2 := city.emissions.total_co2_tons_per_year
            per_capita_emissions := city.emissions.per_capita_tons
            sectors := city.emissions.sectors }
      else none
    calculated_metrics :=
      { eco_balance_score := city.eco_balance_score
        rank := city.rank
        sdg13_alignment := city.sdg13_alignment
        carbon_sequestration_tons_year := city.vegetation.carbon_sequestration_tons_per_year } }

/-- The callback of the `map` in `generateAPIResponses`. -/
def apiResponseFor (apiIntegration : JsVal) (city : City) : Except JsError ApiResponse :=
  match lookupCityApiData apiIntegration city.name with
  | .error e => .error e
  | .ok cityApiData => .ok (apiResponseOf city cityApiData)

/-- The method `Array.prototype.map` over a list with a callback that may throw: the first
error ends it. -/
def mapThrowing {α β : Type} (f : α → Except JsError β) : List α → Except JsError (List β)
  | [] => .ok []
  | x :: xs =>
    match f x with
    | .error e => .error e
    | .ok y =>
      match mapThrowing f xs with
      | .error e => .error e
      | .ok ys => .ok (y :: ys)

/-- `APIManager.generateAPIResponses(cities, apiIntegration)`. -/
def APIManager.generateAPIResponses (cities : List City) (apiIntegration : JsVal) :
    Except JsError (List ApiResponse) :=
  match mapThrowing (apiResponseFor apiIntegration) cities with
  | .error e => .error e
  | .ok all =>
    .ok (all.filter (fun cityData =>
      cityData.green_space_api.isSome || cityData.emissions_api.isSome))

/-- The first entry of a list of payload entries that carries the given name, `undefined`
when there is none. -/
def entryFor (entries : List JsVal) (name : String) : JsVal :=
  (entries.find? (fun e => entryHasName e name)).getD JsVal.undefined

/-- A city has attribution in a list of payload entries: the first entry that carries the
name of the city has a truthy `green_space_data` or a truthy `emissions_data`. -/
def hasAttribution (entries : List JsVal) (city : City) : Bool :=
  truthy (optionalProp (entryFor entries city.name) "green_space_data") ||
    truthy (optionalProp (entryFor entries city.name) "emissions_data")

/-! ## Deep clone (`helpers.js`) -/

/-- The assignment `clonedObj[key] = value` on an object that was created as `{}`: for the
key `__proto__` the assignment reaches the setter of `Object.prototype` and creates no own
property (for a value that is an object or an array the setter installs it as the prototype
of the clone, which is not represented: the result lists own properties only); for any
other key it replaces the own property of that name or adds one at the end. -/
def assignProp (o : List (String × JsVal)) (key : String) (v : JsVal) :
    List (String × JsVal) :=
  if key == "__proto__" then o
  else if o.any (fun kv => kv.1 == key) then
    o.map (fun kv => if kv.1 == key then (key, v) else kv)
  else o ++ [(key, v)]

mutual
/-- `deepClone(obj)` on a value built from `null`, booleans, numbers, strings, arrays and
plain objects (the keys of an object being distinct, in enumeration order).  In the loop
over the keys, `obj.hasOwnProperty(key)` calls the own property of that name when the object
has one, which is not a function, and raises a `TypeError`. -/
def deepClone : JsVal → Except JsError JsVal
  | .arr xs =>
    match deepCloneItems xs with
    | .ok ys => .ok (.arr ys)
    | .error e => .error e
  | .obj kvs =>
    if kvs.any (fun kv => kv.1 == "hasOwnProperty") then
      .error (.typeError "obj.hasOwnProperty is not a function")
    else
      match deepCloneProps kvs [] with
      | .ok o => .ok (.obj o)
      | .error e => .error e
  | v => .ok v
/-- The expression `obj.map(item => deepClone(item))`. -/
def deepCloneItems : List JsVal → Except JsError (List JsVal)
  | [] => .ok []
  | x :: xs =>
    match deepClone x with
    | .error e => .error e
    | .ok y =>
      match deepCloneItems xs with
      | .error e => .error e
      | .ok ys => .ok (y :: ys)
/-- The `for (const key in obj)` loop of `deepClone` over the remaining properties, with the
object cloned so far. -/
def deepCloneProps : List (String × JsVal) → List (String × JsVal) →
    Except JsError (List (String × JsVal))
  | [], cloned => .ok cloned
  | (key, value) :: rest, cloned =>
    match deepClone value with
    | .error e => .error e
    | .ok c => deepCloneProps rest (assignProp cloned key c)
end

/-- The keys of an object are distinct and none of them is `__proto__` or
`hasOwnProperty`. -/
def cloneableKeys (kvs : List (String × JsVal)) : Bool :=
  decide ((kvs.map Prod.fst).Nodup) && !kvs.any (fun kv => kv.1 == "__proto__") &&
    !kvs.any (fun kv => kv.1 == "hasOwnProperty")

mutual
/-- A value all of whose objects, at any depth, have `cloneableKeys`. -/
def cloneable : JsVal → Bool
  | .arr xs => cloneableItems xs
  | .obj kvs => cloneableKeys kvs && cloneableProps kvs
  | _ => true
/-- Every element of a list is `cloneable`. -/
def cloneableItems : List JsVal → Bool
  | [] => true
  | x :: xs => cloneable x && cloneableItems xs
/-- Every property value of a list of properties is `cloneable`. -/
def cloneableProps : List (String × JsVal) → Bool
  | [] => true
  | (_, value) :: rest => cloneable value && cloneableProps rest
end

/-- A nested value without special keys: `{"name": "Paris", "tags": ["a", null, 1.5],
"source": {"ok": true}}`. -/
def sampleJson : JsVal :=
  .obj [("name", .str "Paris"), ("tags", .arr [.str "a", .null, .num 1.5]),
    ("source", .obj [("ok", .bool true)])]

/-! ## Theorems -/

/-- Shape of the merged catalog: whenever `createCityDataWithAPISources` returns, its cities
are the fallback cities, in order, each with some attribution value attached, and the rest of
the collection is the fallback one with the payload as `api_integration`. -/
theorem createCityData_shape (apiData : JsVal) (cd : CityData)
    (h : createCityDataWithAPISources apiData = .ok cd) :
    ∃ d1 d2 d3 d4 d5 d6 d7 d8 d9 : JsVal,
      cd.cities = List.zipWith City.withDataSources getFallbackData.cities
        [d1, d2, d3, d4, d5, d6, d7, d8, d9] ∧
      cd.calculation_methodology = getFallbackData.calculation_methodology ∧
      cd.data_sources = getFallbackData.data_sources ∧
      cd.api_integration = some apiData := by
  unfold createCityDataWithAPISources at h
  cases h1 : findCityDataSources apiData "Singapore" with
  | error e => simp [h1, bind, Except.bind] at h
  | ok d1 =>
  cases h2 : findCityDataSources apiData "New York City" with
  | error e => simp [h1, h2, bind, Except.bind] at h
  | ok d2 =>
  cases h3 : findCityDataSources apiData "London" with
  | error e => simp [h1, h2, h3, bind, Except.bind] at h
  | ok d3 =>
  cases h4 : findCityDataSources apiData "Paris" with
  | error e => simp [h1, h2, h3, h4, bind, Except.bind] at h
  | ok d4 =>
  cases h5 : findCityDataSources apiData "Barcelona" with
  | error e => simp [h1, h2, h3, h4, h5, bind, Except.bind] at h
  | ok d5 =>
  cases h6 : findCityDataSources apiData "Berlin" with
  | error e => simp [h1, h2, h3, h4, h5, h6, bind, Except.bind] at h
  | ok d6 =>
  cases h7 : findCityDataSources apiData "Madrid" with
  | error e => simp [h1, h2, h3, h4, h5, h6, h7, bind, Except.bind] at h
  | ok d7 =>
  cases h8 : findCityDataSources apiData "Amsterdam" with
  | error e => simp [h1, h2, h3, h4, h5, h6, h7, h8, bind, Except.bind] at h
  | ok d8 =>
  cases h9 : findCityDataSources apiData "Rome" with
  | error e => simp [h1, h2, h3, h4, h5, h6, h7, h8, h9, bind, Except.bind] at h
  | ok d9 =>
  simp only [h1, h2, h3, h4, h5, h6, h7, h8, h9, bind, Except.bind, pure, Except.pure,
    Except.ok.injEq] at h
  subst h
  exact ⟨d1, d2, d3, d4, d5, d6, d7, d8, d9, rfl, rfl, rfl, rfl⟩

/-- Identifiers of the fallback catalog, in order. -/
theorem fallback_ids :
    getFallbackData.cities.map City.id =
      ["singapore", "nyc", "london", "paris", "barcelona", "berlin", "madrid", "amsterdam",
        "rome"] := rfl

/-- Attaching attribution values to a list of records does not change their identifiers,
whatever the number of values, as long as there is one for each record. -/
theorem zipWith_withDataSources_ids (cs : List City) (ds : List JsVal)
    (hlen : cs.length = ds.length) :
    (List.zipWith City.withDataSources cs ds).map City.id = cs.map City.id := by
  induction cs generalizing ds with
  | nil => simp
  | cons c cs ih =>
    cases ds with
    | nil => simp at hlen
    | cons d ds =>
      simp only [List.length_cons, Nat.add_right_cancel_iff] at hlen
      simp [City.withDataSources, ih ds hlen]

/-- Identifiers of a merged catalog are those of the fallback catalog. -/
theorem createCityData_ids (apiData : JsVal) (cd : CityData)
    (h : createCityDataWithAPISources apiData = .ok cd) :
    cd.cities.map City.id = getFallbackData.cities.map City.id := by
  obtain ⟨d1, d2, d3, d4, d5, d6, d7, d8, d9, hc, -, -, -⟩ := createCityData_shape apiData cd h
  rw [hc]
  exact zipWith_withDataSources_ids _ _ rfl

/-- What `loadData` does, for every receiver and fetch outcome: it resolves to a collection
`cd`, stores it, sets `isLoaded`, and `cd` is the fallback catalog or a merged catalog. -/
theorem loadData_result (s : DataManager) (o : FetchOutcome) :
    ∃ cd : CityData,
      (s.loadData o).2 = .ok cd ∧ (s.loadData o).1.cityData = some cd ∧
      (s.loadData o).1.isLoaded = true ∧
      (cd = getFallbackData ∨ ∃ d, createCityDataWithAPISources d = .ok cd) := by
  cases o with
  | rejected => exact ⟨getFallbackData, rfl, rfl, rfl, Or.inl rfl⟩
  | response ok status body =>
    cases ok with
    | false => exact ⟨getFallbackData, rfl, rfl, rfl, Or.inl rfl⟩
    | true =>
      cases body with
      | none => exact ⟨getFallbackData, rfl, rfl, rfl, Or.inl rfl⟩
      | some data =>
        cases hm : createCityDataWithAPISources data with
        | error e =>
          refine ⟨getFallbackData, ?_, ?_, ?_, Or.inl rfl⟩ <;>
            simp [DataManager.loadData, DataManager.loadDataTry, hm]
        | ok cd =>
          refine ⟨cd, ?_, ?_, ?_, Or.inr ⟨data, hm⟩⟩ <;>
            simp [DataManager.loadData, DataManager.loadDataTry, hm]

/-- Identifiers of the collection stored by any load are those of the fallback catalog. -/
theorem loadData_ids (s : DataManager) (o : FetchOutcome) :
    (s.loadData o).1.getCities.map City.id = getFallbackData.cities.map City.id := by
  obtain ⟨cd, -, hcd, -, hor⟩ := loadData_result s o
  simp only [DataManager.getCities, hcd]
  rcases hor with rfl | ⟨d, hd⟩
  · rfl
  · exact createCityData_ids d cd hd

/-- Lookup by identifier in a list whose identifiers are pairwise distinct returns the very
record that carries the identifier. -/
theorem find_by_id_of_nodup (l : List City) (hn : (l.map City.id).Nodup) (r : City)
    (hr : r ∈ l) :
    l.find? (fun city => strictEqualsString (JsVal.str r.id) city.id) = some r := by
  induction l with
  | nil => simp at hr
  | cons c cs ih =>
    simp only [List.map_cons, List.nodup_cons, List.mem_map, not_exists, not_and] at hn
    rcases List.mem_cons.mp hr with rfl | hmem
    · simp [List.find?, strictEqualsString]
    · have hne : (r.id == c.id) = false := by
        simpa using fun heq => hn.1 r hmem heq
      have ih2 := ih hn.2 hmem
      simp only [strictEqualsString] at ih2
      simp [List.find?, strictEqualsString, hne, ih2]

/-- Running the merge on `samplePayload`. -/
theorem createCityData_samplePayload :
    createCityDataWithAPISources samplePayload = .ok sampleMerged := by
  rfl

/-- C1: for every receiver and every outcome of the fetch (rejected, non-ok status, body that
fails to parse, any parsed value), `loadData` resolves instead of raising, and afterwards
`getCities()` is a non-empty list of 9 cities and `isLoaded` is true. -/
theorem loadData_never_raises (s : DataManager) (o : FetchOutcome) :
    (∃ cd : CityData, (s.loadData o).2 = .ok cd) ∧
    (s.loadData o).1.getCities ≠ [] ∧
    (s.loadData o).1.getCities.length = 9 ∧
    (s.loadData o).1.isLoaded = true := by
  obtain ⟨cd, hret, -, hloaded, -⟩ := loadData_result s o
  have hlen : (s.loadData o).1.getCities.length = 9 := by
    have h := congrArg List.length (loadData_ids s o)
    simpa [fallback_ids] using h
  refine ⟨⟨cd, hret⟩, ?_, hlen, hloaded⟩
  intro hnil
  rw [hnil] at hlen
  simp at hlen

/-- C2: whenever the load fails (fetch rejects, `response.ok` is false, parsing throws, or
merging the payload throws), the collection held by the store after `loadData` is exactly
`getFallbackData()`, whatever the store held before, and `loadData` resolves to that value. -/
theorem loadData_failure_gives_fallback (s : DataManager) (o : FetchOutcome)
    (hfail : o.loadFails = true) :
    (s.loadData o).1.cityData = some getFallbackData ∧
    (s.loadData o).2 = .ok getFallbackData := by
  cases o with
  | rejected => exact ⟨rfl, rfl⟩
  | response ok status body =>
    cases ok with
    | false => exact ⟨rfl, rfl⟩
    | true =>
      cases body with
      | none => exact ⟨rfl, rfl⟩
      | some data =>
        cases hm : createCityDataWithAPISources data with
        | error e => simp [DataManager.loadData, DataManager.loadDataTry, hm]
        | ok cd => simp [FetchOutcome.loadFails, hm] at hfail

/-- Witness for C2: a store that holds a merged collection receives the payload `null`, on
which merging throws, and ends with the fallback catalog. -/
theorem loadData_failure_gives_fallback_witness :
    (FetchOutcome.response true 200 (some JsVal.null)).loadFails = true ∧
    (((DataManager.new.loadData (.response true 200 (some samplePayload))).1.loadData
        (.response true 200 (some JsVal.null))).1.cityData = some getFallbackData ∧
      ((DataManager.new.loadData (.response true 200 (some samplePayload))).1.loadData
        (.response true 200 (some JsVal.null))).2 = .ok getFallbackData) :=
  ⟨rfl, loadData_failure_gives_fallback _ _ rfl⟩

/-- C3: the city statistics do not depend on the payload: whenever
`createCityDataWithAPISources` returns, its cities are as many as the fallback cities, in the
same order, each agreeing with the corresponding fallback city on every field except
`data_sources`; the methodology and the top-level `data_sources` are equal as well. -/
theorem createCityData_statistics_fixed (apiData : JsVal) (cd : CityData)
    (h : createCityDataWithAPISources apiData = .ok cd) :
    cd.cities.length = getFallbackData.cities.length ∧
    List.Forall₂ City.sameStatistics cd.cities getFallbackData.cities ∧
    cd.cities.map City.withoutDataSources = getFallbackData.cities ∧
    cd.calculation_methodology = getFallbackData.calculation_methodology ∧
    cd.data_sources = getFallbackData.data_sources := by
  obtain ⟨d1, d2, d3, d4, d5, d6, d7, d8, d9, hc, hm, hs, -⟩ :=
    createCityData_shape apiData cd h
  refine ⟨?_, ?_, ?_, hm, hs⟩
  · rw [hc]; rfl
  · rw [hc]
    simp [getFallbackData, City.withDataSources, City.sameStatistics]
  · rw [hc]; rfl

/-- Witness for C3: the merge of `samplePayload` returns, and its statistics are the
fallback ones. -/
theorem createCityData_statistics_fixed_witness :
    createCityDataWithAPISources samplePayload = .ok sampleMerged ∧
    (sampleMerged.cities.length = getFallbackData.cities.length ∧
      List.Forall₂ City.sameStatistics sampleMerged.cities getFallbackData.cities ∧
      sampleMerged.cities.map City.withoutDataSources = getFallbackData.cities ∧
      sampleMerged.calculation_methodology = getFallbackData.calculation_methodology ∧
      sampleMerged.data_sources = getFallbackData.data_sources) :=
  ⟨createCityData_samplePayload,
    createCityData_statistics_fixed samplePayload sampleMerged createCityData_samplePayload⟩

/-- C4: on a loaded store (the store after `loadData`, for any receiver and fetch outcome)
`getCityById(r.id)` is `r` for every record `r` of the collection, `getCityById(id)` is a
record of the collection with identifier `id` whenever it is defined, and it is `undefined`
for every `id` that no record carries; before any load it is `undefined` for every `id`. -/
theorem getCityById_correct (s : DataManager) (o : FetchOutcome) :
    (∀ r ∈ (s.loadData o).1.getCities,
      (s.loadData o).1.getCityById (JsVal.str r.id) = some r) ∧
    (∀ (id : JsVal) (r : City), (s.loadData o).1.getCityById id = some r →
      r ∈ (s.loadData o).1.getCities ∧ id = JsVal.str r.id) ∧
    (∀ id : JsVal, (∀ r ∈ (s.loadData o).1.getCities, id ≠ JsVal.str r.id) →
      (s.loadData o).1.getCityById id = none) ∧
    (∀ id : JsVal, DataManager.new.getCityById id = none) := by
  have hids := loadData_ids s o
  obtain ⟨cd, -, hcd, -, -⟩ := loadData_result s o
  simp only [DataManager.getCities, DataManager.getCityById, hcd] at hids ⊢
  refine ⟨?_, ?_, ?_, fun _ => rfl⟩
  · intro r hr
    apply find_by_id_of_nodup cd.cities _ r hr
    rw [hids, fallback_ids]
    decide
  · intro id r hfind
    refine ⟨List.mem_of_find?_eq_some hfind, ?_⟩
    have hp := List.find?_some hfind
    cases id <;> simp [strictEqualsString] at hp ⊢
    exact hp
  · intro id hno
    rw [List.find?_eq_none]
    intro r hr hp
    apply hno r hr
    cases id <;> simp [strictEqualsString] at hp ⊢
    exact hp

/-- Witness for C4: on the store loaded from a rejected fetch, the identifier "tokyo", which
no record carries, is not found. -/
theorem getCityById_correct_witness :
    (DataManager.new.loadData .rejected).1.getCityById (JsVal.str "tokyo") = none :=
  (getCityById_correct DataManager.new .rejected).2.2.1 (JsVal.str "tokyo")
    (by
      intro r hr
      simp only [DataManager.loadData, DataManager.loadDataTry, DataManager.getCities,
        getFallbackData] at hr
      simp only [List.mem_cons, List.mem_singleton, List.not_mem_nil, or_false] at hr
      rcases hr with rfl | rfl | rfl | rfl | rfl | rfl | rfl | rfl | rfl <;> simp)

/-- C5: city identifiers are pairwise distinct in every collection a load can produce: in
the fallback catalog and in the merged catalog for any payload. -/
theorem city_ids_unique :
    (getFallbackData.cities.map City.id).Nodup ∧
    (∀ (apiData : JsVal) (cd : CityData), createCityDataWithAPISources apiData = .ok cd →
      (cd.cities.map City.id).Nodup) ∧
    (∀ (s : DataManager) (o : FetchOutcome),
      ((s.loadData o).1.getCities.map City.id).Nodup) := by
  have hfb : (getFallbackData.cities.map City.id).Nodup := by
    rw [fallback_ids]; decide
  refine ⟨hfb, ?_, ?_⟩
  · intro apiData cd h
    rw [createCityData_ids apiData cd h]
    exact hfb
  · intro s o
    rw [loadData_ids s o]
    exact hfb

/-- Witness for C5: the identifiers of the catalog merged from `samplePayload` are pairwise
distinct. -/
theorem city_ids_unique_witness : (sampleMerged.cities.map City.id).Nodup :=
  city_ids_unique.2.1 samplePayload sampleMerged createCityData_samplePayload

/-- C6, the code at the failing records: the fallback records whose stored rank differs from
the label the score-threshold table assigns to their score are exactly New York City,
Barcelona and Amsterdam; New York City has score 0.89 and stored rank "Good", while the
table gives "Fair" and `getScoreClass` gives 'fair'. -/
theorem fallback_rank_mismatch :
    (getFallbackData.cities.filter
        (fun c => c.rank != specRankLabel c.eco_balance_score)).map City.id =
      ["nyc", "barcelona", "amsterdam"] ∧
    (fallbackStore.getCityById (JsVal.str "nyc")).map
        (fun c => (c.eco_balance_score, c.rank, specRankLabel c.eco_balance_score,
          getScoreClass c.eco_balance_score)) =
      some (0.89, "Good", "Fair", "fair") := by
  constructor
  · simp [getFallbackData, List.filter, specRankLabel]
    norm_num
    rfl
  · simp [fallbackStore, DataManager.loadData, DataManager.loadDataTry,
      DataManager.getCityById, getFallbackData, strictEqualsString, specRankLabel,
      getScoreClass]
    norm_num

/-- C7: `getScoreClass` (in `helpers.js` and in `DashboardManager`) has exactly the bands
[1.5,∞) excellent, [1.0,1.5) good, [0.5,1.0) fair, (-∞,0.5) poor, for every rational score;
the boundary values 1.5, 1.0 and 0.5 fall in the upper band. -/
theorem getScoreClass_bands (score : Rat) :
    (getScoreClass score = "excellent" ↔ score ≥ 1.5) ∧
    (getScoreClass score = "good" ↔ 1.0 ≤ score ∧ score < 1.5) ∧
    (getScoreClass score = "fair" ↔ 0.5 ≤ score ∧ score < 1.0) ∧
    (getScoreClass score = "poor" ↔ score < 0.5) ∧
    DashboardManager.getScoreClass score = getScoreClass score ∧
    getScoreClass 1.5 = "excellent" ∧ getScoreClass 1.0 = "good" ∧
    getScoreClass 0.5 = "fair" := by
  refine ⟨?_, ?_, ?_, ?_, rfl, ?_, ?_, ?_⟩
  · unfold getScoreClass
    split_ifs <;> simp_all
  · unfold getScoreClass
    split_ifs with h1 h2 h3 <;> simp_all
  · unfold getScoreClass
    split_ifs with h1 h2 h3 <;> simp_all
    intro _
    linarith
  · unfold getScoreClass
    split_ifs with h1 h2 h3 <;> simp_all <;> linarith
  · unfold getScoreClass; norm_num
  · unfold getScoreClass; norm_num
  · unfold getScoreClass; norm_num

/-- C8: when the same city identifier is selected on both sides, or either side is
unselected (no element, or the empty placeholder value), `updateComparison` writes the
'Please select two different cities to compare.' guidance into the result element whenever
that element is bound, raises a `TypeError` without rendering when it is not, and in no case
produces the comparison content with its winner announcement. -/
theorem updateComparison_same_city_guidance (m : ComparisonManager)
    (h : selectValue m.city1Select = none ∨ selectValue m.city1Select = some "" ∨
      selectValue m.city2Select = none ∨ selectValue m.city2Select = some "" ∨
      selectValue m.city1Select = selectValue m.city2Select) :
    (∀ old : Html, m.comparisonResult = some old →
      m.updateComparison = .ok { m with comparisonResult := some guidanceHtml }) ∧
    (m.comparisonResult = none → ∃ e, m.updateComparison = .error e) ∧
    (∀ m2 : ComparisonManager, m.updateComparison = .ok m2 →
      m2.comparisonResult = some guidanceHtml ∧
      ∀ c : ComparisonContent, m2.comparisonResult ≠ some (Html.comparison c)) := by
  have hcond : (idFalsy (selectValue m.city1Select) || idFalsy (selectValue m.city2Select) ||
      selectValue m.city1Select == selectValue m.city2Select) = true := by
    rcases h with h | h | h | h | h <;> simp [h, idFalsy]
  have hrun : m.updateComparison = m.setResultHtml guidanceHtml := by
    simp only [ComparisonManager.updateComparison, hcond, if_true, guidanceHtml]
  rw [hrun]
  refine ⟨?_, ?_, ?_⟩
  · intro old hold
    simp [ComparisonManager.setResultHtml, hold]
  · intro hnone
    simp [ComparisonManager.setResultHtml, hnone]
  · intro m2 hm2
    cases hres : m.comparisonResult with
    | none => simp [ComparisonManager.setResultHtml, hres] at hm2
    | some old =>
      simp only [ComparisonManager.setResultHtml, hres, Except.ok.injEq] at hm2
      subst hm2
      simp [guidanceHtml]

/-- Witness for C8: Paris selected on both sides over the fallback catalog. -/
theorem updateComparison_same_city_guidance_witness :
    selectValue sampleSameCityManager.city1Select =
        selectValue sampleSameCityManager.city2Select ∧
    sampleSameCityManager.updateComparison =
      .ok { sampleSameCityManager with comparisonResult := some guidanceHtml } :=
  ⟨rfl, (updateComparison_same_city_guidance sampleSameCityManager
    (Or.inr (Or.inr (Or.inr (Or.inr rfl))))).1 (Html.text "") rfl⟩

/-- C9: the overall winner is decided by strict greater-than on `eco_balance_score`:
`determineWinner(city1, city2)` announces city1 (its name, its score first) iff city1's score
is strictly greater, city2 iff city2's score is strictly greater, and the tie iff the scores
are equal; on the fallback catalog Singapore (1.63) against Paris (0.61) announces Singapore
and Barcelona (0.82) against Amsterdam (0.82) announces a tie. -/
theorem determineWinner_strict (city1 city2 : City) :
    (ComparisonManager.determineWinner city1 city2 =
        .winner city1.name city1.eco_balance_score city2.eco_balance_score ↔
      city1.eco_balance_score > city2.eco_balance_score) ∧
    (ComparisonManager.determineWinner city1 city2 =
        .winner city2.name city2.eco_balance_score city1.eco_balance_score ↔
      city2.eco_balance_score > city1.eco_balance_score) ∧
    (ComparisonManager.determineWinner city1 city2 = .tie city1.eco_balance_score ↔
      city1.eco_balance_score = city2.eco_balance_score) ∧
    winnerOf fallbackStore "singapore" "paris" = some (.winner "Singapore" 1.63 0.61) ∧
    winnerOf fallbackStore "barcelona" "amsterdam" = some (.tie 0.82) := by
  refine ⟨?_, ?_, ?_, ?_, ?_⟩
  · unfold ComparisonManager.determineWinner
    split_ifs with h1 h2
    · simp [h1]
    · simp only [WinnerAnnouncement.winner.injEq, gt_iff_lt]
      constructor
      · rintro ⟨-, h, -⟩
        rw [h] at h2
        exact absurd h2 (lt_irrefl _)
      · intro h
        exact absurd h h1
    · simp [h1]
  · unfold ComparisonManager.determineWinner
    split_ifs with h1 h2
    · simp only [WinnerAnnouncement.winner.injEq, gt_iff_lt]
      constructor
      · rintro ⟨-, h, -⟩
        rw [h] at h1
        exact absurd h1 (lt_irrefl _)
      · intro h
        exact absurd h (not_lt.mpr (le_of_lt h1))
    · simp [h2]
    · simp [h2]
  · unfold ComparisonManager.determineWinner
    split_ifs with h1 h2
    · simp only [false_iff]
      exact fun h => absurd h1 (h ▸ lt_irrefl _)
    · simp only [false_iff]
      exact fun h => absurd h2 (h ▸ lt_irrefl _)
    · simp only [true_iff]
      exact le_antisymm (not_lt.mp h1) (not_lt.mp h2)
  · simp [winnerOf, fallbackStore, DataManager.loadData, DataManager.loadDataTry,
      DataManager.getCityById, getFallbackData, strictEqualsString,
      ComparisonManager.determineWinner]
    norm_num
  · simp [winnerOf, fallbackStore, DataManager.loadData, DataManager.loadDataTry,
      DataManager.getCityById, getFallbackData, strictEqualsString,
      ComparisonManager.determineWinner]

/-- C10, as stated, fails: on the fallback catalog, in the 'Per Capita (tons)' row of
Singapore (city1) against Paris (city2), Singapore's value 5.4 does carry the 'better-value'
class, and Paris's value 5.8 carries no class. -/
theorem singapore_per_capita_is_marked :
    perCapitaRowOf fallbackStore "singapore" "paris" = some (5.4, 5.8, "better-value", "") := by
  simp [perCapitaRowOf, fallbackStore, DataManager.loadData, DataManager.loadDataTry,
    DataManager.getCityById, getFallbackData, strictEqualsString,
    ComparisonManager.createComparisonContent, ComparisonContent.findRow,
    ComparisonManager.createComparisonMetric]
  norm_num

/-- C10, amended: on every loaded store (any receiver, any fetch outcome), comparing
Singapore (city1) against Paris (city2) marks Singapore's per-capita emissions (5.4) as
better than Paris's (5.8), lower being better: in the 'Per Capita (tons)' row Singapore's
value carries the 'better-value' class and Paris's value carries none. -/
theorem singapore_per_capita_better_on_loaded_store (s : DataManager) (o : FetchOutcome) :
    perCapitaRowOf (s.loadData o).1 "singapore" "paris" =
      some (5.4, 5.8, "better-value", "") := by
  obtain ⟨cd, -, hcd, -, hor⟩ := loadData_result s o
  rcases hor with rfl | ⟨d, hd⟩
  · simp [perCapitaRowOf, hcd, DataManager.getCityById, getFallbackData, strictEqualsString,
      ComparisonManager.createComparisonContent, ComparisonContent.findRow,
      ComparisonManager.createComparisonMetric]
    norm_num
  · obtain ⟨d1, d2, d3, d4, d5, d6, d7, d8, d9, hc, -, -, -⟩ := createCityData_shape d cd hd
    simp [perCapitaRowOf, hcd, hc, DataManager.getCityById, getFallbackData,
      City.withDataSources, strictEqualsString,
      ComparisonManager.createComparisonContent, ComparisonContent.findRow,
      ComparisonManager.createComparisonMetric]
    norm_num

/-- C11: for every pair of city records each metric row of `createComparisonContent` follows
its directionality flag: in the two emissions rows city1 is marked 'better-value' iff its
value is strictly lower, in the tree canopy, green space, parks area, carbon sequestration
and SDG 13 rows iff its value is strictly higher, and in the population and area rows
neither side is marked; on the fallback catalog Singapore's tree canopy 47 is marked better
than Paris's 23. -/
theorem comparison_rows_follow_direction (city1 city2 : City) :
    ((ComparisonManager.createComparisonContent city1 city2).city1Marked
        "Total CO₂ (tons/year)" = true ↔
      city1.emissions.total_co2_tons_per_year < city2.emissions.total_co2_tons_per_year) ∧
    ((ComparisonManager.createComparisonContent city1 city2).city1Marked
        "Per Capita (tons)" = true ↔
      city1.emissions.per_capita_tons < city2.emissions.per_capita_tons) ∧
    ((ComparisonManager.createComparisonContent city1 city2).city1Marked
        "Tree Canopy (%)" = true ↔
      city1.vegetation.tree_canopy_percent > city2.vegetation.tree_canopy_percent) ∧
    ((ComparisonManager.createComparisonContent city1 city2).city1Marked
        "Green Space (%)" = true ↔
      city1.vegetation.green_space_percent > city2.vegetation.green_space_percent) ∧
    ((ComparisonManager.createComparisonContent city1 city2).city1Marked
        "Parks Area (km²)" = true ↔
      city1.vegetation.parks_area_km2 > city2.vegetation.parks_area_km2) ∧
    ((ComparisonManager.createComparisonContent city1 city2).city1Marked
        "Carbon Sequestration (tons/year)" = true ↔
      city1.vegetation.carbon_sequestration_tons_per_year >
        city2.vegetation.carbon_sequestration_tons_per_year) ∧
    ((ComparisonManager.createComparisonContent city1 city2).city1Marked
        "SDG 13 Alignment" = true ↔
      city1.sdg13_alignment > city2.sdg13_alignment) ∧
    ((ComparisonManager.createComparisonContent city1 city2).city1Marked "Population" = false ∧
      (ComparisonManager.createComparisonContent city1 city2).city2Marked "Population" = false) ∧
    ((ComparisonManager.createComparisonContent city1 city2).city1Marked "Area (km²)" = false ∧
      (ComparisonManager.createComparisonContent city1 city2).city2Marked "Area (km²)" = false) ∧
    (∀ label ∈ ["Total CO₂ (tons/year)", "Per Capita (tons)", "Tree Canopy (%)",
        "Green Space (%)", "Parks Area (km²)", "Carbon Sequestration (tons/year)",
        "SDG 13 Alignment", "Population", "Area (km²)"],
      ((ComparisonManager.createComparisonContent city1 city2).findRow label).isSome = true) ∧
    (comparisonOf fallbackStore "singapore" "paris").map
        (fun c => (c.card1.name, c.card2.name, c.findRow "Tree Canopy (%)" |>.map
          (fun row => (row.value1, row.value2)), c.city1Marked "Tree Canopy (%)",
          c.city2Marked "Tree Canopy (%)")) =
      some ("Singapore", "Paris", some (MetricValue.percent 47, MetricValue.percent 23),
        true, false) := by
  refine ⟨?_, ?_, ?_, ?_, ?_, ?_, ?_, ?_, ?_, ?_, ?_⟩
  · by_cases h : city1.emissions.total_co2_tons_per_year
        < city2.emissions.total_co2_tons_per_year <;>
      simp [ComparisonContent.city1Marked, ComparisonContent.findRow,
        ComparisonManager.createComparisonContent, ComparisonManager.createComparisonMetric, h]
  · by_cases h : city1.emissions.per_capita_tons < city2.emissions.per_capita_tons <;>
      simp [ComparisonContent.city1Marked, ComparisonContent.findRow,
        ComparisonManager.createComparisonContent, ComparisonManager.createComparisonMetric, h]
  · by_cases h : city2.vegetation.tree_canopy_percent
        < city1.vegetation.tree_canopy_percent <;>
      simp [ComparisonContent.city1Marked, ComparisonContent.findRow,
        ComparisonManager.createComparisonContent, ComparisonManager.createComparisonMetric, h]
  · by_cases h : city2.vegetation.green_space_percent
        < city1.vegetation.green_space_percent <;>
      simp [ComparisonContent.city1Marked, ComparisonContent.findRow,
        ComparisonManager.createComparisonContent, ComparisonManager.createComparisonMetric, h]
  · by_cases h : city2.vegetation.parks_area_km2 < city1.vegetation.parks_area_km2 <;>
      simp [ComparisonContent.city1Marked, ComparisonContent.findRow,
        ComparisonManager.createComparisonContent, ComparisonManager.createComparisonMetric, h]
  · by_cases h : city2.vegetation.carbon_sequestration_tons_per_year
        < city1.vegetation.carbon_sequestration_tons_per_year <;>
      simp [ComparisonContent.city1Marked, ComparisonContent.findRow,
        ComparisonManager.createComparisonContent, ComparisonManager.createComparisonMetric, h]
  · by_cases h : city2.sdg13_alignment < city1.sdg13_alignment <;>
      simp [ComparisonContent.city1Marked, ComparisonContent.findRow,
        ComparisonManager.createComparisonContent, ComparisonManager.createComparisonMetric, h]
  · simp [ComparisonContent.city1Marked, ComparisonContent.city2Marked,
      ComparisonContent.findRow, ComparisonManager.createComparisonContent,
      ComparisonManager.createComparisonMetric]
  · simp [ComparisonContent.city1Marked, ComparisonContent.city2Marked,
      ComparisonContent.findRow, ComparisonManager.createComparisonContent,
      ComparisonManager.createComparisonMetric]
  · intro label hlabel
    simp only [List.mem_cons, List.mem_singleton, List.not_mem_nil, or_false] at hlabel
    rcases hlabel with rfl | rfl | rfl | rfl | rfl | rfl | rfl | rfl | rfl <;>
      simp [ComparisonContent.findRow, ComparisonManager.createComparisonContent,
        ComparisonManager.createComparisonMetric]
  · simp [comparisonOf, fallbackStore, DataManager.loadData, DataManager.loadDataTry,
      DataManager.getCityById, getFallbackData, strictEqualsString,
      ComparisonContent.city1Marked, ComparisonContent.city2Marked,
      ComparisonContent.findRow, ComparisonManager.createComparisonContent,
      ComparisonManager.createComparisonMetric]
    norm_num

/-- The sum of the nine literal scores of the fallback catalog. -/
theorem fallback_sumOfScores :
    sumOfScores getFallbackData.cities =
      1.63 + 0.89 + 2.05 + 0.61 + 0.82 + 1.46 + 1.31 + 0.82 + 1.57 := by
  simp [sumOfScores, getFallbackData]

/-- The hundredths of `toFixed2` on a non-negative number, from the two bounds that fix the
rounded value. -/
theorem toFixed2_of_bounds (x : Rat) (n : Nat) (h0 : 0 ≤ x)
    (hlo : (n : Rat) ≤ x * 100 + 1 / 2) (hhi : x * 100 + 1 / 2 < (n : Rat) + 1) :
    toFixed2 x = { negative := false, hundredths := n } := by
  have hfloor : ⌊|x| * 100 + 1 / 2⌋ = (n : Int) := by
    rw [Int.floor_eq_iff, abs_of_nonneg h0]
    exact ⟨by exact_mod_cast hlo, by exact_mod_cast hhi⟩
  unfold toFixed2
  rw [hfloor]
  simp [not_lt.mpr h0]

/-- C12: the summary average over the fallback nine-city catalog is the arithmetic mean of
the nine literal scores, 11.16/9, and the text shown for it with two decimals is "1.24". -/
theorem fallback_average_score :
    sumOfScores getFallbackData.cities =
      1.63 + 0.89 + 2.05 + 0.61 + 0.82 + 1.46 + 1.31 + 0.82 + 1.57 ∧
    jsDivide (sumOfScores getFallbackData.cities) getFallbackData.cities.length =
      JsNum.finite (11.16 / 9) ∧
    (toFixed2 (11.16 / 9)).render = "1.24" ∧
    ((DashboardManager.mk fallbackStore).calculateAndDisplayMetrics emptyDashboardDom).1.avgScore
      = some "1.24" := by
  have hsum := fallback_sumOfScores
  have hlen : getFallbackData.cities.length = 9 := rfl
  have hdiv : jsDivide (sumOfScores getFallbackData.cities) getFallbackData.cities.length =
      JsNum.finite (11.16 / 9) := by
    rw [hsum, hlen]
    simp only [jsDivide]
    norm_num
  have hfix : toFixed2 (11.16 / 9) = { negative := false, hundredths := 124 } :=
    toFixed2_of_bounds _ 124 (by norm_num) (by norm_num) (by norm_num)
  have hrender : (toFixed2 (11.16 / 9)).render = "1.24" := by
    rw [hfix]; rfl
  refine ⟨hsum, hdiv, hrender, ?_⟩
  have hcities : (DashboardManager.mk fallbackStore).dataManager.getCities =
      getFallbackData.cities := rfl
  simp only [DashboardManager.calculateAndDisplayMetrics, hcities, hdiv]
  simp [getFallbackData, reduceWithoutInitial, emptyDashboardDom, JsNum.toFixed2, hrender]

/-- The fold of the top-performer callback returns the first record of maximal score: the
records before it have a strictly lower score and the records after it a score that is not
higher. -/
theorem foldl_betterOf_first_max (xs : List City) :
    ∀ (pre : List City) (best : City) (mid : List City),
      (∀ c ∈ pre, c.eco_balance_score < best.eco_balance_score) →
      (∀ c ∈ mid, c.eco_balance_score ≤ best.eco_balance_score) →
      ∃ pre2 post2 : List City,
        pre ++ best :: mid ++ xs = pre2 ++ xs.foldl betterOf best :: post2 ∧
        (∀ c ∈ pre2, c.eco_balance_score < (xs.foldl betterOf best).eco_balance_score) ∧
        (∀ c ∈ post2, c.eco_balance_score ≤ (xs.foldl betterOf best).eco_balance_score) := by
  induction xs with
  | nil =>
    intro pre best mid hpre hmid
    exact ⟨pre, mid, by simp, hpre, hmid⟩
  | cons y ys ih =>
    intro pre best mid hpre hmid
    by_cases hy : y.eco_balance_score > best.eco_balance_score
    · have hstep : betterOf best y = y := by simp [betterOf, hy]
      obtain ⟨pre2, post2, heq, h1, h2⟩ := ih (pre ++ best :: mid) y [] (by
        intro c hc
        rcases List.mem_append.mp hc with hc | hc
        · exact lt_trans (hpre c hc) hy
        · rcases List.mem_cons.mp hc with rfl | hc
          · exact hy
          · exact lt_of_le_of_lt (hmid c hc) hy) (by simp)
      refine ⟨pre2, post2, ?_, ?_, ?_⟩
      · simp only [List.foldl_cons, hstep]
        rw [← heq]
        simp
      · simpa only [List.foldl_cons, hstep] using h1
      · simpa only [List.foldl_cons, hstep] using h2
    · have hstep : betterOf best y = best := by simp [betterOf, hy]
      obtain ⟨pre2, post2, heq, h1, h2⟩ := ih pre best (mid ++ [y]) hpre (by
        intro c hc
        rcases List.mem_append.mp hc with hc | hc
        · exact hmid c hc
        · rw [List.mem_singleton] at hc
          subst hc
          exact not_lt.mp hy)
      refine ⟨pre2, post2, ?_, ?_, ?_⟩
      · simp only [List.foldl_cons, hstep]
        rw [← heq]
        simp
      · simpa only [List.foldl_cons, hstep] using h1
      · simpa only [List.foldl_cons, hstep] using h2

/-- C13: for every store with a non-empty city list, `calculateAndDisplayMetrics` completes,
the top performer it shows is a city of the list whose score is at least every other city's
score and which comes before every other city of that score, and the count it shows is the
length of the list; on the fallback catalog the top performer is London and the count 9. -/
theorem top_performer_first_max (self : DashboardManager) (dom : DashboardDom)
    (hne : self.dataManager.getCities ≠ []) :
    ∃ (top : City) (pre post : List City),
      self.dataManager.getCities = pre ++ top :: post ∧
      (∀ c ∈ pre, c.eco_balance_score < top.eco_balance_score) ∧
      (∀ c ∈ post, c.eco_balance_score ≤ top.eco_balance_score) ∧
      (self.calculateAndDisplayMetrics dom).2 = .ok () ∧
      (self.calculateAndDisplayMetrics dom).1.topPerformer =
        dom.topPerformer.map (fun _ => top.name) ∧
      (self.calculateAndDisplayMetrics dom).1.totalCities =
        dom.totalCities.map (fun _ => toString self.dataManager.getCities.length) ∧
      ((DashboardManager.mk fallbackStore).calculateAndDisplayMetrics emptyDashboardDom).1.topPerformer
        = some "London" ∧
      ((DashboardManager.mk fallbackStore).calculateAndDisplayMetrics emptyDashboardDom).1.totalCities
        = some "9" := by
  cases hc : self.dataManager.getCities with
  | nil => exact absurd hc hne
  | cons x xs =>
    obtain ⟨pre, post, heq, h1, h2⟩ := foldl_betterOf_first_max xs [] x [] (by simp) (by simp)
    refine ⟨xs.foldl betterOf x, pre, post, ?_, h1, h2, ?_, ?_, ?_, ?_, ?_⟩
    · simpa using heq
    · simp [DashboardManager.calculateAndDisplayMetrics, hc, reduceWithoutInitial]
    · simp [DashboardManager.calculateAndDisplayMetrics, hc, reduceWithoutInitial]
    · simp [DashboardManager.calculateAndDisplayMetrics, hc, reduceWithoutInitial]
    · have hcities : (DashboardManager.mk fallbackStore).dataManager.getCities =
          getFallbackData.cities := rfl
      simp only [DashboardManager.calculateAndDisplayMetrics, hcities]
      simp [getFallbackData, reduceWithoutInitial, emptyDashboardDom, betterOf]
      norm_num
    · rfl

/-- Witness for C13: the fallback store has a non-empty city list, and its top performer
and count are shown. -/
theorem top_performer_first_max_witness :
    ∃ (top : City) (pre post : List City),
      (DashboardManager.mk fallbackStore).dataManager.getCities = pre ++ top :: post ∧
      (∀ c ∈ pre, c.eco_balance_score < top.eco_balance_score) ∧
      (∀ c ∈ post, c.eco_balance_score ≤ top.eco_balance_score) ∧
      ((DashboardManager.mk fallbackStore).calculateAndDisplayMetrics emptyDashboardDom).2
        = .ok () ∧
      ((DashboardManager.mk fallbackStore).calculateAndDisplayMetrics emptyDashboardDom).1.topPerformer
        = emptyDashboardDom.topPerformer.map (fun _ => top.name) ∧
      ((DashboardManager.mk fallbackStore).calculateAndDisplayMetrics emptyDashboardDom).1.totalCities
        = emptyDashboardDom.totalCities.map
          (fun _ => toString (DashboardManager.mk fallbackStore).dataManager.getCities.length) ∧
      ((DashboardManager.mk fallbackStore).calculateAndDisplayMetrics emptyDashboardDom).1.topPerformer
        = some "London" ∧
      ((DashboardManager.mk fallbackStore).calculateAndDisplayMetrics emptyDashboardDom).1.totalCities
        = some "9" :=
  top_performer_first_max (DashboardManager.mk fallbackStore) emptyDashboardDom
    (by simp [fallbackStore, DataManager.loadData, DataManager.loadDataTry,
      DataManager.getCities, getFallbackData])

/-- The value `toFixed2` prints is within half a hundredth of the number. -/
theorem toFixed2_value_close (x : Rat) : |(toFixed2 x).value - x| ≤ 1 / 200 := by
  have hlo : ((⌊|x| * 100 + 1 / 2⌋ : Int) : Rat) ≤ |x| * 100 + 1 / 2 := Int.floor_le _
  have hhi : |x| * 100 + 1 / 2 < ((⌊|x| * 100 + 1 / 2⌋ : Int) : Rat) + 1 :=
    Int.lt_floor_add_one _
  have hnn : (0 : Int) ≤ ⌊|x| * 100 + 1 / 2⌋ := by
    apply Int.floor_nonneg.mpr
    have := abs_nonneg x
    linarith
  have hcast : ((⌊|x| * 100 + 1 / 2⌋.toNat : Nat) : Rat) =
      ((⌊|x| * 100 + 1 / 2⌋ : Int) : Rat) := by
    have h := Int.toNat_of_nonneg hnn
    exact_mod_cast congrArg (fun z : Int => (z : Rat)) h
  by_cases hx : x < 0
  · have habs : |x| = -x := abs_of_neg hx
    simp only [toFixed2, Fixed2.value, hx, decide_True, if_true, hcast]
    rw [habs] at hlo hhi ⊢
    rw [abs_le]
    constructor <;> linarith
  · have habs : |x| = x := abs_of_nonneg (not_lt.mp hx)
    simp only [toFixed2, Fixed2.value, hx, decide_False, Bool.false_eq_true, if_false, hcast]
    rw [habs] at hlo hhi ⊢
    rw [abs_le]
    constructor <;> linarith

/-- The integer that `roundHalfEven` returns for a number less than a half away from it. -/
theorem roundHalfEven_of_near (y : Rat) (n : Int) (h1 : (n : Rat) - 1 / 2 < y)
    (h2 : y < (n : Rat) + 1 / 2) : roundHalfEven y = n := by
  unfold roundHalfEven
  by_cases hy : (n : Rat) ≤ y
  · have hf : ⌊y⌋ = n := by
      rw [Int.floor_eq_iff]
      exact ⟨hy, by linarith⟩
    rw [hf, if_pos (by linarith)]
  · have hy2 : y < (n : Rat) := not_le.mp hy
    have hf : ⌊y⌋ = n - 1 := by
      rw [Int.floor_eq_iff]
      push_cast
      exact ⟨by linarith, by linarith⟩
    rw [hf]
    push_cast
    rw [if_neg (by linarith), if_pos (by linarith)]
    ring

/-- The integer that `roundHalfEven` returns is at most a half away from the number. -/
theorem roundHalfEven_close (y : Rat) : |((roundHalfEven y : Int) : Rat) - y| ≤ 1 / 2 := by
  have h1 : ((⌊y⌋ : Int) : Rat) ≤ y := Int.floor_le y
  have h2 : y < ((⌊y⌋ : Int) : Rat) + 1 := Int.lt_floor_add_one y
  unfold roundHalfEven
  rw [abs_le]
  split_ifs with ha hb hc
  · constructor <;> linarith
  · push_cast
    constructor <;> linarith
  · constructor <;> linarith
  · push_cast
    constructor <;> linarith

/-- The exponent of the power of two at or below a magnitude, from the two bounds. -/
theorem log_two_of_bounds (m : Rat) (e : Int) (hlo : (2 : Rat) ^ e ≤ m)
    (hhi : m < (2 : Rat) ^ (e + 1)) : Int.log 2 m = e := by
  have hpos : 0 < m := lt_of_lt_of_le (by positivity) hlo
  have h1 : e ≤ Int.log 2 m := by
    rw [← Int.zpow_le_iff_le_log (by norm_num) hpos]
    exact_mod_cast hlo
  have h2 : Int.log 2 m < e + 1 := by
    rw [← Int.lt_zpow_iff_log_lt (by norm_num) hpos]
    exact_mod_cast hhi
  omega

/-- The double nearest to a magnitude, from the power of two at or below the magnitude and
the integer nearest to the magnitude in units of the last place. -/
theorem roundToDouble_of_bounds (s : Bool) (m : Rat) (e n : Int) (r : Rat)
    (he : -1022 ≤ e) (hlo : (2 : Rat) ^ e ≤ m) (hhi : m < (2 : Rat) ^ (e + 1))
    (h1 : (n : Rat) - 1 / 2 < m / (2 : Rat) ^ (e - 52))
    (h2 : m / (2 : Rat) ^ (e - 52) < (n : Rat) + 1 / 2)
    (hr : r = (n : Rat) * (2 : Rat) ^ (e - 52)) (hfin : r < 2 ^ 1024) :
    roundToDouble s m = .finite s r := by
  have hpos : 0 < m := lt_of_lt_of_le (by positivity) hlo
  have hlog := log_two_of_bounds m e hlo hhi
  unfold roundToDouble
  rw [if_neg (ne_of_gt hpos)]
  simp only [hlog, max_eq_left he]
  rw [roundHalfEven_of_near _ n h1 h2, ← hr, if_neg (not_le.mpr hfin)]

/-- The double that a positive number denotes, from the same bounds. -/
theorem toDouble_of_bounds (x : Rat) (e n : Int) (r : Rat) (hx : 0 < x)
    (he : -1022 ≤ e) (hlo : (2 : Rat) ^ e ≤ x) (hhi : x < (2 : Rat) ^ (e + 1))
    (h1 : (n : Rat) - 1 / 2 < x / (2 : Rat) ^ (e - 52))
    (h2 : x / (2 : Rat) ^ (e - 52) < (n : Rat) + 1 / 2)
    (hr : r = (n : Rat) * (2 : Rat) ^ (e - 52)) (hfin : r < 2 ^ 1024) :
    toDouble x = .finite false r := by
  unfold toDouble
  rw [abs_of_pos hx, decide_eq_false (not_lt.mpr hx.le)]
  exact roundToDouble_of_bounds false x e n r he hlo hhi h1 h2 hr hfin

/-- The literal `1000` is a double. -/
theorem toDouble_thousand : toDouble 1000 = .finite false 1000 :=
  toDouble_of_bounds 1000 9 (1000 * 2 ^ 43) 1000 (by norm_num) (by norm_num) (by norm_num)
    (by norm_num) (by norm_num) (by norm_num) (by norm_num) (by norm_num)

/-- Rounding a magnitude in the range of the normal doubles gives a finite double whose
distance from the magnitude is at most the magnitude over `2 ^ 53`. -/
theorem roundToDouble_relative (s : Bool) (m : Rat) (hlo : (2 : Rat) ^ (-1022 : Int) ≤ m)
    (hhi : m < 2 ^ 1023) :
    ∃ r : Rat, roundToDouble s m = .finite s r ∧ |r - m| ≤ m / 2 ^ 53 := by
  have hpos : 0 < m := lt_of_lt_of_le (by positivity) hlo
  have he : -1022 ≤ Int.log 2 m := by
    rw [← Int.zpow_le_iff_le_log (by norm_num) hpos]
    exact_mod_cast hlo
  have hle : (2 : Rat) ^ (Int.log 2 m) ≤ m := by
    have := Int.zpow_log_le_self (b := 2) (r := m) (by norm_num) hpos
    exact_mod_cast this
  have hulp : (0 : Rat) < 2 ^ (Int.log 2 m - 52) := by positivity
  have hhalf : (2 : Rat) ^ (Int.log 2 m - 52) / 2 ≤ m / 2 ^ 53 := by
    have h2 : (2 : Rat) ^ (Int.log 2 m - 52) = 2 ^ (Int.log 2 m) / 2 ^ 52 := by
      rw [zpow_sub₀ (by norm_num)]
      norm_num
    rw [h2]
    have : (2 : Rat) ^ (Int.log 2 m) / 2 ^ 52 / 2 = 2 ^ (Int.log 2 m) / 2 ^ 53 := by
      ring
    rw [this]
    exact div_le_div_of_nonneg_right hle (by positivity)
  have hclose := roundHalfEven_close (m / 2 ^ (Int.log 2 m - 52))
  have hdist : |(roundHalfEven (m / 2 ^ (Int.log 2 m - 52)) : Rat) * 2 ^ (Int.log 2 m - 52) - m|
      ≤ 2 ^ (Int.log 2 m - 52) / 2 := by
    have hm : m = m / 2 ^ (Int.log 2 m - 52) * 2 ^ (Int.log 2 m - 52) := by
      field_simp
    have : (roundHalfEven (m / 2 ^ (Int.log 2 m - 52)) : Rat) * 2 ^ (Int.log 2 m - 52) - m =
        ((roundHalfEven (m / 2 ^ (Int.log 2 m - 52)) : Rat) - m / 2 ^ (Int.log 2 m - 52)) *
          2 ^ (Int.log 2 m - 52) := by
      rw [sub_mul, ← hm]
    rw [this, abs_mul, abs_of_pos hulp]
    calc |(roundHalfEven (m / 2 ^ (Int.log 2 m - 52)) : Rat) - m / 2 ^ (Int.log 2 m - 52)| *
          2 ^ (Int.log 2 m - 52) ≤ 1 / 2 * 2 ^ (Int.log 2 m - 52) :=
          mul_le_mul_of_nonneg_right hclose hulp.le
      _ = 2 ^ (Int.log 2 m - 52) / 2 := by ring
  have hfinal := le_trans hdist hhalf
  refine ⟨(roundHalfEven (m / 2 ^ (Int.log 2 m - 52)) : Rat) * 2 ^ (Int.log 2 m - 52), ?_,
    hfinal⟩
  unfold roundToDouble
  rw [if_neg (ne_of_gt hpos)]
  simp only [max_eq_left he]
  rw [if_neg]
  rw [not_le]
  have hub := (abs_le.mp hfinal).2
  have h53 : m / 2 ^ 53 ≤ m := div_le_self hpos.le (by norm_num)
  have : (2 : Rat) ^ 1024 = 2 ^ 1023 + 2 ^ 1023 := by norm_num
  linarith

/-- The two-decimal text of a quotient times 1000, from the doubles of the two numbers, of
their quotient and of the product, and the two bounds that fix the hundredths. -/
theorem toFixed2_of_doubles (c p c1 p1 d m : Rat) (n : Nat)
    (hc : toDouble c = .finite false c1) (hp : toDouble p = .finite false p1)
    (hp0 : p1 ≠ 0)
    (hd : roundToDouble false (c1 / p1) = .finite false d)
    (hm : roundToDouble false (d * 1000) = .finite false m)
    (h21 : m < 10 ^ 21) (h0 : 0 ≤ m)
    (hlo : (n : Rat) ≤ m * 100 + 1 / 2) (hhi : m * 100 + 1 / 2 < (n : Rat) + 1) :
    (((toDouble c).divide (toDouble p)).multiply (toDouble 1000)).toFixed2 =
      .fixed ⟨false, n⟩ := by
  rw [hc, hp, toDouble_thousand]
  simp only [Double.divide, if_neg hp0, bne_self_eq_false, hd, Double.multiply, hm,
    Double.toFixed2, if_neg (not_le.mpr h21), signedValue, Bool.false_eq_true, if_false]
  rw [toFixed2_of_bounds m n h0 hlo hhi]

/-- The double of a number in the range of the normal doubles: finite, of the sign of the
number, and at most the magnitude over `2 ^ 53` away from the magnitude. -/
theorem toDouble_relative (x : Rat) (hlo : (2 : Rat) ^ (-1022 : Int) ≤ |x|)
    (hhi : |x| < 2 ^ 1023) :
    ∃ r : Rat, toDouble x = .finite (decide (x < 0)) r ∧ |r - (|x|)| ≤ |x| / 2 ^ 53 :=
  roundToDouble_relative _ _ hlo hhi

/-- The two factors between which one rounding keeps a magnitude, with the bounds on them
that the error of three roundings and a quotient needs. -/
theorem rounding_factors :
    ∃ lo hi : Rat,
      (∀ x r : Rat, |r - x| ≤ x / 2 ^ 53 → x * lo ≤ r ∧ r ≤ x * hi) ∧
      1 / 2 ≤ lo ∧ lo ≤ 1 ∧ 1 ≤ hi ∧ hi ≤ 2 ∧
      hi ^ 3 ≤ (1 + 1 / 2 ^ 50) * lo ∧ (1 - 1 / 2 ^ 50) * hi ≤ lo ^ 3 := by
  refine ⟨1 - 1 / 2 ^ 53, 1 + 1 / 2 ^ 53, ?_, by norm_num, by norm_num, by norm_num,
    by norm_num, by norm_num, by norm_num⟩
  intro x r h
  have h2 := abs_le.mp h
  constructor <;> linarith [h2.1, h2.2]

/-- The double that `c / p * 1000` evaluates to, for numbers and a quotient of a magnitude
between `10 ^ (-300)` and `10 ^ 300`: finite, and at most the magnitude of the exact value
over `2 ^ 50` away from it. -/
theorem rate_double_accuracy (c p : Rat)
    (hc1 : 1 / 10 ^ 300 ≤ |c|) (hc2 : |c| ≤ 10 ^ 300)
    (hp1 : 1 / 10 ^ 300 ≤ |p|) (hp2 : |p| ≤ 10 ^ 300)
    (hq1 : 1 / 10 ^ 300 ≤ |c / p|) (hq2 : |c / p| ≤ 10 ^ 300) :
    ∃ (s : Bool) (m : Rat),
      ((toDouble c).divide (toDouble p)).multiply (toDouble 1000) = .finite s m ∧
      |signedValue s m - c / p * 1000| ≤ |c / p * 1000| / 2 ^ 50 := by
  have hLle : ∀ x : Rat, 1 / 10 ^ 300 / 64 ≤ x → (2 : Rat) ^ (-1022 : Int) ≤ x :=
    fun x hx => le_trans (by norm_num) hx
  have hHlt : ∀ x : Rat, x ≤ 8000 * 10 ^ 300 → x < 2 ^ 1023 :=
    fun x hx => lt_of_le_of_lt hx (by norm_num)
  have hten : (0 : Rat) < 1 / 10 ^ 300 := by positivity
  have hbigpos : (0 : Rat) < 10 ^ 300 := by positivity
  generalize (1 : Rat) / 10 ^ 300 = T at *
  generalize (10 : Rat) ^ 300 = B at *
  obtain ⟨lo, hi, hrel, hlo2, hlo1, hhi1, hhi2, hup, hdown⟩ := rounding_factors
  have hlo0 : 0 < lo := by linarith
  have hhi0 : 0 < hi := by linarith
  obtain ⟨a, ha, hae⟩ := toDouble_relative c (hLle _ (by linarith)) (hHlt _ (by linarith))
  obtain ⟨b, hb, hbe⟩ := toDouble_relative p (hLle _ (by linarith)) (hHlt _ (by linarith))
  obtain ⟨ha1, ha2⟩ := hrel _ _ hae
  obtain ⟨hb1, hb2⟩ := hrel _ _ hbe
  have hcpos : 0 < |c| := by linarith
  have hppos : 0 < |p| := by linarith
  have hapos : 0 < a := lt_of_lt_of_le (mul_pos hcpos hlo0) ha1
  have hbpos : 0 < b := lt_of_lt_of_le (mul_pos hppos hlo0) hb1
  have hQpos : 0 < |c / p| := by linarith
  have hcQ : |c| = |c / p| * |p| := by
    rw [abs_div]; field_simp
  have hqpos : 0 < a / b := div_pos hapos hbpos
  have hab : a / b * b = a := by field_simp
  -- the quotient of the doubles against the exact quotient
  have hqhi : a / b * lo ≤ |c / p| * hi := by
    have h : a / b * lo * |p| ≤ |c / p| * hi * |p| :=
      calc a / b * lo * |p| = a / b * (|p| * lo) := by ring
        _ ≤ a / b * b := mul_le_mul_of_nonneg_left hb1 hqpos.le
        _ = a := hab
        _ ≤ |c| * hi := ha2
        _ = |c / p| * hi * |p| := by rw [hcQ]; ring
    exact le_of_mul_le_mul_right h hppos
  have hqlo : |c / p| * lo ≤ a / b * hi := by
    have h : |c / p| * lo * |p| ≤ a / b * hi * |p| :=
      calc |c / p| * lo * |p| = |c| * lo := by rw [hcQ]; ring
        _ ≤ a := ha1
        _ = a / b * b := hab.symm
        _ ≤ a / b * (|p| * hi) := mul_le_mul_of_nonneg_left hb2 hqpos.le
        _ = a / b * hi * |p| := by ring
    exact le_of_mul_le_mul_right h hppos
  have hq4 : |c / p| / 4 ≤ a / b := by
    have h1 : |c / p| * (1 / 2) ≤ |c / p| * lo := mul_le_mul_of_nonneg_left hlo2 hQpos.le
    have h2 : a / b * hi ≤ a / b * 2 := mul_le_mul_of_nonneg_left hhi2 hqpos.le
    linarith
  have hq4b : a / b ≤ 4 * |c / p| := by
    have h1 : a / b * (1 / 2) ≤ a / b * lo := mul_le_mul_of_nonneg_left hlo2 hqpos.le
    have h2 : |c / p| * hi ≤ |c / p| * 2 := mul_le_mul_of_nonneg_left hhi2 hQpos.le
    linarith
  obtain ⟨d, hd, hde⟩ := roundToDouble_relative (decide (c < 0) != decide (p < 0)) (a / b)
    (hLle _ (by linarith)) (hHlt _ (by linarith))
  obtain ⟨hd1, hd2⟩ := hrel _ _ hde
  have hdpos : 0 < d := lt_of_lt_of_le (mul_pos hqpos hlo0) hd1
  have hd8 : |c / p| / 8 ≤ d := by
    have h1 : a / b * (1 / 2) ≤ a / b * lo := mul_le_mul_of_nonneg_left hlo2 hqpos.le
    linarith
  have hd8b : d ≤ 8 * |c / p| := by
    have h1 : a / b * hi ≤ a / b * 2 := mul_le_mul_of_nonneg_left hhi2 hqpos.le
    linarith
  obtain ⟨m, hm, hme⟩ := roundToDouble_relative (decide (c < 0) != decide (p < 0)) (d * 1000)
    (hLle _ (by linarith)) (hHlt _ (by linarith))
  obtain ⟨hm1, hm2⟩ := hrel _ _ hme
  -- the product against the exact rate
  have hmhi : m ≤ |c / p| * 1000 * (1 + 1 / 2 ^ 50) := by
    have h : m * lo ≤ |c / p| * 1000 * (1 + 1 / 2 ^ 50) * lo :=
      calc m * lo ≤ d * 1000 * hi * lo := mul_le_mul_of_nonneg_right hm2 hlo0.le
        _ ≤ a / b * hi * 1000 * hi * lo := by gcongr
        _ = a / b * lo * (1000 * hi ^ 2) := by ring
        _ ≤ |c / p| * hi * (1000 * hi ^ 2) := by gcongr
        _ = |c / p| * 1000 * hi ^ 3 := by ring
        _ ≤ |c / p| * 1000 * ((1 + 1 / 2 ^ 50) * lo) := by gcongr
        _ = |c / p| * 1000 * (1 + 1 / 2 ^ 50) * lo := by ring
    exact le_of_mul_le_mul_right h hlo0
  have hmlo : |c / p| * 1000 * (1 - 1 / 2 ^ 50) ≤ m := by
    have h : |c / p| * 1000 * (1 - 1 / 2 ^ 50) * hi ≤ m * hi :=
      calc |c / p| * 1000 * (1 - 1 / 2 ^ 50) * hi = |c / p| * 1000 * ((1 - 1 / 2 ^ 50) * hi) := by
            ring
        _ ≤ |c / p| * 1000 * lo ^ 3 := by gcongr
        _ = |c / p| * lo * (1000 * lo ^ 2) := by ring
        _ ≤ a / b * hi * (1000 * lo ^ 2) := by gcongr
        _ = a / b * lo * 1000 * lo * hi := by ring
        _ ≤ d * 1000 * lo * hi := by gcongr
        _ ≤ m * hi := mul_le_mul_of_nonneg_right hm1 hhi0.le
    exact le_of_mul_le_mul_right h hhi0
  refine ⟨decide (c < 0) != decide (p < 0), m, ?_, ?_⟩
  · rw [ha, hb, toDouble_thousand]
    simp only [Double.divide, if_neg (ne_of_gt hbpos), hd, Double.multiply, Bool.bne_false, hm]
  · have hc0 : c ≠ 0 := abs_pos.mp hcpos
    have hp0 : p ≠ 0 := abs_pos.mp hppos
    have habs : |c / p * 1000| = |c / p| * 1000 := by
      rw [abs_mul, abs_of_pos (show (0 : Rat) < 1000 by norm_num)]
    rw [habs, abs_le]
    rcases lt_or_gt_of_ne hc0 with hcn | hcp <;> rcases lt_or_gt_of_ne hp0 with hpn | hpp
    · have hq : |c / p| = c / p := abs_of_pos (div_pos_of_neg_of_neg hcn hpn)
      rw [hq] at hmhi hmlo ⊢
      simp only [signedValue, hcn, hpn, decide_True, bne_self_eq_false, Bool.false_eq_true,
        if_false]
      constructor <;> linarith
    · have hq : |c / p| = -(c / p) := abs_of_neg (div_neg_of_neg_of_pos hcn hpp)
      rw [hq] at hmhi hmlo ⊢
      simp [signedValue, hcn, not_lt.mpr hpp.le]
      constructor <;> linarith
    · have hq : |c / p| = -(c / p) := abs_of_neg (div_neg_of_pos_of_neg hcp hpn)
      rw [hq] at hmhi hmlo ⊢
      simp [signedValue, hpn, not_lt.mpr hcp.le]
      constructor <;> linarith
    · have hq : |c / p| = c / p := abs_of_pos (div_pos hcp hpp)
      rw [hq] at hmhi hmlo ⊢
      simp [signedValue, not_lt.mpr hcp.le, not_lt.mpr hpp.le]
      constructor <;> linarith

/-- The rate text of the fallback record of Singapore, evaluated in doubles. -/
theorem rate_singapore :
    (((toDouble 52000).divide (toDouble 5896000)).multiply (toDouble 1000)).toFixed2 =
      .fixed ⟨false, 882⟩ :=
  toFixed2_of_doubles 52000 5896000 52000 5896000
    (5084117896841591 / 576460752303423488)
    (2482479441817183 / 281474976710656) 882
    (toDouble_of_bounds 52000 (15) 7146825580544000
      52000
      (by norm_num) (by norm_num) (by norm_num) (by norm_num)
      (by norm_num) (by norm_num) (by norm_num) (by norm_num))
    (toDouble_of_bounds 5896000 (22) 6330781794304000
      5896000
      (by norm_num) (by norm_num) (by norm_num) (by norm_num)
      (by norm_num) (by norm_num) (by norm_num) (by norm_num))
    (by norm_num)
    (roundToDouble_of_bounds false (52000 / 5896000) (-7) 5084117896841591
      (5084117896841591 / 576460752303423488)
      (by norm_num) (by norm_num) (by norm_num) (by norm_num)
      (by norm_num) (by norm_num) (by norm_num))
    (roundToDouble_of_bounds false ((5084117896841591 / 576460752303423488) * 1000) (3) 4964958883634366
      (2482479441817183 / 281474976710656)
      (by norm_num) (by norm_num) (by norm_num) (by norm_num)
      (by norm_num) (by norm_num) (by norm_num))
    (by norm_num)
    (by norm_num)
    (by norm_num)
    (by norm_num)

/-- The rate text of the fallback record of New York City, evaluated in doubles. -/
theorem rate_new_york_city :
    (((toDouble 48000).divide (toDouble 8336817)).multiply (toDouble 1000)).toFixed2 =
      .fixed ⟨false, 576⟩ :=
  toFixed2_of_doubles 48000 8336817 48000 8336817
    (6638052894903253 / 1152921504606846976)
    (3241236765089479 / 562949953421312) 576
    (toDouble_of_bounds 48000 (15) 6597069766656000
      48000
      (by norm_num) (by norm_num) (by norm_num) (by norm_num)
      (by norm_num) (by norm_num) (by norm_num) (by norm_num))
    (toDouble_of_bounds 8336817 (22) 8951589091934208
      8336817
      (by norm_num) (by norm_num) (by norm_num) (by norm_num)
      (by norm_num) (by norm_num) (by norm_num) (by norm_num))
    (by norm_num)
    (roundToDouble_of_bounds false (48000 / 8336817) (-8) 6638052894903253
      (6638052894903253 / 1152921504606846976)
      (by norm_num) (by norm_num) (by norm_num) (by norm_num)
      (by norm_num) (by norm_num) (by norm_num))
    (roundToDouble_of_bounds false ((6638052894903253 / 1152921504606846976) * 1000) (2) 6482473530178958
      (3241236765089479 / 562949953421312)
      (by norm_num) (by norm_num) (by norm_num) (by norm_num)
      (by norm_num) (by norm_num) (by norm_num))
    (by norm_num)
    (by norm_num)
    (by norm_num)
    (by norm_num)

/-- The rate text of the fallback record of London, evaluated in doubles. -/
theorem rate_london :
    (((toDouble 78000).divide (toDouble 9540576)).multiply (toDouble 1000)).toFixed2 =
      .fixed ⟨false, 818⟩ :=
  toFixed2_of_doubles 78000 9540576 78000 9540576
    (4712916566008911 / 576460752303423488)
    (4602457583993077 / 562949953421312) 818
    (toDouble_of_bounds 78000 (16) 5360119185408000
      78000
      (by norm_num) (by norm_num) (by norm_num) (by norm_num)
      (by norm_num) (by norm_num) (by norm_num) (by norm_num))
    (toDouble_of_bounds 9540576 (23) 5122057738125312
      9540576
      (by norm_num) (by norm_num) (by norm_num) (by norm_num)
      (by norm_num) (by norm_num) (by norm_num) (by norm_num))
    (by norm_num)
    (roundToDouble_of_bounds false (78000 / 9540576) (-7) 4712916566008911
      (4712916566008911 / 576460752303423488)
      (by norm_num) (by norm_num) (by norm_num) (by norm_num)
      (by norm_num) (by norm_num) (by norm_num))
    (roundToDouble_of_bounds false ((4712916566008911 / 576460752303423488) * 1000) (3) 4602457583993077
      (4602457583993077 / 562949953421312)
      (by norm_num) (by norm_num) (by norm_num) (by norm_num)
      (by norm_num) (by norm_num) (by norm_num))
    (by norm_num)
    (by norm_num)
    (by norm_num)
    (by norm_num)

/-- The rate text of the fallback record of Paris, evaluated in doubles. -/
theorem rate_paris :
    (((toDouble 18500).divide (toDouble 2161000)).multiply (toDouble 1000)).toFixed2 =
      .fixed ⟨false, 856⟩ :=
  toFixed2_of_doubles 18500 2161000 18500 2161000
    (2467497435819837 / 288230376151711744)
    (4819330929335619 / 562949953421312) 856
    (toDouble_of_bounds 18500 (14) 5085241278464000
      18500
      (by norm_num) (by norm_num) (by norm_num) (by norm_num)
      (by norm_num) (by norm_num) (by norm_num) (by norm_num))
    (toDouble_of_bounds 2161000 (21) 4640712163328000
      2161000
      (by norm_num) (by norm_num) (by norm_num) (by norm_num)
      (by norm_num) (by norm_num) (by norm_num) (by norm_num))
    (by norm_num)
    (roundToDouble_of_bounds false (18500 / 2161000) (-7) 4934994871639674
      (2467497435819837 / 288230376151711744)
      (by norm_num) (by norm_num) (by norm_num) (by norm_num)
      (by norm_num) (by norm_num) (by norm_num))
    (roundToDouble_of_bounds false ((2467497435819837 / 288230376151711744) * 1000) (3) 4819330929335619
      (4819330929335619 / 562949953421312)
      (by norm_num) (by norm_num) (by norm_num) (by norm_num)
      (by norm_num) (by norm_num) (by norm_num))
    (by norm_num)
    (by norm_num)
    (by norm_num)
    (by norm_num)

/-- The rate text of the fallback record of Barcelona, evaluated in doubles. -/
theorem rate_barcelona :
    (((toDouble 16800).divide (toDouble 1636000)).multiply (toDouble 1000)).toFixed2 =
      .fixed ⟨false, 1027⟩ :=
  toFixed2_of_doubles 16800 1636000 16800 1636000
    (739955733396815 / 72057594037927936)
    (5780904167162617 / 562949953421312) 1027
    (toDouble_of_bounds 16800 (14) 4617948836659200
      16800
      (by norm_num) (by norm_num) (by norm_num) (by norm_num)
      (by norm_num) (by norm_num) (by norm_num) (by norm_num))
    (toDouble_of_bounds 1636000 (20) 7026566496256000
      1636000
      (by norm_num) (by norm_num) (by norm_num) (by norm_num)
      (by norm_num) (by norm_num) (by norm_num) (by norm_num))
    (by norm_num)
    (roundToDouble_of_bounds false (16800 / 1636000) (-7) 5919645867174520
      (739955733396815 / 72057594037927936)
      (by norm_num) (by norm_num) (by norm_num) (by norm_num)
      (by norm_num) (by norm_num) (by norm_num))
    (roundToDouble_of_bounds false ((739955733396815 / 72057594037927936) * 1000) (3) 5780904167162617
      (5780904167162617 / 562949953421312)
      (by norm_num) (by norm_num) (by norm_num) (by norm_num)
      (by norm_num) (by norm_num) (by norm_num))
    (by norm_num)
    (by norm_num)
    (by norm_num)
    (by norm_num)

/-- The rate text of the fallback record of Berlin, evaluated in doubles. -/
theorem rate_berlin :
    (((toDouble 58800).divide (toDouble 3677000)).multiply (toDouble 1000)).toFixed2 =
      .fixed ⟨false, 1599⟩ :=
  toFixed2_of_doubles 58800 3677000 58800 3677000
    (4609177622442385 / 288230376151711744)
    (9002300043832783 / 562949953421312) 1599
    (toDouble_of_bounds 58800 (15) 8081410464153600
      58800
      (by norm_num) (by norm_num) (by norm_num) (by norm_num)
      (by norm_num) (by norm_num) (by norm_num) (by norm_num))
    (toDouble_of_bounds 3677000 (21) 7896297373696000
      3677000
      (by norm_num) (by norm_num) (by norm_num) (by norm_num)
      (by norm_num) (by norm_num) (by norm_num) (by norm_num))
    (by norm_num)
    (roundToDouble_of_bounds false (58800 / 3677000) (-6) 4609177622442385
      (4609177622442385 / 288230376151711744)
      (by norm_num) (by norm_num) (by norm_num) (by norm_num)
      (by norm_num) (by norm_num) (by norm_num))
    (roundToDouble_of_bounds false ((4609177622442385 / 288230376151711744) * 1000) (3) 9002300043832783
      (9002300043832783 / 562949953421312)
      (by norm_num) (by norm_num) (by norm_num) (by norm_num)
      (by norm_num) (by norm_num) (by norm_num))
    (by norm_num)
    (by norm_num)
    (by norm_num)
    (by norm_num)

/-- The rate text of the fallback record of Madrid, evaluated in doubles. -/
theorem rate_madrid :
    (((toDouble 42300).divide (toDouble 3223000)).multiply (toDouble 1000)).toFixed2 =
      .fixed ⟨false, 1312⟩ :=
  toFixed2_of_doubles 42300 3223000 42300 3223000
    (7565712014407327 / 576460752303423488)
    (7388390639069655 / 562949953421312) 1312
    (toDouble_of_bounds 42300 (15) 5813667731865600
      42300
      (by norm_num) (by norm_num) (by norm_num) (by norm_num)
      (by norm_num) (by norm_num) (by norm_num) (by norm_num))
    (toDouble_of_bounds 3223000 (21) 6921339797504000
      3223000
      (by norm_num) (by norm_num) (by norm_num) (by norm_num)
      (by norm_num) (by norm_num) (by norm_num) (by norm_num))
    (by norm_num)
    (roundToDouble_of_bounds false (42300 / 3223000) (-7) 7565712014407327
      (7565712014407327 / 576460752303423488)
      (by norm_num) (by norm_num) (by norm_num) (by norm_num)
      (by norm_num) (by norm_num) (by norm_num))
    (roundToDouble_of_bounds false ((7565712014407327 / 576460752303423488) * 1000) (3) 7388390639069655
      (7388390639069655 / 562949953421312)
      (by norm_num) (by norm_num) (by norm_num) (by norm_num)
      (by norm_num) (by norm_num) (by norm_num))
    (by norm_num)
    (by norm_num)
    (by norm_num)
    (by norm_num)

/-- The rate text of the fallback record of Amsterdam, evaluated in doubles. -/
theorem rate_amsterdam :
    (((toDouble 19800).divide (toDouble 873000)).multiply (toDouble 1000)).toFixed2 =
      .fixed ⟨false, 2268⟩ :=
  toFixed2_of_doubles 19800 873000 19800 873000
    (6537183789007895 / 288230376151711744)
    (3191984271976511 / 140737488355328) 2268
    (toDouble_of_bounds 19800 (14) 5442582557491200
      19800
      (by norm_num) (by norm_num) (by norm_num) (by norm_num)
      (by norm_num) (by norm_num) (by norm_num) (by norm_num))
    (toDouble_of_bounds 873000 (19) 7499012898816000
      873000
      (by norm_num) (by norm_num) (by norm_num) (by norm_num)
      (by norm_num) (by norm_num) (by norm_num) (by norm_num))
    (by norm_num)
    (roundToDouble_of_bounds false (19800 / 873000) (-6) 6537183789007895
      (6537183789007895 / 288230376151711744)
      (by norm_num) (by norm_num) (by norm_num) (by norm_num)
      (by norm_num) (by norm_num) (by norm_num))
    (roundToDouble_of_bounds false ((6537183789007895 / 288230376151711744) * 1000) (4) 6383968543953022
      (3191984271976511 / 140737488355328)
      (by norm_num) (by norm_num) (by norm_num) (by norm_num)
      (by norm_num) (by norm_num) (by norm_num))
    (by norm_num)
    (by norm_num)
    (by norm_num)
    (by norm_num)

/-- The rate text of the fallback record of Rome, evaluated in doubles. -/
theorem rate_rome :
    (((toDouble 52200).divide (toDouble 2873000)).multiply (toDouble 1000)).toFixed2 =
      .fixed ⟨false, 1817⟩ :=
  toFixed2_of_doubles 52200 2873000 52200 2873000
    (5236904154235765 / 288230376151711744)
    (159817631660027 / 8796093022208) 1817
    (toDouble_of_bounds 52200 (15) 7174313371238400
      52200
      (by norm_num) (by norm_num) (by norm_num) (by norm_num)
      (by norm_num) (by norm_num) (by norm_num) (by norm_num))
    (toDouble_of_bounds 2873000 (21) 6169720520704000
      2873000
      (by norm_num) (by norm_num) (by norm_num) (by norm_num)
      (by norm_num) (by norm_num) (by norm_num) (by norm_num))
    (by norm_num)
    (roundToDouble_of_bounds false (52200 / 2873000) (-6) 5236904154235765
      (5236904154235765 / 288230376151711744)
      (by norm_num) (by norm_num) (by norm_num) (by norm_num)
      (by norm_num) (by norm_num) (by norm_num))
    (roundToDouble_of_bounds false ((5236904154235765 / 288230376151711744) * 1000) (4) 5114164213120864
      (159817631660027 / 8796093022208)
      (by norm_num) (by norm_num) (by norm_num) (by norm_num)
      (by norm_num) (by norm_num) (by norm_num))
    (by norm_num)
    (by norm_num)
    (by norm_num)
    (by norm_num)

/-- The rate text for 3 tons and 40000 inhabitants, evaluated in doubles. -/
theorem rate_halfway :
    (((toDouble 3).divide (toDouble 40000)).multiply (toDouble 1000)).toFixed2 =
      .fixed ⟨false, 7⟩ :=
  toFixed2_of_doubles 3 40000 3 40000
    (5534023222112865 / 73786976294838206464)
    (5404319552844595 / 72057594037927936) 7
    (toDouble_of_bounds 3 (1) 6755399441055744
      3
      (by norm_num) (by norm_num) (by norm_num) (by norm_num)
      (by norm_num) (by norm_num) (by norm_num) (by norm_num))
    (toDouble_of_bounds 40000 (15) 5497558138880000
      40000
      (by norm_num) (by norm_num) (by norm_num) (by norm_num)
      (by norm_num) (by norm_num) (by norm_num) (by norm_num))
    (by norm_num)
    (roundToDouble_of_bounds false (3 / 40000) (-14) 5534023222112865
      (5534023222112865 / 73786976294838206464)
      (by norm_num) (by norm_num) (by norm_num) (by norm_num)
      (by norm_num) (by norm_num) (by norm_num))
    (roundToDouble_of_bounds false ((5534023222112865 / 73786976294838206464) * 1000) (-4) 5404319552844595
      (5404319552844595 / 72057594037927936)
      (by norm_num) (by norm_num) (by norm_num) (by norm_num)
      (by norm_num) (by norm_num) (by norm_num))
    (by norm_num)
    (by norm_num)
    (by norm_num)
    (by norm_num)

/-- The rate text for 408279590647 tons and 9803808155769 inhabitants, evaluated in
doubles. -/
theorem rate_near_halfway :
    (((toDouble 408279590647).divide (toDouble 9803808155769)).multiply (toDouble 1000)).toFixed2 =
      .fixed ⟨false, 4165⟩ :=
  toFixed2_of_doubles 408279590647 9803808155769 408279590647 9803808155769
    (3000838503709509 / 72057594037927936)
    (5861012702557635 / 140737488355328) 4165
    (toDouble_of_bounds 408279590647 (38) 6689252813160448
      408279590647
      (by norm_num) (by norm_num) (by norm_num) (by norm_num)
      (by norm_num) (by norm_num) (by norm_num) (by norm_num))
    (toDouble_of_bounds 9803808155769 (43) 5019549775753728
      9803808155769
      (by norm_num) (by norm_num) (by norm_num) (by norm_num)
      (by norm_num) (by norm_num) (by norm_num) (by norm_num))
    (by norm_num)
    (roundToDouble_of_bounds false (408279590647 / 9803808155769) (-5) 6001677007419018
      (3000838503709509 / 72057594037927936)
      (by norm_num) (by norm_num) (by norm_num) (by norm_num)
      (by norm_num) (by norm_num) (by norm_num))
    (roundToDouble_of_bounds false ((3000838503709509 / 72057594037927936) * 1000) (5) 5861012702557635
      (5861012702557635 / 140737488355328)
      (by norm_num) (by norm_num) (by norm_num) (by norm_num)
      (by norm_num) (by norm_num) (by norm_num))
    (by norm_num)
    (by norm_num)
    (by norm_num)
    (by norm_num)

/-- The magnitude of the number that a finite double denotes. -/
theorem abs_signedValue (s : Bool) (m : Rat) : |signedValue s m| = |m| := by
  cases s
  · simp [signedValue]
  · simp [signedValue]

/-- C14, counterexample: the value of the sequestration series is evaluated in doubles and
is not always the rate rounded to two decimals.  For 3 tons and 40000 inhabitants the rate
is exactly 0.075, which rounds to "0.08", and the series holds "0.07"; for 408279590647
tons and 9803808155769 inhabitants the rate rounds to "41.64" and the series holds "41.65",
more than half a hundredth away from the rate. -/
theorem sequestration_rate_not_rounded_exactly :
    (ChartManager.emissionsData [halfwayRateCity]).sequestrationData =
      [.fixed ⟨false, 7⟩] ∧
    (NumberText.fixed ⟨false, 7⟩).text = some "0.07" ∧
    halfwayRateCity.vegetation.carbon_sequestration_tons_per_year /
      halfwayRateCity.population * 1000 = 0.075 ∧
    (toFixed2 (halfwayRateCity.vegetation.carbon_sequestration_tons_per_year /
      halfwayRateCity.population * 1000)).render = "0.08" ∧
    (ChartManager.emissionsData [nearHalfwayRateCity]).sequestrationData =
      [.fixed ⟨false, 4165⟩] ∧
    (NumberText.fixed ⟨false, 4165⟩).text = some "41.65" ∧
    (toFixed2 (nearHalfwayRateCity.vegetation.carbon_sequestration_tons_per_year /
      nearHalfwayRateCity.population * 1000)).render = "41.64" ∧
    1 / 200 < |(Fixed2.mk false 4165).value -
      nearHalfwayRateCity.vegetation.carbon_sequestration_tons_per_year /
        nearHalfwayRateCity.population * 1000| := by
  refine ⟨?_, rfl, ?_, ?_, ?_, rfl, ?_, ?_⟩
  · simp only [ChartManager.emissionsData, List.map, sequestrationRate, sequestrationDouble,
      halfwayRateCity]
    rw [rate_halfway]
  · norm_num [halfwayRateCity]
  · rw [toFixed2_of_bounds _ 8 (by norm_num [halfwayRateCity])
      (by norm_num [halfwayRateCity]) (by norm_num [halfwayRateCity])]
    rfl
  · simp only [ChartManager.emissionsData, List.map, sequestrationRate, sequestrationDouble,
      nearHalfwayRateCity]
    rw [rate_near_halfway]
  · rw [toFixed2_of_bounds _ 4164 (by norm_num [nearHalfwayRateCity])
      (by norm_num [nearHalfwayRateCity]) (by norm_num [nearHalfwayRateCity])]
    rfl
  · norm_num [Fixed2.value, nearHalfwayRateCity, abs_of_pos]

/-- C14, amended: for every city list the chart projections keep the length and the order of
the list: the i-th value of the score series is the i-th city's `eco_balance_score`, of the
emissions series its `per_capita_tons`, and of the sequestration series the text with two
decimals of the double that `carbon_sequestration_tons_per_year / population * 1000`
evaluates to.  That text denotes a number within half a hundredth of the double; for
numbers and a quotient of a magnitude between `10 ^ (-300)` and `10 ^ 300` the double is
finite and within the rate over `2 ^ 50` of the exact rate, so that below `10 ^ 20` the text
is within half a hundredth plus the rate over `2 ^ 50` of the exact rate; for a population of
zero the text is "Infinity", "-Infinity" or "NaN".  These are the data of the charts that
are created; on the fallback catalog the rates are "8.82" for Singapore and so on. -/
theorem chart_projections (cities : List City) :
    (ChartManager.ecoBalanceData cities).data.length = cities.length ∧
    (ChartManager.emissionsData cities).emissionsData.length = cities.length ∧
    (ChartManager.emissionsData cities).sequestrationData.length = cities.length ∧
    (∀ i : Nat, (ChartManager.ecoBalanceData cities).data[i]? =
      cities[i]?.map (fun city => city.eco_balance_score)) ∧
    (∀ i : Nat, (ChartManager.emissionsData cities).emissionsData[i]? =
      cities[i]?.map (fun city => city.emissions.per_capita_tons)) ∧
    (∀ i : Nat, (ChartManager.emissionsData cities).sequestrationData[i]? =
      cities[i]?.map sequestrationRate) ∧
    (∀ (city : City) (s : Bool) (m : Rat),
      sequestrationDouble city = .finite s m → m < 10 ^ 21 →
      sequestrationRate city = .fixed (toFixed2 (signedValue s m)) ∧
      |(toFixed2 (signedValue s m)).value - signedValue s m| ≤ 1 / 200) ∧
    (∀ city : City,
      1 / 10 ^ 300 ≤ |city.vegetation.carbon_sequestration_tons_per_year| →
      |city.vegetation.carbon_sequestration_tons_per_year| ≤ 10 ^ 300 →
      1 / 10 ^ 300 ≤ |city.population| → |city.population| ≤ 10 ^ 300 →
      1 / 10 ^ 300 ≤ |city.vegetation.carbon_sequestration_tons_per_year / city.population| →
      |city.vegetation.carbon_sequestration_tons_per_year / city.population| ≤ 10 ^ 300 →
      ∃ (s : Bool) (m : Rat),
        sequestrationDouble city = .finite s m ∧
        |signedValue s m -
            city.vegetation.carbon_sequestration_tons_per_year / city.population * 1000| ≤
          |city.vegetation.carbon_sequestration_tons_per_year / city.population * 1000|
            / 2 ^ 50 ∧
        (|city.vegetation.carbon_sequestration_tons_per_year / city.population * 1000|
            < 10 ^ 20 →
          ∃ f : Fixed2, sequestrationRate city = .fixed f ∧
            |f.value -
                city.vegetation.carbon_sequestration_tons_per_year / city.population * 1000| ≤
              1 / 200 +
                |city.vegetation.carbon_sequestration_tons_per_year / city.population * 1000|
                  / 2 ^ 50)) ∧
    (∀ city : City, city.population = 0 →
      (sequestrationRate city).text = some "Infinity" ∨
        (sequestrationRate city).text = some "-Infinity" ∨
        (sequestrationRate city).text = some "NaN") ∧
    (∀ self : ChartManager,
      (self.createEcoBalanceChart true cities).ecoBalanceChart =
        some (ChartManager.ecoBalanceData cities) ∧
      (self.createEmissionsChart true cities).emissionsChart =
        some (ChartManager.emissionsData cities)) ∧
    (ChartManager.ecoBalanceData getFallbackData.cities).data =
      [1.63, 0.89, 2.05, 0.61, 0.82, 1.46, 1.31, 0.82, 1.57] ∧
    (ChartManager.emissionsData getFallbackData.cities).emissionsData =
      [5.4, 6.5, 4.0, 5.8, 5.0, 5.5, 5.7, 5.5, 5.8] ∧
    (ChartManager.emissionsData getFallbackData.cities).sequestrationData =
      [.fixed ⟨false, 882⟩, .fixed ⟨false, 576⟩, .fixed ⟨false, 818⟩, .fixed ⟨false, 856⟩,
        .fixed ⟨false, 1027⟩, .fixed ⟨false, 1599⟩, .fixed ⟨false, 1312⟩,
        .fixed ⟨false, 2268⟩, .fixed ⟨false, 1817⟩] ∧
    (ChartManager.emissionsData getFallbackData.cities).sequestrationData.map NumberText.text =
      [some "8.82", some "5.76", some "8.18", some "8.56", some "10.27", some "15.99",
        some "13.12", some "22.68", some "18.17"] := by
  have hfallback : (ChartManager.emissionsData getFallbackData.cities).sequestrationData =
      [.fixed ⟨false, 882⟩, .fixed ⟨false, 576⟩, .fixed ⟨false, 818⟩, .fixed ⟨false, 856⟩,
        .fixed ⟨false, 1027⟩, .fixed ⟨false, 1599⟩, .fixed ⟨false, 1312⟩,
        .fixed ⟨false, 2268⟩, .fixed ⟨false, 1817⟩] := by
    simp only [getFallbackData, ChartManager.emissionsData, List.map, sequestrationRate,
      sequestrationDouble]
    rw [rate_singapore, rate_new_york_city, rate_london, rate_paris, rate_barcelona,
      rate_berlin, rate_madrid, rate_amsterdam, rate_rome]
  refine ⟨?_, ?_, ?_, ?_, ?_, ?_, ?_, ?_, ?_, ?_, rfl, rfl, hfallback, ?_⟩
  · simp [ChartManager.ecoBalanceData]
  · simp [ChartManager.emissionsData]
  · simp [ChartManager.emissionsData]
  · intro i
    simp [ChartManager.ecoBalanceData, List.getElem?_map]
  · intro i
    simp [ChartManager.emissionsData, List.getElem?_map]
  · intro i
    simp [ChartManager.emissionsData, List.getElem?_map]
  · intro city s m hd h21
    refine ⟨?_, toFixed2_value_close _⟩
    simp only [sequestrationRate, hd, Double.toFixed2, if_neg (not_le.mpr h21)]
  · intro city hc1 hc2 hp1 hp2 hq1 hq2
    obtain ⟨s, m, hd, hacc⟩ := rate_double_accuracy _ _ hc1 hc2 hp1 hp2 hq1 hq2
    refine ⟨s, m, hd, hacc, ?_⟩
    intro h20
    have hm : m < 10 ^ 21 := by
      have h1 : |signedValue s m| ≤
          |signedValue s m -
            city.vegetation.carbon_sequestration_tons_per_year / city.population * 1000| +
          |city.vegetation.carbon_sequestration_tons_per_year / city.population * 1000| := by
        have := abs_add (signedValue s m -
            city.vegetation.carbon_sequestration_tons_per_year / city.population * 1000)
          (city.vegetation.carbon_sequestration_tons_per_year / city.population * 1000)
        simpa using this
      rw [abs_signedValue] at h1
      have h2 : m ≤ |m| := le_abs_self m
      have h3 : |city.vegetation.carbon_sequestration_tons_per_year / city.population * 1000|
          / 2 ^ 50 ≤
          |city.vegetation.carbon_sequestration_tons_per_year / city.population * 1000| :=
        div_le_self (abs_nonneg _) (by norm_num)
      linarith
    refine ⟨toFixed2 (signedValue s m), ?_, ?_⟩
    · simp only [sequestrationRate, sequestrationDouble, hd, Double.toFixed2,
        if_neg (not_le.mpr hm)]
    · have h1 := toFixed2_value_close (signedValue s m)
      have h2 := abs_sub_le (toFixed2 (signedValue s m)).value (signedValue s m)
        (city.vegetation.carbon_sequestration_tons_per_year / city.population * 1000)
      linarith
  · intro city hpop
    have hzero : toDouble (0 : Rat) = .finite false 0 := by
      simp [toDouble, roundToDouble]
    simp only [sequestrationRate, sequestrationDouble, hpop, hzero, toDouble_thousand]
    cases toDouble city.vegetation.carbon_sequestration_tons_per_year with
    | nan => simp [Double.divide, Double.multiply, Double.toFixed2, NumberText.text]
    | inf s =>
      cases s <;> simp [Double.divide, Double.multiply, Double.toFixed2, NumberText.text]
    | finite s a =>
      by_cases ha : a = 0
      · simp [Double.divide, ha, Double.multiply, Double.toFixed2, NumberText.text]
      · cases s <;>
          simp [Double.divide, ha, Double.multiply, Double.toFixed2, NumberText.text]
  · intro self
    exact ⟨rfl, rfl⟩
  · rw [hfallback]
    rfl

/-- Witness for C14: the sample city, 10 tons and 3000 inhabitants, has numbers, a quotient
and a rate in the ranges for which the text is close to the exact rate. -/
theorem chart_projections_witness :
    ∃ f : Fixed2, sequestrationRate sampleCity = .fixed f ∧
      |f.value -
          sampleCity.vegetation.carbon_sequestration_tons_per_year /
            sampleCity.population * 1000| ≤
        1 / 200 +
          |sampleCity.vegetation.carbon_sequestration_tons_per_year /
            sampleCity.population * 1000| / 2 ^ 50 := by
  obtain ⟨s, m, -, -, hfixed⟩ := (chart_projections [sampleCity]).2.2.2.2.2.2.2.1 sampleCity
    (by norm_num [sampleCity]) (by norm_num [sampleCity]) (by norm_num [sampleCity])
    (by norm_num [sampleCity]) (by norm_num [sampleCity, abs_of_pos])
    (by norm_num [sampleCity, abs_of_pos])
  exact hfixed (by norm_num [sampleCity, abs_of_pos])

/-- C15: `getFallbackData()` is a catalog of exactly 9 cities, Singapore, New York City,
London, Paris, Barcelona, Berlin, Madrid, Amsterdam and Rome in that order, none of which
has a `data_sources` property, and the catalog has no `api_integration`. -/
theorem fallback_catalog_shape :
    getFallbackData.cities.length = 9 ∧
    getFallbackData.cities.map City.name =
      ["Singapore", "New York City", "London", "Paris", "Barcelona", "Berlin", "Madrid",
        "Amsterdam", "Rome"] ∧
    (∀ c ∈ getFallbackData.cities, c.data_sources = none) ∧
    getFallbackData.api_integration = none := by
  refine ⟨rfl, rfl, ?_, rfl⟩
  intro c hc
  simp only [getFallbackData, List.mem_cons, List.mem_singleton, List.not_mem_nil,
    or_false] at hc
  rcases hc with rfl | rfl | rfl | rfl | rfl | rfl | rfl | rfl | rfl <;> rfl

/-- C16: for every city of the fallback catalog, of a merged catalog for any payload, and
of the collection after any load, the four sector percentages sum to exactly 100. -/
theorem sector_percentages_sum_to_100 :
    (∀ c ∈ getFallbackData.cities, c.sectorTotal = 100) ∧
    (∀ (apiData : JsVal) (cd : CityData), createCityDataWithAPISources apiData = .ok cd →
      ∀ c ∈ cd.cities, c.sectorTotal = 100) ∧
    (∀ (s : DataManager) (o : FetchOutcome), ∀ c ∈ (s.loadData o).1.getCities,
      c.sectorTotal = 100) := by
  have hfb : ∀ c ∈ getFallbackData.cities, c.sectorTotal = 100 := by
    intro c hc
    simp only [getFallbackData, List.mem_cons, List.mem_singleton, List.not_mem_nil,
      or_false] at hc
    rcases hc with rfl | rfl | rfl | rfl | rfl | rfl | rfl | rfl | rfl <;>
      norm_num [City.sectorTotal]
  have hmerged : ∀ (apiData : JsVal) (cd : CityData),
      createCityDataWithAPISources apiData = .ok cd → ∀ c ∈ cd.cities, c.sectorTotal = 100 := by
    intro apiData cd h c hc
    obtain ⟨d1, d2, d3, d4, d5, d6, d7, d8, d9, hcs, -, -, -⟩ :=
      createCityData_shape apiData cd h
    rw [hcs] at hc
    simp only [getFallbackData, List.zipWith, City.withDataSources, List.mem_cons,
      List.mem_singleton, List.not_mem_nil, or_false] at hc
    rcases hc with rfl | rfl | rfl | rfl | rfl | rfl | rfl | rfl | rfl <;>
      norm_num [City.sectorTotal]
  refine ⟨hfb, hmerged, ?_⟩
  intro s o c hc
  obtain ⟨cd, -, hcd, -, hor⟩ := loadData_result s o
  simp only [DataManager.getCities, hcd] at hc
  rcases hor with rfl | ⟨d, hd⟩
  · exact hfb c hc
  · exact hmerged d cd hd c hc

/-- Witness for C16: in the catalog merged from `samplePayload` the sector percentages of
every city sum to 100. -/
theorem sector_percentages_sum_to_100_witness :
    ∀ c ∈ sampleMerged.cities, c.sectorTotal = 100 :=
  sector_percentages_sum_to_100.2.1 samplePayload sampleMerged createCityData_samplePayload

/-- C17: on a freshly constructed `DataManager` `getCities()` is the empty list, and after
any load it is exactly the `cities` list of the collection that the load stored and
returned. -/
theorem getCities_correct :
    DataManager.new.getCities = [] ∧
    (∀ (s : DataManager) (o : FetchOutcome), ∃ cd : CityData,
      (s.loadData o).1.cityData = some cd ∧ (s.loadData o).2 = .ok cd ∧
      (s.loadData o).1.getCities = cd.cities) := by
  refine ⟨rfl, ?_⟩
  intro s o
  obtain ⟨cd, hret, hcd, -, -⟩ := loadData_result s o
  exact ⟨cd, hcd, hret, by simp [DataManager.getCities, hcd]⟩

/-- A search that meets no hit returns `undefined`. -/
theorem arrayFind_none (p : JsVal → Except JsError Bool) (xs : List JsVal)
    (h : ∀ e ∈ xs, p e = .ok false) : arrayFind p xs = .ok JsVal.undefined := by
  induction xs with
  | nil => rfl
  | cons x xs ih =>
    simp only [arrayFind, h x (List.mem_cons_self x xs)]
    exact ih (fun e he => h e (List.mem_cons_of_mem x he))

/-- A search returns the first element on which the callback is true. -/
theorem arrayFind_first_hit (p : JsVal → Except JsError Bool) (pre : List JsVal) (x : JsVal)
    (post : List JsVal) (hpre : ∀ e ∈ pre, p e = .ok false) (hx : p x = .ok true) :
    arrayFind p (pre ++ x :: post) = .ok x := by
  induction pre with
  | nil => simp [arrayFind, hx]
  | cons y ys ih =>
    simp only [List.cons_append, arrayFind, hpre y (List.mem_cons_self y ys)]
    exact ih (fun e he => hpre e (List.mem_cons_of_mem y he))

/-- A search throws what the callback throws on the first element it does not pass. -/
theorem arrayFind_first_error (p : JsVal → Except JsError Bool) (pre : List JsVal) (x : JsVal)
    (post : List JsVal) (err : JsError) (hpre : ∀ e ∈ pre, p e = .ok false)
    (hx : p x = .error err) :
    arrayFind p (pre ++ x :: post) = .error err := by
  induction pre with
  | nil => simp [arrayFind, hx]
  | cons y ys ih =>
    simp only [List.cons_append, arrayFind, hpre y (List.mem_cons_self y ys)]
    exact ih (fun e he => hpre e (List.mem_cons_of_mem y he))

/-- On an entry that is not `null` or `undefined` the name test does not throw, and it is
true exactly on an object whose `name` is the string looked for. -/
theorem nameIs_readable (n : String) (e : JsVal) (h : entryReadable e = true) :
    nameIs n e = .ok (entryHasName e n) := by
  cases e with
  | undefined => simp [entryReadable] at h
  | null => simp [entryReadable] at h
  | obj kvs =>
    simp only [nameIs, getProp, entryHasName, bind, Except.bind, pure, Except.pure]
    cases hl : kvs.lookup "name" with
    | none => rfl
    | some v => cases v <;> rfl
  | _ => rfl

/-- On an entry that is `null` or `undefined` the name test throws. -/
theorem nameIs_unreadable (n : String) (e : JsVal) (h : entryReadable e = false) :
    ∃ err, nameIs n e = .error err := by
  cases e with
  | undefined => exact ⟨_, rfl⟩
  | null => exact ⟨_, rfl⟩
  | _ => simp [entryReadable] at h

/-- C18, as stated, fails: for the payload object `{cities: [null]}`, which has a `cities`
list without an entry named "Paris", and for `{cities: 5}`, which has no `cities` list,
`findCityDataSources(payload, "Paris")` raises a `TypeError` instead of being `null`. -/
theorem findCityDataSources_raises_on_malformed :
    findCityDataSources (.obj [("cities", .arr [.null])]) "Paris" =
      .error (.typeError "Cannot read properties of null") ∧
    findCityDataSources (.obj [("cities", .num 5)]) "Paris" =
      .error (.typeError "apiData.cities?.find is not a function") :=
  ⟨rfl, rfl⟩

/-- C18, amended: attribution is matched by exact name equality.  For every payload object
and city name `n`, `findCityDataSources(payload, n)` is `null` when `cities` is absent or
null, and when `cities` is a list of entries none of which is `null` and none of which has a
`name` equal to `n` character for character; it is
`{green_space: e.green_space_data, emissions: e.emissions_data}` for the first entry `e`
whose name equals `n`, when no entry before `e` is `null`; it raises when a `null` entry is
met before a match and when `cities` is any other value than a list; a name that differs
only in case or whitespace does not match. -/
theorem findCityDataSources_exact_name (p : List (String × JsVal)) (n : String) :
    ((p.lookup "cities" = none ∨ p.lookup "cities" = some JsVal.null ∨
        p.lookup "cities" = some JsVal.undefined) →
      findCityDataSources (.obj p) n = .ok JsVal.null) ∧
    (∀ xs : List JsVal, p.lookup "cities" = some (.arr xs) →
      (∀ e ∈ xs, entryReadable e = true ∧ entryHasName e n = false) →
      findCityDataSources (.obj p) n = .ok JsVal.null) ∧
    (∀ (pre : List JsVal) (kvs : List (String × JsVal)) (post : List JsVal),
      p.lookup "cities" = some (.arr (pre ++ JsVal.obj kvs :: post)) →
      (∀ e ∈ pre, entryReadable e = true ∧ entryHasName e n = false) →
      kvs.lookup "name" = some (JsVal.str n) →
      findCityDataSources (.obj p) n = .ok (attributionOfEntry kvs)) ∧
    (∀ (pre : List JsVal) (e : JsVal) (post : List JsVal),
      p.lookup "cities" = some (.arr (pre ++ e :: post)) →
      (∀ x ∈ pre, entryReadable x = true ∧ entryHasName x n = false) →
      entryReadable e = false →
      ∃ err, findCityDataSources (.obj p) n = .error err) ∧
    (∀ v : JsVal, p.lookup "cities" = some v → (∀ xs, v ≠ JsVal.arr xs) →
      v ≠ JsVal.null → v ≠ JsVal.undefined →
      ∃ err, findCityDataSources (.obj p) n = .error err) ∧
    findCityDataSources samplePayload "paris" = .ok JsVal.null ∧
    findCityDataSources samplePayload "Paris " = .ok JsVal.null := by
  refine ⟨?_, ?_, ?_, ?_, ?_, rfl, rfl⟩
  · rintro (h | h | h) <;>
      simp [findCityDataSources, getProp, h, bind, Except.bind, pure, Except.pure, truthy]
  · intro xs hl hxs
    have hfind : arrayFind (nameIs n) xs = .ok JsVal.undefined :=
      arrayFind_none _ xs (fun e he => by rw [nameIs_readable n e (hxs e he).1, (hxs e he).2])
    have h1 : getProp (JsVal.obj p) "cities" = .ok (JsVal.arr xs) := by simp [getProp, hl]
    unfold findCityDataSources
    rw [h1]
    show (arrayFind (nameIs n) xs >>= fun city =>
      if truthy city then
        getProp city "green_space_data" >>= fun g =>
        getProp city "emissions_data" >>= fun e =>
        pure (JsVal.obj [("green_space", g), ("emissions", e)])
      else pure JsVal.null) = _
    rw [hfind]
    rfl
  · intro pre kvs post hl hpre hname
    have hfind : arrayFind (nameIs n) (pre ++ JsVal.obj kvs :: post) = .ok (JsVal.obj kvs) :=
      arrayFind_first_hit _ pre _ post
        (fun e he => by rw [nameIs_readable n e (hpre e he).1, (hpre e he).2])
        (by simp [nameIs, getProp, hname, bind, Except.bind, pure, Except.pure,
          strictEqualsString])
    have h1 : getProp (JsVal.obj p) "cities" =
        .ok (JsVal.arr (pre ++ JsVal.obj kvs :: post)) := by simp [getProp, hl]
    unfold findCityDataSources
    rw [h1]
    show (arrayFind (nameIs n) (pre ++ JsVal.obj kvs :: post) >>= fun city =>
      if truthy city then
        getProp city "green_space_data" >>= fun g =>
        getProp city "emissions_data" >>= fun e =>
        pure (JsVal.obj [("green_space", g), ("emissions", e)])
      else pure JsVal.null) = _
    rw [hfind]
    rfl
  · intro pre e post hl hpre he
    obtain ⟨err, herr⟩ := nameIs_unreadable n e he
    have hfind : arrayFind (nameIs n) (pre ++ e :: post) = .error err :=
      arrayFind_first_error _ pre _ post err
        (fun x hx => by rw [nameIs_readable n x (hpre x hx).1, (hpre x hx).2]) herr
    have h1 : getProp (JsVal.obj p) "cities" = .ok (JsVal.arr (pre ++ e :: post)) := by
      simp [getProp, hl]
    refine ⟨err, ?_⟩
    unfold findCityDataSources
    rw [h1]
    show (arrayFind (nameIs n) (pre ++ e :: post) >>= fun city =>
      if truthy city then
        getProp city "green_space_data" >>= fun g =>
        getProp city "emissions_data" >>= fun e =>
        pure (JsVal.obj [("green_space", g), ("emissions", e)])
      else pure JsVal.null) = _
    rw [hfind]
    rfl
  · intro v hl harr hnull hundef
    have h1 : getProp (JsVal.obj p) "cities" = .ok v := by simp [getProp, hl]
    refine ⟨JsError.typeError "apiData.cities?.find is not a function", ?_⟩
    unfold findCityDataSources
    rw [h1]
    cases v with
    | undefined => exact absurd rfl hundef
    | null => exact absurd rfl hnull
    | arr xs => exact absurd rfl (harr xs)
    | _ => rfl

/-- Witness for C18: in `samplePayload` the first entry named "Paris" supplies the
attribution for "Paris". -/
theorem findCityDataSources_exact_name_witness :
    findCityDataSources samplePayload "Paris" =
      .ok (attributionOfEntry [("name", .str "Paris"),
        ("green_space_data", .obj [("source", .str "HUGSI")])]) :=
  (findCityDataSources_exact_name
      [("cities", .arr [.obj [("name", .str "Paris"),
        ("green_space_data", .obj [("source", .str "HUGSI")])]])] "Paris").2.2.1
    [] [("name", .str "Paris"), ("green_space_data", .obj [("source", .str "HUGSI")])] []
    rfl (by simp) rfl

/-- A statement of `refreshData` leaves the navigation manager and the navigation part of
the document as they are. -/
theorem refreshStep_navigation (env : AppEnv) (w : AppState) (step : RefreshStep) :
    (EcoBalanceApp.refreshStep env w step).1.app.navigationManager = w.app.navigationManager ∧
    (EcoBalanceApp.refreshStep env w step).1.nav = w.nav := by
  cases step
  · exact ⟨rfl, rfl⟩
  · by_cases hm : w.app.hasDashboardManager <;>
      by_cases ht : env.refreshThrows RefreshStep.dashboardUpdate <;>
      simp [EcoBalanceApp.refreshStep, hm, ht]
  · by_cases ht : env.refreshThrows RefreshStep.updateCharts <;>
      simp [EcoBalanceApp.refreshStep, ht]
  · by_cases hm : w.app.hasComparisonManager <;>
      by_cases ht : env.refreshThrows RefreshStep.populateCitySelects <;>
      simp [EcoBalanceApp.refreshStep, hm, ht]
  · by_cases hm : w.app.hasApiManager <;>
      by_cases ht : env.refreshThrows RefreshStep.populateDataSources <;>
      simp [EcoBalanceApp.refreshStep, hm, ht]

/-- The `try` block of `refreshData` leaves the navigation manager and the navigation part
of the document as they are, whether it completes or throws. -/
theorem runRefreshSteps_navigation (env : AppEnv) (steps : List RefreshStep) :
    ∀ w : AppState,
      (EcoBalanceApp.runRefreshSteps env w steps).1.app.navigationManager
        = w.app.navigationManager ∧
      (EcoBalanceApp.runRefreshSteps env w steps).1.nav = w.nav := by
  induction steps with
  | nil => intro w; exact ⟨rfl, rfl⟩
  | cons step rest ih =>
    intro w
    have hstep := refreshStep_navigation env w step
    simp only [EcoBalanceApp.runRefreshSteps]
    cases hr : EcoBalanceApp.refreshStep env w step with
    | mk w1 r =>
      rw [hr] at hstep
      cases r with
      | ok u =>
        have hrest := ih w1
        exact ⟨hrest.1.trans hstep.1, hrest.2.trans hstep.2⟩
      | error e => exact hstep

/-- When the element of a view exists, `showView` makes that view the current one. -/
theorem showView_currentView (self : NavigationManager) (dom : NavDom) (viewName : String)
    (h : dom.elements.any (fun el => el.id == viewName ++ "-view") = true) :
    (self.showView dom viewName).1.currentView = viewName := by
  have hany : ∀ l : List ViewElement,
      (l.map (fun view =>
        if view.hasViewClass then { view with active := false, display := "none" }
        else view)).any (fun el => el.id == viewName ++ "-view") =
      l.any (fun el => el.id == viewName ++ "-view") := by
    intro l
    induction l with
    | nil => rfl
    | cons x xs ih =>
      simp only [List.map_cons, List.any_cons, ih]
      by_cases hx : x.hasViewClass <;> simp [hx]
  unfold NavigationManager.showView
  by_cases hb : self.bound
  · simp [hb, hany, h]
  · simp [hb, h]

/-- C19: refresh preserves the currently selected navigation view.  For every view name
held in `currentView` before `refreshData`, `getCurrentView()` is the same afterwards,
whether the reload succeeds or falls back and whether a module update throws or a manager
is still `null`; the navigation part of the document is untouched and the error does not
escape.  In particular, after switching to a view and refreshing, the current view is the
one switched to, not 'dashboard'. -/
theorem refreshData_preserves_view (env : AppEnv) (w : AppState) :
    (EcoBalanceApp.refreshData env w).1.app.navigationManager.getCurrentView =
      w.app.navigationManager.getCurrentView ∧
    (EcoBalanceApp.refreshData env w).1.nav = w.nav ∧
    (EcoBalanceApp.refreshData env w).2 = .ok () ∧
    (∀ viewName : String,
      (EcoBalanceApp.refreshData env (w.switchView viewName)).1.app.navigationManager.getCurrentView
        = (w.switchView viewName).app.navigationManager.getCurrentView) ∧
    (∀ viewName : String,
      w.nav.elements.any (fun el => el.id == viewName ++ "-view") = true →
      (EcoBalanceApp.refreshData env (w.switchView viewName)).1.app.navigationManager.getCurrentView
        = viewName) := by
  have key : ∀ w0 : AppState,
      (EcoBalanceApp.refreshData env w0).1.app.navigationManager = w0.app.navigationManager ∧
      (EcoBalanceApp.refreshData env w0).1.nav = w0.nav ∧
      (EcoBalanceApp.refreshData env w0).2 = .ok () := by
    intro w0
    have hrun := runRefreshSteps_navigation env refreshSteps w0
    simp only [EcoBalanceApp.refreshData]
    cases hr : EcoBalanceApp.runRefreshSteps env w0 refreshSteps with
    | mk w1 r =>
      rw [hr] at hrun
      cases r with
      | ok u => exact ⟨hrun.1, hrun.2, rfl⟩
      | error e => exact ⟨hrun.1, hrun.2, rfl⟩
  refine ⟨?_, (key w).2.1, (key w).2.2, ?_, ?_⟩
  · simp only [NavigationManager.getCurrentView, (key w).1]
  · intro viewName
    simp only [NavigationManager.getCurrentView, (key (w.switchView viewName)).1]
  · intro viewName h
    simp only [NavigationManager.getCurrentView, (key (w.switchView viewName)).1]
    exact showView_currentView _ _ _ h

/-- Witness for C19: on the sample document, switching to the comparison view and then
refreshing, with the dashboard update throwing, leaves 'comparison' as the current view. -/
theorem refreshData_preserves_view_witness :
    (EcoBalanceApp.new sampleNavDom).nav.elements.any
      (fun el => el.id == "comparison" ++ "-view") = true ∧
    (EcoBalanceApp.refreshData
      { fetch := FetchOutcome.rejected, initThrows := fun _ => false,
        refreshThrows := fun _ => true }
      ((EcoBalanceApp.new sampleNavDom).switchView "comparison")).1.app.navigationManager.getCurrentView
      = "comparison" :=
  ⟨by decide,
    (refreshData_preserves_view
      { fetch := FetchOutcome.rejected, initThrows := fun _ => false,
        refreshThrows := fun _ => true }
      (EcoBalanceApp.new sampleNavDom)).2.2.2.2 "comparison" (by decide)⟩

/-- A statement of `init` records its call, leaves the banner and `isInitialized` as they
are, and throws exactly when `initStepThrows` says so. -/
theorem initStep_effect (env : AppEnv) (w : AppState) (step : InitStep) :
    (EcoBalanceApp.initStep env w step).1.initCalls = w.initCalls ++ [step] ∧
    (EcoBalanceApp.initStep env w step).1.errorBanner = w.errorBanner ∧
    (EcoBalanceApp.initStep env w step).1.app.isInitialized = w.app.isInitialized ∧
    (initStepThrows env step = false → (EcoBalanceApp.initStep env w step).2 = .ok ()) ∧
    (initStepThrows env step = true →
      ∃ e, (EcoBalanceApp.initStep env w step).2 = .error e) := by
  cases step
  case loadData =>
    obtain ⟨cd, hret, -, -, -⟩ := loadData_result w.app.dataManager env.fetch
    refine ⟨rfl, rfl, rfl, ?_, ?_⟩
    · intro _
      simp [EcoBalanceApp.initStep, hret, awaitLoad]
    · intro h
      simp [initStepThrows] at h
  case createManagers =>
    refine ⟨rfl, rfl, rfl, fun _ => rfl, ?_⟩
    intro h
    simp [initStepThrows] at h
  case navigationInitialize =>
    refine ⟨rfl, rfl, rfl, fun _ => rfl, ?_⟩
    intro h
    simp [initStepThrows] at h
  all_goals
    simp only [initStepThrows, EcoBalanceApp.initStep]
    split <;> simp_all

/-- Unfolding of the `try` block of `init` at a statement that completes. -/
theorem runInitSteps_cons_ok (env : AppEnv) (w w1 : AppState) (step : InitStep)
    (rest : List InitStep) (u : Unit) (h : EcoBalanceApp.initStep env w step = (w1, .ok u)) :
    EcoBalanceApp.runInitSteps env w (step :: rest) = EcoBalanceApp.runInitSteps env w1 rest := by
  simp only [EcoBalanceApp.runInitSteps, h]

/-- Unfolding of the `try` block of `init` at a statement that throws. -/
theorem runInitSteps_cons_error (env : AppEnv) (w w1 : AppState) (step : InitStep)
    (rest : List InitStep) (e : JsError)
    (h : EcoBalanceApp.initStep env w step = (w1, .error e)) :
    EcoBalanceApp.runInitSteps env w (step :: rest) = (w1, .error e) := by
  simp only [EcoBalanceApp.runInitSteps, h]

/-- A `try` block of `init` in which no statement throws makes every call, in order, and
completes. -/
theorem runInitSteps_complete (env : AppEnv) (steps : List InitStep) :
    ∀ w : AppState, (∀ s ∈ steps, initStepThrows env s = false) →
      (EcoBalanceApp.runInitSteps env w steps).2 = .ok () ∧
      (EcoBalanceApp.runInitSteps env w steps).1.initCalls = w.initCalls ++ steps ∧
      (EcoBalanceApp.runInitSteps env w steps).1.errorBanner = w.errorBanner ∧
      (EcoBalanceApp.runInitSteps env w steps).1.app.isInitialized = w.app.isInitialized := by
  induction steps with
  | nil => intro w _; simp [EcoBalanceApp.runInitSteps]
  | cons step rest ih =>
    intro w h
    obtain ⟨hc, hb, hi, hok, -⟩ := initStep_effect env w step
    have hok2 := hok (h step (List.mem_cons_self step rest))
    cases hr : EcoBalanceApp.initStep env w step with
    | mk w1 r =>
      rw [hr] at hc hb hi hok2
      simp only at hok2 hc hb hi
      subst hok2
      obtain ⟨h1, h2, h3, h4⟩ := ih w1 (fun s hs => h s (List.mem_cons_of_mem step hs))
      rw [runInitSteps_cons_ok env w w1 step rest () hr]
      refine ⟨h1, ?_, h3.trans hb, h4.trans hi⟩
      rw [h2, hc]
      simp

/-- A `try` block of `init` stops at the first statement that throws: the calls made are
the ones before it and that one. -/
theorem runInitSteps_stops (env : AppEnv) (pre : List InitStep) (step : InitStep)
    (post : List InitStep) :
    ∀ w : AppState, (∀ s ∈ pre, initStepThrows env s = false) →
      initStepThrows env step = true →
      (∃ e, (EcoBalanceApp.runInitSteps env w (pre ++ step :: post)).2 = .error e) ∧
      (EcoBalanceApp.runInitSteps env w (pre ++ step :: post)).1.initCalls
        = w.initCalls ++ pre ++ [step] ∧
      (EcoBalanceApp.runInitSteps env w (pre ++ step :: post)).1.errorBanner
        = w.errorBanner ∧
      (EcoBalanceApp.runInitSteps env w (pre ++ step :: post)).1.app.isInitialized
        = w.app.isInitialized := by
  induction pre with
  | nil =>
    intro w _ hthrow
    obtain ⟨hc, hb, hi, -, herr⟩ := initStep_effect env w step
    obtain ⟨e, he⟩ := herr hthrow
    cases hr : EcoBalanceApp.initStep env w step with
    | mk w1 r =>
      rw [hr] at hc hb hi he
      simp only at he hc hb hi
      subst he
      rw [List.nil_append, runInitSteps_cons_error env w w1 step post e hr]
      exact ⟨⟨e, rfl⟩, by simpa using hc, hb, hi⟩
  | cons p ps ih =>
    intro w hpre hthrow
    obtain ⟨hc, hb, hi, hok, -⟩ := initStep_effect env w p
    have hok2 := hok (hpre p (List.mem_cons_self p ps))
    cases hr : EcoBalanceApp.initStep env w p with
    | mk w1 r =>
      rw [hr] at hc hb hi hok2
      simp only at hok2 hc hb hi
      subst hok2
      obtain ⟨h1, h2, h3, h4⟩ :=
        ih w1 (fun s hs => hpre s (List.mem_cons_of_mem p hs)) hthrow
      rw [List.cons_append, runInitSteps_cons_ok env w w1 p _ () hr]
      refine ⟨h1, ?_, h3.trans hb, h4.trans hi⟩
      rw [h2, hc]
      simp

/-- C20: if a step inside `init` throws, the error does not escape `init`, the banner is
shown through `showErrorMessage`, the calls made are those up to and including the failing
step and none of the steps after it, and `isInitialized` keeps its value (false on a new
application); if no step throws, every step is made, `isInitialized` becomes true and the
banner is left as it was.  The store load itself never throws. -/
theorem init_failure_handling (env : AppEnv) (w : AppState) :
    (EcoBalanceApp.init env w).2 = .ok () ∧
    (∀ (pre : List InitStep) (step : InitStep) (post : List InitStep),
      initSteps = pre ++ step :: post →
      (∀ s ∈ pre, initStepThrows env s = false) →
      initStepThrows env step = true →
      (EcoBalanceApp.init env w).1.errorBanner =
        some "Failed to load the application. Please refresh the page." ∧
      (EcoBalanceApp.init env w).1.initCalls = w.initCalls ++ pre ++ [step] ∧
      (∀ t ∈ post, t ∉ pre ++ [step]) ∧
      (EcoBalanceApp.init env w).1.app.isInitialized = w.app.isInitialized) ∧
    ((∀ s ∈ initSteps, initStepThrows env s = false) →
      (EcoBalanceApp.init env w).1.app.isInitialized = true ∧
      (EcoBalanceApp.init env w).1.errorBanner = w.errorBanner ∧
      (EcoBalanceApp.init env w).1.initCalls = w.initCalls ++ initSteps) ∧
    initStepThrows env InitStep.loadData = false := by
  refine ⟨?_, ?_, ?_, rfl⟩
  · simp only [EcoBalanceApp.init]
    cases EcoBalanceApp.runInitSteps env w initSteps with
    | mk w1 r => cases r <;> rfl
  · intro pre step post hsplit hpre hthrow
    obtain ⟨⟨e, he⟩, hc, hb, hi⟩ := runInitSteps_stops env pre step post w hpre hthrow
    have hnodup : (pre ++ step :: post).Nodup := by
      rw [← hsplit]; decide
    refine ⟨?_, ?_, ?_, ?_⟩
    · simp only [EcoBalanceApp.init, hsplit]
      cases hr : EcoBalanceApp.runInitSteps env w (pre ++ step :: post) with
      | mk w1 r =>
        rw [hr] at he
        simp only at he
        subst he
        rfl
    · simp only [EcoBalanceApp.init, hsplit]
      cases hr : EcoBalanceApp.runInitSteps env w (pre ++ step :: post) with
      | mk w1 r =>
        rw [hr] at he hc
        simp only at he
        subst he
        exact hc
    · intro t ht hmem
      rw [List.nodup_append] at hnodup
      obtain ⟨-, hn2, hdisj⟩ := hnodup
      rcases List.mem_append.mp hmem with hm | hm
      · exact hdisj hm (List.mem_cons_of_mem step ht)
      · rw [List.mem_singleton] at hm
        subst hm
        exact (List.nodup_cons.mp hn2).1 ht
    · simp only [EcoBalanceApp.init, hsplit]
      cases hr : EcoBalanceApp.runInitSteps env w (pre ++ step :: post) with
      | mk w1 r =>
        rw [hr] at he hi
        simp only at he
        subst he
        exact hi
  · intro hall
    obtain ⟨hok, hc, hb, -⟩ := runInitSteps_complete env initSteps w hall
    simp only [EcoBalanceApp.init]
    cases hr : EcoBalanceApp.runInitSteps env w initSteps with
    | mk w1 r =>
      rw [hr] at hok hc hb
      simp only at hok
      subst hok
      exact ⟨rfl, hb, hc⟩

/-- Witness for C20: on a new application, when the creation of the first chart throws, the
banner is shown, the calls stop at that step and `isInitialized` is false. -/
theorem init_failure_handling_witness :
    (EcoBalanceApp.init (envFailingAt InitStep.createEcoBalanceChart)
        (EcoBalanceApp.new sampleNavDom)).1.errorBanner =
      some "Failed to load the application. Please refresh the page." ∧
    (EcoBalanceApp.init (envFailingAt InitStep.createEcoBalanceChart)
        (EcoBalanceApp.new sampleNavDom)).1.initCalls =
      (EcoBalanceApp.new sampleNavDom).initCalls ++
        [InitStep.loadData, InitStep.createManagers, InitStep.navigationInitialize,
          InitStep.modalInitialize, InitStep.dashboardInitialize,
          InitStep.comparisonInitialize, InitStep.apiInitialize] ++
        [InitStep.createEcoBalanceChart] ∧
    (∀ t ∈ [InitStep.createEmissionsChart, InitStep.setupEventListeners,
        InitStep.updateMethodologyView],
      t ∉ [InitStep.loadData, InitStep.createManagers, InitStep.navigationInitialize,
          InitStep.modalInitialize, InitStep.dashboardInitialize,
          InitStep.comparisonInitialize, InitStep.apiInitialize] ++
        [InitStep.createEcoBalanceChart]) ∧
    (EcoBalanceApp.init (envFailingAt InitStep.createEcoBalanceChart)
        (EcoBalanceApp.new sampleNavDom)).1.app.isInitialized =
      (EcoBalanceApp.new sampleNavDom).app.isInitialized :=
  (init_failure_handling (envFailingAt InitStep.createEcoBalanceChart)
      (EcoBalanceApp.new sampleNavDom)).2.1
    [InitStep.loadData, InitStep.createManagers, InitStep.navigationInitialize,
      InitStep.modalInitialize, InitStep.dashboardInitialize,
      InitStep.comparisonInitialize, InitStep.apiInitialize]
    InitStep.createEcoBalanceChart
    [InitStep.createEmissionsChart, InitStep.setupEventListeners,
      InitStep.updateMethodologyView]
    rfl (by decide) (by decide)

/-- C24: `loadData` is idempotent: for every store and every fetch outcome, a second
`loadData` with the same outcome leaves the store, with `cityData`, `isLoaded`, `apiSources`
and so the value of every accessor, equal to the store after the first one, and resolves to
the same collection. -/
theorem loadData_idempotent (s : DataManager) (o : FetchOutcome) :
    ((s.loadData o).1.loadData o).1 = (s.loadData o).1 ∧
    ((s.loadData o).1.loadData o).2 = (s.loadData o).2 ∧
    ((s.loadData o).1.loadData o).1.getCities = (s.loadData o).1.getCities ∧
    (∀ id : JsVal, ((s.loadData o).1.loadData o).1.getCityById id
      = (s.loadData o).1.getCityById id) ∧
    ((s.loadData o).1.loadData o).1.getMethodology = (s.loadData o).1.getMethodology ∧
    ((s.loadData o).1.loadData o).1.getDataSources = (s.loadData o).1.getDataSources ∧
    ((s.loadData o).1.loadData o).1.getAPIIntegration = (s.loadData o).1.getAPIIntegration ∧
    ((s.loadData o).1.loadData o).1.isLoaded = (s.loadData o).1.isLoaded := by
  have hstore : ((s.loadData o).1.loadData o).1 = (s.loadData o).1 ∧
      ((s.loadData o).1.loadData o).2 = (s.loadData o).2 := by
    cases o with
    | rejected => exact ⟨rfl, rfl⟩
    | response ok status body =>
      cases ok with
      | false => exact ⟨rfl, rfl⟩
      | true =>
        cases body with
        | none => exact ⟨rfl, rfl⟩
        | some data =>
          cases hm : createCityDataWithAPISources data with
          | error e => simp [DataManager.loadData, DataManager.loadDataTry, hm]
          | ok cd => simp [DataManager.loadData, DataManager.loadDataTry, hm]
  refine ⟨hstore.1, hstore.2, ?_, ?_, ?_, ?_, ?_, ?_⟩
  · rw [hstore.1]
  · intro id; rw [hstore.1]
  · rw [hstore.1]
  · rw [hstore.1]
  · rw [hstore.1]
  · rw [hstore.1]

/-- C26: `determineWinner` is symmetric in its arguments: for every two city records the two
orders give the same announcement; when one score is strictly greater both name that city
with its score first, and when the scores are equal both give the tie message with that
score. -/
theorem determineWinner_symmetric (a b : City) :
    ComparisonManager.determineWinner a b = ComparisonManager.determineWinner b a ∧
    (a.eco_balance_score > b.eco_balance_score →
      ComparisonManager.determineWinner a b =
          .winner a.name a.eco_balance_score b.eco_balance_score ∧
        ComparisonManager.determineWinner b a =
          .winner a.name a.eco_balance_score b.eco_balance_score) ∧
    (a.eco_balance_score = b.eco_balance_score →
      ComparisonManager.determineWinner a b = .tie a.eco_balance_score ∧
        ComparisonManager.determineWinner b a = .tie a.eco_balance_score) := by
  refine ⟨?_, ?_, ?_⟩
  · unfold ComparisonManager.determineWinner
    by_cases h1 : a.eco_balance_score > b.eco_balance_score
    · have h2 : ¬ b.eco_balance_score > a.eco_balance_score := not_lt.mpr (le_of_lt h1)
      simp [h1, h2]
    · by_cases h2 : b.eco_balance_score > a.eco_balance_score
      · simp [h1, h2]
      · have heq : a.eco_balance_score = b.eco_balance_score :=
          le_antisymm (not_lt.mp h1) (not_lt.mp h2)
        simp [h1, h2, heq]
  · intro h1
    have h2 : ¬ b.eco_balance_score > a.eco_balance_score := not_lt.mpr (le_of_lt h1)
    simp [ComparisonManager.determineWinner, h1, h2]
  · intro heq
    simp [ComparisonManager.determineWinner, heq]

/-- Witness for C26: the other sample city (score 2) against the sample city (score 1), in
both orders. -/
theorem determineWinner_symmetric_witness :
    otherSampleCity.eco_balance_score > sampleCity.eco_balance_score ∧
    (ComparisonManager.determineWinner otherSampleCity sampleCity =
        .winner otherSampleCity.name otherSampleCity.eco_balance_score
          sampleCity.eco_balance_score ∧
      ComparisonManager.determineWinner sampleCity otherSampleCity =
        .winner otherSampleCity.name otherSampleCity.eco_balance_score
          sampleCity.eco_balance_score) :=
  ⟨by norm_num [otherSampleCity, sampleCity],
    (determineWinner_symmetric otherSampleCity sampleCity).2.1
      (by norm_num [otherSampleCity, sampleCity])⟩
/-- C27: for every non-neutral metric row exactly one side is marked 'better-value':
`createComparisonMetric` with a `betterType` other than 'neutral' marks city1 iff
`city1Better` is true and marks city2 otherwise; so each of the seven non-neutral rows of a
comparison marks exactly one side, and on equal values the second city is marked, as for the
per-capita emissions 5.8 of both Paris and Rome. -/
theorem metric_row_marks_exactly_one (label : String) (value1 value2 : MetricValue)
    (city1Better : Bool) (betterType : String) (hneutral : betterType ≠ "neutral") :
    ((ComparisonManager.createComparisonMetric label value1 value2 city1Better
        betterType).city1Class = "better-value" ↔ city1Better = true) ∧
    ((ComparisonManager.createComparisonMetric label value1 value2 city1Better
        betterType).city2Class = "better-value" ↔ city1Better = false) ∧
    ((ComparisonManager.createComparisonMetric label value1 value2 city1Better
        betterType).city1Class = "better-value" ↔
      (ComparisonManager.createComparisonMetric label value1 value2 city1Better
        betterType).city2Class ≠ "better-value") ∧
    (∀ (city1 city2 : City), ∀ rowLabel ∈ ["Total CO₂ (tons/year)", "Per Capita (tons)",
        "Tree Canopy (%)", "Green Space (%)", "Parks Area (km²)",
        "Carbon Sequestration (tons/year)", "SDG 13 Alignment"],
      (ComparisonManager.createComparisonContent city1 city2).city2Marked rowLabel =
        !(ComparisonManager.createComparisonContent city1 city2).city1Marked rowLabel) ∧
    perCapitaMarksOf fallbackStore "paris" "rome" = some (5.8, 5.8, false, true) := by
  refine ⟨?_, ?_, ?_, ?_, ?_⟩
  · cases city1Better <;> simp [ComparisonManager.createComparisonMetric, hneutral]
  · cases city1Better <;> simp [ComparisonManager.createComparisonMetric, hneutral]
  · cases city1Better <;> simp [ComparisonManager.createComparisonMetric, hneutral]
  · intro city1 city2 rowLabel hrow
    simp only [List.mem_cons, List.mem_singleton, List.not_mem_nil, or_false] at hrow
    rcases hrow with rfl | rfl | rfl | rfl | rfl | rfl | rfl
    · by_cases h : city1.emissions.total_co2_tons_per_year
          < city2.emissions.total_co2_tons_per_year <;>
        simp [ComparisonContent.city1Marked, ComparisonContent.city2Marked,
          ComparisonContent.findRow, ComparisonManager.createComparisonContent,
          ComparisonManager.createComparisonMetric, h]
    · by_cases h : city1.emissions.per_capita_tons < city2.emissions.per_capita_tons <;>
        simp [ComparisonContent.city1Marked, ComparisonContent.city2Marked,
          ComparisonContent.findRow, ComparisonManager.createComparisonContent,
          ComparisonManager.createComparisonMetric, h]
    · by_cases h : city2.vegetation.tree_canopy_percent
          < city1.vegetation.tree_canopy_percent <;>
        simp [ComparisonContent.city1Marked, ComparisonContent.city2Marked,
          ComparisonContent.findRow, ComparisonManager.createComparisonContent,
          ComparisonManager.createComparisonMetric, h]
    · by_cases h : city2.vegetation.green_space_percent
          < city1.vegetation.green_space_percent <;>
        simp [ComparisonContent.city1Marked, ComparisonContent.city2Marked,
          ComparisonContent.findRow, ComparisonManager.createComparisonContent,
          ComparisonManager.createComparisonMetric, h]
    · by_cases h : city2.vegetation.parks_area_km2 < city1.vegetation.parks_area_km2 <;>
        simp [ComparisonContent.city1Marked, ComparisonContent.city2Marked,
          ComparisonContent.findRow, ComparisonManager.createComparisonContent,
          ComparisonManager.createComparisonMetric, h]
    · by_cases h : city2.vegetation.carbon_sequestration_tons_per_year
          < city1.vegetation.carbon_sequestration_tons_per_year <;>
        simp [ComparisonContent.city1Marked, ComparisonContent.city2Marked,
          ComparisonContent.findRow, ComparisonManager.createComparisonContent,
          ComparisonManager.createComparisonMetric, h]
    · by_cases h : city2.sdg13_alignment < city1.sdg13_alignment <;>
        simp [ComparisonContent.city1Marked, ComparisonContent.city2Marked,
          ComparisonContent.findRow, ComparisonManager.createComparisonContent,
          ComparisonManager.createComparisonMetric, h]
  · simp [perCapitaMarksOf, fallbackStore, DataManager.loadData, DataManager.loadDataTry,
      DataManager.getCityById, getFallbackData, strictEqualsString,
      ComparisonContent.city1Marked, ComparisonContent.city2Marked,
      ComparisonContent.findRow, ComparisonManager.createComparisonContent,
      ComparisonManager.createComparisonMetric]

/-- Witness for C27: a row built with equal values, `city1Better` false and `betterType`
'lower' marks the second value and not the first. -/
theorem metric_row_marks_exactly_one_witness :
    ("lower" : String) ≠ "neutral" ∧
    ((ComparisonManager.createComparisonMetric "Per Capita (tons)" (.plain 5.8) (.plain 5.8)
        false "lower").city2Class = "better-value" ↔ false = false) :=
  ⟨by decide,
    (metric_row_marks_exactly_one "Per Capita (tons)" (.plain 5.8) (.plain 5.8) false "lower"
      (by decide)).2.1⟩

/-- C28: `calculateAndDisplayMetrics` raises a `TypeError` on an empty city list, so
`DashboardManager.initialize` and `update` fail when the store has not been loaded; on every
non-empty list the three of them complete. -/
theorem dashboard_raises_on_empty (self : DashboardManager) (page : DashboardPage) :
    (self.dataManager.getCities = [] →
      (self.calculateAndDisplayMetrics page.summary).2 =
          .error (.typeError "Reduce of empty array with no initial value") ∧
        ( DashboardManager.initialize self page).2 =
          .error (.typeError "Reduce of empty array with no initial value") ∧
        (self.update page).2 =
          .error (.typeError "Reduce of empty array with no initial value")) ∧
    (self.dataManager.getCities ≠ [] →
      (self.calculateAndDisplayMetrics page.summary).2 = .ok () ∧
        ( DashboardManager.initialize self page).2 = .ok () ∧
        (self.update page).2 = .ok ()) ∧
    DataManager.new.getCities = [] ∧
    ( DashboardManager.initialize (DashboardManager.mk DataManager.new) page).2 =
      .error (.typeError "Reduce of empty array with no initial value") ∧
    ((DashboardManager.mk DataManager.new).update page).2 =
      .error (.typeError "Reduce of empty array with no initial value") := by
  have hempty : ∀ m : DashboardManager, m.dataManager.getCities = [] →
      (m.calculateAndDisplayMetrics page.summary).2 =
          .error (.typeError "Reduce of empty array with no initial value") ∧
        ( DashboardManager.initialize m page).2 =
          .error (.typeError "Reduce of empty array with no initial value") ∧
        (m.update page).2 =
          .error (.typeError "Reduce of empty array with no initial value") := by
    intro m h
    have hcalc : (m.calculateAndDisplayMetrics page.summary).2 =
        .error (.typeError "Reduce of empty array with no initial value") := by
      simp [DashboardManager.calculateAndDisplayMetrics, h, reduceWithoutInitial]
    refine ⟨hcalc, ?_, ?_⟩
    · simp only [ DashboardManager.initialize, DashboardManager.metricsThenCards]
      cases hr : m.calculateAndDisplayMetrics page.summary with
      | mk d r =>
        rw [hr] at hcalc
        simp only at hcalc
        subst hcalc
        rfl
    · simp only [DashboardManager.update, DashboardManager.metricsThenCards]
      cases hr : m.calculateAndDisplayMetrics page.summary with
      | mk d r =>
        rw [hr] at hcalc
        simp only at hcalc
        subst hcalc
        rfl
  refine ⟨hempty self, ?_, rfl, (hempty (DashboardManager.mk DataManager.new) rfl).2.1,
    (hempty (DashboardManager.mk DataManager.new) rfl).2.2⟩
  intro hne
  cases hc : self.dataManager.getCities with
  | nil => exact absurd hc hne
  | cons x xs =>
    have hcalc : (self.calculateAndDisplayMetrics page.summary).2 = .ok () := by
      simp [DashboardManager.calculateAndDisplayMetrics, hc, reduceWithoutInitial]
    refine ⟨hcalc, ?_, ?_⟩
    · simp only [ DashboardManager.initialize, DashboardManager.metricsThenCards]
      cases hr : self.calculateAndDisplayMetrics page.summary with
      | mk d r =>
        rw [hr] at hcalc
        simp only at hcalc
        subst hcalc
        rfl
    · simp only [DashboardManager.update, DashboardManager.metricsThenCards]
      cases hr : self.calculateAndDisplayMetrics page.summary with
      | mk d r =>
        rw [hr] at hcalc
        simp only at hcalc
        subst hcalc
        rfl

/-- Witness for C28: on the fallback store, whose city list is not empty, the three calls
complete. -/
theorem dashboard_raises_on_empty_witness :
    (DashboardManager.mk fallbackStore).dataManager.getCities ≠ [] ∧
    (((DashboardManager.mk fallbackStore).calculateAndDisplayMetrics
        emptyDashboardPage.summary).2 = .ok () ∧
      ( DashboardManager.initialize (DashboardManager.mk fallbackStore)
        emptyDashboardPage).2 = .ok () ∧
      ((DashboardManager.mk fallbackStore).update emptyDashboardPage).2 = .ok ()) :=
  ⟨by simp [fallbackStore, DataManager.loadData, DataManager.loadDataTry,
      DataManager.getCities, getFallbackData],
    (dashboard_raises_on_empty (DashboardManager.mk fallbackStore) emptyDashboardPage).2.1
      (by simp [fallbackStore, DataManager.loadData, DataManager.loadDataTry,
        DataManager.getCities, getFallbackData])⟩

/-- C29: the duplicated score-band functions agree: for every score `getScoreClass` of
`helpers.js`, of `DashboardManager`, of `ComparisonManager` and of `ModalManager` return the
same class, `getScoreColor` of `helpers.js` and of `ChartManager` return the same colour, and
the colour is green iff the class is 'excellent', blue iff 'good', yellow iff 'fair' and red
iff 'poor'. -/
theorem score_band_copies_agree (score : Rat) :
    DashboardManager.getScoreClass score = getScoreClass score ∧
    ComparisonManager.getScoreClass score = getScoreClass score ∧
    ModalManager.getScoreClass score = getScoreClass score ∧
    ChartManager.getScoreColor score = getScoreColor score ∧
    (getScoreColor score = "rgba(34, 197, 94, 0.8)" ↔ getScoreClass score = "excellent") ∧
    (getScoreColor score = "rgba(59, 130, 246, 0.8)" ↔ getScoreClass score = "good") ∧
    (getScoreColor score = "rgba(245, 158, 11, 0.8)" ↔ getScoreClass score = "fair") ∧
    (getScoreColor score = "rgba(239, 68, 68, 0.8)" ↔ getScoreClass score = "poor") := by
  refine ⟨rfl, rfl, rfl, rfl, ?_, ?_, ?_, ?_⟩ <;>
    (unfold getScoreColor getScoreClass; split_ifs <;> simp)

/-- The first element that passes the test is the one that `updateFirst` changes. -/
theorem updateFirst_append {α : Type} (p : α → Bool) (f : α → α) (pre : List α) (x : α)
    (post : List α) (hpre : ∀ y ∈ pre, p y = false) (hx : p x = true) :
    updateFirst p f (pre ++ x :: post) = pre ++ f x :: post := by
  induction pre with
  | nil => simp [updateFirst, hx]
  | cons y ys ih =>
    have hy : p y = false := hpre y (List.mem_cons_self y ys)
    simp [updateFirst, hy, ih (fun z hz => hpre z (List.mem_cons_of_mem y hz))]

/-- Hiding leaves no view active or displayed. -/
theorem hideView_filters (l : List ViewElement) :
    (l.map hideView).filter (fun el => el.hasViewClass && el.active) = [] ∧
    (l.map hideView).filter (fun el => el.hasViewClass && el.display != "none") = [] := by
  induction l with
  | nil => exact ⟨rfl, rfl⟩
  | cons x xs ih =>
    constructor
    · simp only [List.map_cons, List.filter_cons, ih.1]
      by_cases hx : x.hasViewClass <;> simp [hideView, hx]
    · simp only [List.map_cons, List.filter_cons, ih.2]
      by_cases hx : x.hasViewClass <;> simp [hideView, hx]

/-- C25, as stated, fails: on the sample document, after `initialize`, a `showView` with the
name 'settings', for which there is no 'settings-view' element, leaves no view active and
no view displayed, while `getCurrentView()` still names 'dashboard'. -/
theorem showView_unknown_hides_all :
    ((( NavigationManager.initialize NavigationManager.new sampleNavDom).1.showView
        ( NavigationManager.initialize NavigationManager.new sampleNavDom).2
        "settings").2.activeViews = [] ∧
      (( NavigationManager.initialize NavigationManager.new sampleNavDom).1.showView
        ( NavigationManager.initialize NavigationManager.new sampleNavDom).2
        "settings").2.displayedViews = []) ∧
    (( NavigationManager.initialize NavigationManager.new sampleNavDom).1.showView
        ( NavigationManager.initialize NavigationManager.new sampleNavDom).2
        "settings").1.getCurrentView = "dashboard" := by
  decide

/-- C25, amended: on a navigation manager that has been initialized, after `showView(name)`
for a name whose element `name-view` exists and is a view, exactly one view is active, that
same view is the only one displayed, it is the element `name-view` with `display` 'block',
and `getCurrentView()` is `name`. -/
theorem showView_one_active_view (self : NavigationManager) (dom : NavDom) (name : String)
    (pre : List ViewElement) (el : ViewElement) (post : List ViewElement)
    (hbound : self.bound = true)
    (hsplit : dom.elements = pre ++ el :: post)
    (hid : el.id = name ++ "-view") (hview : el.hasViewClass = true)
    (hfirst : ∀ x ∈ pre, x.id ≠ name ++ "-view") :
    (self.showView dom name).2.activeViews =
      [{ el with active := true, display := "block" }] ∧
    (self.showView dom name).2.displayedViews =
      [{ el with active := true, display := "block" }] ∧
    (self.showView dom name).2.elements =
      pre.map hideView ++ { el with active := true, display := "block" } :: post.map hideView ∧
    (self.showView dom name).1.getCurrentView = name := by
  have hhide : (fun view : ViewElement =>
      if view.hasViewClass then { view with active := false, display := "none" } else view)
      = hideView := rfl
  have hidpre : ∀ y ∈ pre.map hideView, (y.id == name ++ "-view") = false := by
    intro y hy
    obtain ⟨x, hx, rfl⟩ := List.mem_map.mp hy
    have hne := hfirst x hx
    by_cases hv : x.hasViewClass <;> simp [hideView, hv, hne]
  have hidel : ((hideView el).id == name ++ "-view") = true := by
    simp [hideView, hview, hid]
  have hany : ((dom.elements.map hideView).any (fun e => e.id == name ++ "-view")) = true := by
    rw [hsplit, List.map_append, List.map_cons, List.any_append, List.any_cons, hidel]
    simp
  have hupd : updateFirst (fun e : ViewElement => e.id == name ++ "-view")
      (fun e => { e with active := true, display := "block" })
      (dom.elements.map hideView) =
      pre.map hideView ++ { el with active := true, display := "block" } :: post.map hideView := by
    rw [hsplit, List.map_append, List.map_cons,
      updateFirst_append _ _ _ _ _ hidpre hidel]
    simp [hideView, hview]
  have helems : (self.showView dom name).2.elements =
      pre.map hideView ++ { el with active := true, display := "block" } :: post.map hideView := by
    simp only [NavigationManager.showView, hbound, if_true, hhide, hany, hupd]
  have hcur : (self.showView dom name).1.getCurrentView = name := by
    simp only [NavigationManager.showView, hbound, if_true, hhide, hany,
      NavigationManager.getCurrentView]
  refine ⟨?_, ?_, helems, hcur⟩
  · simp only [NavDom.activeViews, helems, List.filter_append, List.filter_cons,
      (hideView_filters pre).1, (hideView_filters post).1]
    simp [hview]
  · simp only [NavDom.displayedViews, helems, List.filter_append, List.filter_cons,
      (hideView_filters pre).2, (hideView_filters post).2]
    simp [hview]

/-- Witness for C25: on the sample document, after `initialize`, `showView('comparison')`
leaves the comparison view as the one active view. -/
theorem showView_one_active_view_witness :
    (( NavigationManager.initialize NavigationManager.new sampleNavDom).1.showView
        ( NavigationManager.initialize NavigationManager.new sampleNavDom).2
        "comparison").2.activeViews =
      [{ id := "comparison-view", hasViewClass := true, active := true, display := "block" }] ∧
    (( NavigationManager.initialize NavigationManager.new sampleNavDom).1.showView
        ( NavigationManager.initialize NavigationManager.new sampleNavDom).2
        "comparison").1.getCurrentView = "comparison" :=
  ⟨(showView_one_active_view
      ( NavigationManager.initialize NavigationManager.new sampleNavDom).1
      ( NavigationManager.initialize NavigationManager.new sampleNavDom).2 "comparison"
      [{ id := "dashboard-view", hasViewClass := true, active := true, display := "block" }]
      { id := "comparison-view", hasViewClass := true, active := false, display := "none" }
      [{ id := "data-sources-view", hasViewClass := true, active := false, display := "none" },
        { id := "methodology-view", hasViewClass := true, active := false, display := "none" }]
      rfl rfl rfl rfl (by decide)).1,
    (showView_one_active_view
      ( NavigationManager.initialize NavigationManager.new sampleNavDom).1
      ( NavigationManager.initialize NavigationManager.new sampleNavDom).2 "comparison"
      [{ id := "dashboard-view", hasViewClass := true, active := true, display := "block" }]
      { id := "comparison-view", hasViewClass := true, active := false, display := "none" }
      [{ id := "data-sources-view", hasViewClass := true, active := false, display := "none" },
        { id := "methodology-view", hasViewClass := true, active := false, display := "none" }]
      rfl rfl rfl rfl (by decide)).2.2.2⟩

/-- With the three managers created and no module call throwing, a statement of
`refreshData` completes, records its call and keeps the managers. -/
theorem refreshStep_complete (env : AppEnv) (w : AppState) (step : RefreshStep)
    (hd : w.app.hasDashboardManager = true) (hc : w.app.hasComparisonManager = true)
    (ha : w.app.hasApiManager = true) (hquiet : ∀ s, env.refreshThrows s = false) :
    (EcoBalanceApp.refreshStep env w step).2 = .ok () ∧
    (EcoBalanceApp.refreshStep env w step).1.refreshCalls = w.refreshCalls ++ [step] ∧
    (EcoBalanceApp.refreshStep env w step).1.app.hasDashboardManager = true ∧
    (EcoBalanceApp.refreshStep env w step).1.app.hasComparisonManager = true ∧
    (EcoBalanceApp.refreshStep env w step).1.app.hasApiManager = true := by
  cases step
  case loadData =>
    obtain ⟨cd, hret, -, -, -⟩ := loadData_result w.app.dataManager env.fetch
    refine ⟨?_, rfl, hd, hc, ha⟩
    simp [EcoBalanceApp.refreshStep, hret, awaitLoad]
  all_goals simp [EcoBalanceApp.refreshStep, hd, hc, ha, hquiet]

/-- With the three managers created and no module call throwing, the `try` block of
`refreshData` makes every call, in order. -/
theorem runRefreshSteps_complete (env : AppEnv) (steps : List RefreshStep)
    (hquiet : ∀ s, env.refreshThrows s = false) :
    ∀ w : AppState, w.app.hasDashboardManager = true → w.app.hasComparisonManager = true →
      w.app.hasApiManager = true →
      (EcoBalanceApp.runRefreshSteps env w steps).2 = .ok () ∧
      (EcoBalanceApp.runRefreshSteps env w steps).1.refreshCalls = w.refreshCalls ++ steps := by
  induction steps with
  | nil => intro w _ _ _; simp [EcoBalanceApp.runRefreshSteps]
  | cons step rest ih =>
    intro w hd hc ha
    obtain ⟨hok, hcalls, hd1, hc1, ha1⟩ := refreshStep_complete env w step hd hc ha hquiet
    cases hr : EcoBalanceApp.refreshStep env w step with
    | mk w1 r =>
      rw [hr] at hok hcalls hd1 hc1 ha1
      simp only at hok hcalls hd1 hc1 ha1
      subst hok
      obtain ⟨h1, h2⟩ := ih w1 hd1 hc1 ha1
      simp only [EcoBalanceApp.runRefreshSteps, hr]
      refine ⟨h1, ?_⟩
      rw [h2, hcalls]
      simp

/-- C22, as stated, fails: `init` reaches the data-dependent modules in the order
dashboard, comparison, API catalog, charts, while `refreshData` reaches them in the order
dashboard, charts, comparison, API catalog; the comparison module comes before the charts in
`init` and after them in `refreshData`.  The orders are those of the calls made on the
sample application. -/
theorem refresh_order_differs_from_init :
    initModuleOrder = [.dashboard, .comparison, .apiCatalog, .charts] ∧
    refreshModuleOrder = [.dashboard, .charts, .comparison, .apiCatalog] ∧
    comesBefore initModuleOrder .comparison .charts = true ∧
    comesBefore refreshModuleOrder .comparison .charts = false ∧
    (initializedSampleApp.initCalls.filterMap InitStep.target).eraseDups =
      [.dashboard, .comparison, .apiCatalog, .charts] ∧
    (EcoBalanceApp.refreshData quietEnv initializedSampleApp).1.refreshCalls.filterMap
        RefreshStep.target =
      [.dashboard, .charts, .comparison, .apiCatalog] := by
  decide

/-- C22, amended: on refresh, with the managers created and no call throwing, `refreshData`
first reloads the data store and then updates the data-dependent modules in the order
dashboard, charts, comparison, API catalog; `init` initializes them in the order dashboard,
comparison, API catalog, charts, so the two orders agree on dashboard, comparison and API
catalog, and only the charts take another place. -/
theorem refresh_order (env : AppEnv) (w : AppState)
    (hd : w.app.hasDashboardManager = true) (hc : w.app.hasComparisonManager = true)
    (ha : w.app.hasApiManager = true) (hquiet : ∀ s, env.refreshThrows s = false) :
    (EcoBalanceApp.refreshData env w).1.refreshCalls =
      w.refreshCalls ++
        [RefreshStep.loadData, RefreshStep.dashboardUpdate, RefreshStep.updateCharts,
          RefreshStep.populateCitySelects, RefreshStep.populateDataSources] ∧
    refreshModuleOrder = [.dashboard, .charts, .comparison, .apiCatalog] ∧
    initModuleOrder = [.dashboard, .comparison, .apiCatalog, .charts] ∧
    refreshModuleOrder.filter (fun m => m != AppModule.charts) =
      initModuleOrder.filter (fun m => m != AppModule.charts) ∧
    (∀ a b : AppModule, a ≠ AppModule.charts → b ≠ AppModule.charts →
      comesBefore refreshModuleOrder a b = comesBefore initModuleOrder a b) := by
  obtain ⟨hok, hcalls⟩ := runRefreshSteps_complete env refreshSteps hquiet w hd hc ha
  refine ⟨?_, by decide, by decide, by decide, ?_⟩
  · simp only [EcoBalanceApp.refreshData]
    cases hr : EcoBalanceApp.runRefreshSteps env w refreshSteps with
    | mk w1 r =>
      rw [hr] at hok hcalls
      simp only at hok hcalls
      subst hok
      exact hcalls
  · intro a b hna hnb
    cases a <;> cases b <;> first | rfl | exact absurd rfl hna | exact absurd rfl hnb

/-- Witness for C22: the refresh of the initialized sample application makes the five calls
in source order. -/
theorem refresh_order_witness :
    (EcoBalanceApp.refreshData quietEnv initializedSampleApp).1.refreshCalls =
      initializedSampleApp.refreshCalls ++
        [RefreshStep.loadData, RefreshStep.dashboardUpdate, RefreshStep.updateCharts,
          RefreshStep.populateCitySelects, RefreshStep.populateDataSources] :=
  (refresh_order quietEnv initializedSampleApp (by decide) (by decide) (by decide)
    (fun _ => rfl)).1

/-- `ComparisonManager.initialize` and `ModalManager.initialize` never throw. -/
theorem module_initialize_never_throws (cm : ComparisonManager) (cdom : ComparisonDom)
    (mm : ModalManager) (mdom : ModalDom) :
    ( ComparisonManager.initialize cm cdom).outcome = .ok () ∧
    ( ModalManager.initialize mm mdom).outcome = .ok () := by
  constructor
  · unfold ComparisonManager.initialize
    simp only
    split <;> rfl
  · unfold ModalManager.initialize
    simp only
    split <;> rfl

/-- C21, as stated, fails: on a document without the comparison elements, the modal elements
and the fetch button, the three `initialize` calls return without throwing (two of them log
a console warning) and `init` on a new application completes with no banner shown and
`isInitialized` true. -/
theorem missing_surface_shows_no_banner :
    ( ComparisonManager.initialize (ComparisonManager.new fallbackStore)
        noComparisonDom).outcome = .ok () ∧
    ( ComparisonManager.initialize (ComparisonManager.new fallbackStore)
        noComparisonDom).warnings = ["Comparison elements not found"] ∧
    ( ModalManager.initialize ModalManager.new noModalDom).outcome = .ok () ∧
    ( ModalManager.initialize ModalManager.new noModalDom).warnings =
      ["Modal elements not found"] ∧
    ( APIManager.initialize (APIManager.new fallbackStore) noApiDom).1.outcome = .ok () ∧
    (EcoBalanceApp.init
        (moduleEnv FetchOutcome.rejected noComparisonDom noModalDom noApiDom (fun _ => false))
        (EcoBalanceApp.new sampleNavDom)).1.errorBanner = none ∧
    (EcoBalanceApp.init
        (moduleEnv FetchOutcome.rejected noComparisonDom noModalDom noApiDom (fun _ => false))
        (EcoBalanceApp.new sampleNavDom)).1.app.isInitialized = true :=
  ⟨rfl, rfl, rfl, rfl, rfl, by decide, by decide⟩

/-- C21, amended: when a module fails to find its expected display surface during
`initialize`, nothing is raised: `ComparisonManager.initialize` and
`ModalManager.initialize` log a console warning, register no listener and return,
`APIManager.initialize` returns silently without its fetch button; `init` goes on with the
following steps and, when no other step throws, shows no banner and sets `isInitialized`. -/
theorem missing_surface_is_not_an_error (store : DataManager) (cdom : ComparisonDom)
    (mdom : ModalDom) (adom : ApiDom) :
    ((cdom.city1Select = none ∨ cdom.city2Select = none ∨ cdom.comparisonResult = none) →
      ( ComparisonManager.initialize (ComparisonManager.new store) cdom).outcome = .ok () ∧
      ( ComparisonManager.initialize (ComparisonManager.new store) cdom).warnings =
        ["Comparison elements not found"] ∧
      ( ComparisonManager.initialize (ComparisonManager.new store) cdom).listening = false) ∧
    ((mdom.modal = none ∨ mdom.modalContent = none ∨ mdom.closeBtn = none) →
      ( ModalManager.initialize ModalManager.new mdom).outcome = .ok () ∧
      ( ModalManager.initialize ModalManager.new mdom).warnings =
        ["Modal elements not found"] ∧
      ( ModalManager.initialize ModalManager.new mdom).listening = false) ∧
    (adom.fetchDataBtn = none →
      ( APIManager.initialize (APIManager.new store) adom).1.outcome = .ok () ∧
      ( APIManager.initialize (APIManager.new store) adom).1.warnings = [] ∧
      ( APIManager.initialize (APIManager.new store) adom).1.listening = false ∧
      ( APIManager.initialize (APIManager.new store) adom).2 = adom.dataSourcesList) ∧
    (∀ (fetch : FetchOutcome) (nav : NavDom) (others : InitStep → Bool),
      adom.fetchDataBtn = none → (∀ s, others s = false) →
      (EcoBalanceApp.init (moduleEnv fetch cdom mdom adom others)
          (EcoBalanceApp.new nav)).1.errorBanner = none ∧
      (EcoBalanceApp.init (moduleEnv fetch cdom mdom adom others)
          (EcoBalanceApp.new nav)).1.app.isInitialized = true) := by
  refine ⟨?_, ?_, ?_, ?_⟩
  · intro h
    have hcond : (cdom.city1Select.isNone || cdom.city2Select.isNone ||
        cdom.comparisonResult.isNone) = true := by
      rcases h with h | h | h <;> simp [h]
    simp [ ComparisonManager.initialize, hcond]
  · intro h
    have hcond : (mdom.modal.isNone || mdom.modalContent.isNone || mdom.closeBtn.isNone)
        = true := by
      rcases h with h | h | h <;> simp [h]
    simp [ ModalManager.initialize, hcond]
  · intro h
    simp [ APIManager.initialize, h]
  · intro fetch nav others hbtn hothers
    have hall : ∀ s ∈ initSteps,
        initStepThrows (moduleEnv fetch cdom mdom adom others) s = false := by
      intro s _
      cases s
      case comparisonInitialize =>
        simp [initStepThrows, moduleEnv, threw,
          (module_initialize_never_throws _ cdom ModalManager.new mdom).1]
      case modalInitialize =>
        simp [initStepThrows, moduleEnv, threw,
          (module_initialize_never_throws (ComparisonManager.new store) cdom _ mdom).2]
      case apiInitialize =>
        simp [initStepThrows, moduleEnv, threw, APIManager.initialize, hbtn]
      all_goals simp [initStepThrows, moduleEnv, hothers]
    obtain ⟨hok, -, hb, -⟩ := runInitSteps_complete
      (moduleEnv fetch cdom mdom adom others) initSteps (EcoBalanceApp.new nav) hall
    simp only [EcoBalanceApp.init]
    cases hr : EcoBalanceApp.runInitSteps (moduleEnv fetch cdom mdom adom others)
        (EcoBalanceApp.new nav) initSteps with
    | mk w1 r =>
      rw [hr] at hok hb
      simp only at hok hb
      subst hok
      exact ⟨hb, rfl⟩

/-- Witness for C21: a document that has the selects but no result element. -/
theorem missing_surface_is_not_an_error_witness :
    ( ComparisonManager.initialize (ComparisonManager.new fallbackStore)
        { city1Select := some { value := "" }, city2Select := some { value := "" },
          comparisonResult := none }).outcome = .ok () ∧
    ( ComparisonManager.initialize (ComparisonManager.new fallbackStore)
        { city1Select := some { value := "" }, city2Select := some { value := "" },
          comparisonResult := none }).warnings = ["Comparison elements not found"] ∧
    ( ComparisonManager.initialize (ComparisonManager.new fallbackStore)
        { city1Select := some { value := "" }, city2Select := some { value := "" },
          comparisonResult := none }).listening = false :=
  (missing_surface_is_not_an_error fallbackStore
    { city1Select := some { value := "" }, city2Select := some { value := "" },
      comparisonResult := none } noModalDom noApiDom).1 (Or.inr (Or.inr rfl))

/-- On a list of entries none of which is `null` or `undefined`, the search by name returns
the first entry that carries the name. -/
theorem arrayFind_nameIs_readable (n : String) (xs : List JsVal)
    (h : ∀ e ∈ xs, entryReadable e = true) :
    arrayFind (nameIs n) xs = .ok (entryFor xs n) := by
  induction xs with
  | nil => rfl
  | cons x xs ih =>
    have hx := nameIs_readable n x (h x (List.mem_cons_self x xs))
    have ih2 := ih (fun e he => h e (List.mem_cons_of_mem x he))
    by_cases hn : entryHasName x n = true
    · rw [hn] at hx
      simp [arrayFind, hx, entryFor, List.find?, hn]
    · have hn2 : entryHasName x n = false := by simpa using hn
      rw [hn2] at hx
      simp only [arrayFind, hx, ih2]
      simp [entryFor, List.find?, hn2]

/-- A `map` whose callback returns on every element returns the list of the results. -/
theorem mapThrowing_of_forall {α β : Type} (f : α → Except JsError β) (g : α → β)
    (l : List α) (h : ∀ x ∈ l, f x = .ok (g x)) : mapThrowing f l = .ok (l.map g) := by
  induction l with
  | nil => rfl
  | cons x xs ih =>
    simp [mapThrowing, h x (List.mem_cons_self x xs),
      ih (fun y hy => h y (List.mem_cons_of_mem x hy))]

/-- A `map` whose callback does not throw on any element does not throw, and returns as
many results as there are elements. -/
theorem mapThrowing_of_no_throw {α β : Type} (f : α → Except JsError β) (l : List α)
    (h : ∀ x ∈ l, ∃ y, f x = .ok y) :
    ∃ ys, mapThrowing f l = .ok ys ∧ ys.length = l.length := by
  induction l with
  | nil => exact ⟨[], rfl, rfl⟩
  | cons x xs ih =>
    obtain ⟨y, hy⟩ := h x (List.mem_cons_self x xs)
    obtain ⟨ys, hys, hlen⟩ := ih (fun z hz => h z (List.mem_cons_of_mem x hz))
    exact ⟨y :: ys, by simp [mapThrowing, hy, hys], by simp [hlen]⟩

/-- Without a `cities` list to search, every city is mapped to a response without
attribution and the result is empty. -/
theorem generateAPIResponses_of_no_entries (cities : List City) (payload : JsVal)
    (h : ∀ name, lookupCityApiData payload name = .ok JsVal.undefined) :
    APIManager.generateAPIResponses cities payload = .ok [] := by
  have hmap : mapThrowing (apiResponseFor payload) cities =
      .ok (cities.map (fun city => apiResponseOf city JsVal.undefined)) :=
    mapThrowing_of_forall _ _ _ (fun city _ => by simp [apiResponseFor, h])
  simp only [APIManager.generateAPIResponses, hmap]
  simp [List.filter_eq_nil_iff, apiResponseOf, optionalProp, truthy]

/-- Where `findCityDataSources` returns, the search of `generateAPIResponses` for the same
name returns as well. -/
theorem lookupCityApiData_of_find (d : JsVal) (n : String) (r : JsVal)
    (h : findCityDataSources d n = .ok r) : ∃ v, lookupCityApiData d n = .ok v := by
  cases hg : getProp d "cities" with
  | error e =>
    unfold findCityDataSources at h
    rw [hg] at h
    cases h
  | ok c =>
    cases d with
    | undefined => exact ⟨_, rfl⟩
    | null => exact ⟨_, rfl⟩
    | _ =>
      all_goals
        cases c with
        | undefined => exact ⟨JsVal.undefined, by simp [lookupCityApiData, hg]⟩
        | null => exact ⟨JsVal.undefined, by simp [lookupCityApiData, hg]⟩
        | arr xs =>
          cases hf : arrayFind (nameIs n) xs with
          | ok v => exact ⟨v, by simp [lookupCityApiData, hg, hf]⟩
          | error e =>
            exfalso
            unfold findCityDataSources at h
            rw [hg] at h
            have h2 : (arrayFind (nameIs n) xs >>= fun city =>
                if truthy city then
                  getProp city "green_space_data" >>= fun g =>
                  getProp city "emissions_data" >>= fun e =>
                  pure (JsVal.obj [("green_space", g), ("emissions", e)])
                else pure JsVal.null) = Except.ok r := h
            rw [hf] at h2
            cases h2
        | _ =>
          exfalso
          unfold findCityDataSources at h
          rw [hg] at h
          cases h

/-- Where the merge returns, each of the nine attribution lookups has returned. -/
theorem createCityData_lookups (apiData : JsVal) (cd : CityData)
    (h : createCityDataWithAPISources apiData = .ok cd) :
    ∀ n ∈ ["Singapore", "New York City", "London", "Paris", "Barcelona", "Berlin", "Madrid",
        "Amsterdam", "Rome"], ∃ r, findCityDataSources apiData n = .ok r := by
  unfold createCityDataWithAPISources at h
  cases h1 : findCityDataSources apiData "Singapore" with
  | error e => simp [h1, bind, Except.bind] at h
  | ok d1 =>
  cases h2 : findCityDataSources apiData "New York City" with
  | error e => simp [h1, h2, bind, Except.bind] at h
  | ok d2 =>
  cases h3 : findCityDataSources apiData "London" with
  | error e => simp [h1, h2, h3, bind, Except.bind] at h
  | ok d3 =>
  cases h4 : findCityDataSources apiData "Paris" with
  | error e => simp [h1, h2, h3, h4, bind, Except.bind] at h
  | ok d4 =>
  cases h5 : findCityDataSources apiData "Barcelona" with
  | error e => simp [h1, h2, h3, h4, h5, bind, Except.bind] at h
  | ok d5 =>
  cases h6 : findCityDataSources apiData "Berlin" with
  | error e => simp [h1, h2, h3, h4, h5, h6, bind, Except.bind] at h
  | ok d6 =>
  cases h7 : findCityDataSources apiData "Madrid" with
  | error e => simp [h1, h2, h3, h4, h5, h6, h7, bind, Except.bind] at h
  | ok d7 =>
  cases h8 : findCityDataSources apiData "Amsterdam" with
  | error e => simp [h1, h2, h3, h4, h5, h6, h7, h8, bind, Except.bind] at h
  | ok d8 =>
  cases h9 : findCityDataSources apiData "Rome" with
  | error e => simp [h1, h2, h3, h4, h5, h6, h7, h8, h9, bind, Except.bind] at h
  | ok d9 =>
  intro n hn
  simp only [List.mem_cons, List.mem_singleton, List.not_mem_nil, or_false] at hn
  rcases hn with rfl | rfl | rfl | rfl | rfl | rfl | rfl | rfl | rfl
  · exact ⟨d1, h1⟩
  · exact ⟨d2, h2⟩
  · exact ⟨d3, h3⟩
  · exact ⟨d4, h4⟩
  · exact ⟨d5, h5⟩
  · exact ⟨d6, h6⟩
  · exact ⟨d7, h7⟩
  · exact ⟨d8, h8⟩
  · exact ⟨d9, h9⟩

/-- Names of a merged catalog, in order. -/
theorem createCityData_names (apiData : JsVal) (cd : CityData)
    (h : createCityDataWithAPISources apiData = .ok cd) :
    cd.cities.map City.name =
      ["Singapore", "New York City", "London", "Paris", "Barcelona", "Berlin", "Madrid",
        "Amsterdam", "Rome"] := by
  obtain ⟨d1, d2, d3, d4, d5, d6, d7, d8, d9, hc, -, -, -⟩ := createCityData_shape apiData cd h
  rw [hc]
  rfl

/-- What the name test throws is a `TypeError`. -/
theorem nameIs_error_typeError (n : String) (e : JsVal) (err : JsError)
    (h : nameIs n e = .error err) : ∃ msg, err = .typeError msg := by
  cases e with
  | undefined =>
    simp only [nameIs, getProp, bind, Except.bind] at h
    exact ⟨_, (Except.error.inj h).symm⟩
  | null =>
    simp only [nameIs, getProp, bind, Except.bind] at h
    exact ⟨_, (Except.error.inj h).symm⟩
  | _ => simp [nameIs, getProp, bind, Except.bind, pure, Except.pure] at h

/-- What the search by name throws is a `TypeError`. -/
theorem arrayFind_nameIs_error (n : String) (xs : List JsVal) (err : JsError)
    (h : arrayFind (nameIs n) xs = .error err) : ∃ msg, err = .typeError msg := by
  induction xs with
  | nil => simp [arrayFind] at h
  | cons x xs ih =>
    unfold arrayFind at h
    cases hx : nameIs n x with
    | error e =>
      rw [hx] at h
      simp only at h
      rw [← Except.error.inj h]
      exact nameIs_error_typeError n x e hx
    | ok b =>
      rw [hx] at h
      cases b with
      | true => simp at h
      | false => exact ih h

/-- What the lookup of `generateAPIResponses` throws is a `TypeError`. -/
theorem lookupCityApiData_error (payload : JsVal) (name : String) (err : JsError)
    (h : lookupCityApiData payload name = .error err) : ∃ msg, err = .typeError msg := by
  cases payload with
  | undefined => simp [lookupCityApiData] at h
  | null => simp [lookupCityApiData] at h
  | obj p =>
    simp only [lookupCityApiData, getProp] at h
    cases hv : (p.lookup "cities").getD JsVal.undefined with
    | arr xs =>
      rw [hv] at h
      exact arrayFind_nameIs_error name xs err h
    | undefined => rw [hv] at h; simp at h
    | null => rw [hv] at h; simp at h
    | _ =>
      rw [hv] at h
      exact ⟨_, (Except.error.inj h).symm⟩
  | _ => simp [lookupCityApiData, getProp] at h

/-- A `map` throws when its callback throws on one of the elements, and it throws what the
callback throws on the first such element, so an error of the kind that all errors of the
callback have. -/
theorem mapThrowing_of_throw {α β : Type} (f : α → Except JsError β) (P : JsError → Prop)
    (hP : ∀ x err, f x = .error err → P err) (l : List α)
    (h : ∃ x ∈ l, ∃ err, f x = .error err) :
    ∃ err, mapThrowing f l = .error err ∧ P err := by
  induction l with
  | nil =>
    obtain ⟨x, hx, -⟩ := h
    simp at hx
  | cons y ys ih =>
    cases hy : f y with
    | error e => exact ⟨e, by simp [mapThrowing, hy], hP y e hy⟩
    | ok v =>
      obtain ⟨x, hx, err, herr⟩ := h
      have hx2 : x ∈ ys := by
        rcases List.mem_cons.mp hx with rfl | hx2
        · rw [hy] at herr
          simp at herr
        · exact hx2
      obtain ⟨e, he, hPe⟩ := ih ⟨x, hx2, err, herr⟩
      exact ⟨e, by simp [mapThrowing, hy, he], hPe⟩

/-- The search by name throws when the list has a `null` or `undefined` entry that no entry
with the name precedes. -/
theorem arrayFind_nameIs_unreadable (n : String) (pre : List JsVal) (e : JsVal)
    (post : List JsVal) (hpre : ∀ x ∈ pre, entryHasName x n = false)
    (he : entryReadable e = false) :
    ∃ err, arrayFind (nameIs n) (pre ++ e :: post) = .error err := by
  induction pre with
  | nil =>
    obtain ⟨err, herr⟩ := nameIs_unreadable n e he
    exact ⟨err, by simp [arrayFind, herr]⟩
  | cons x xs ih =>
    cases hx : entryReadable x with
    | false =>
      obtain ⟨err, herr⟩ := nameIs_unreadable n x hx
      exact ⟨err, by simp [arrayFind, herr]⟩
    | true =>
      obtain ⟨err, herr⟩ := ih (fun y hy => hpre y (List.mem_cons_of_mem x hy))
      refine ⟨err, ?_⟩
      simp only [List.cons_append, arrayFind, nameIs_readable n x hx,
        hpre x (List.mem_cons_self x xs)]
      exact herr

/-- The call `generateAPIResponses` throws a `TypeError` when the lookup throws for one of
the cities. -/
theorem generateAPIResponses_of_throw (cities : List City) (payload : JsVal)
    (h : ∃ city ∈ cities, ∃ err, lookupCityApiData payload city.name = .error err) :
    ∃ msg, APIManager.generateAPIResponses cities payload = .error (.typeError msg) := by
  have hP : ∀ (city : City) (err : JsError), apiResponseFor payload city = .error err →
      ∃ msg, err = .typeError msg := by
    intro city err herr
    unfold apiResponseFor at herr
    cases hl : lookupCityApiData payload city.name with
    | error e =>
      rw [hl] at herr
      rw [← Except.error.inj herr]
      exact lookupCityApiData_error payload city.name e hl
    | ok v =>
      rw [hl] at herr
      simp at herr
  have hex : ∃ city ∈ cities, ∃ err, apiResponseFor payload city = .error err := by
    obtain ⟨city, hc, err, herr⟩ := h
    exact ⟨city, hc, err, by simp [apiResponseFor, herr]⟩
  obtain ⟨err, hmap, msg, hmsg⟩ := mapThrowing_of_throw _ _ hP cities hex
  exact ⟨msg, by simp [APIManager.generateAPIResponses, hmap, hmsg]⟩

/-- C23, as stated, fails: for the sample city and the payload `{cities: [null]}`, and for
the payload `{cities: 5}`, `generateAPIResponses` raises a `TypeError`. -/
theorem generateAPIResponses_raises_on_malformed :
    APIManager.generateAPIResponses [sampleCity] (.obj [("cities", .arr [.null])]) =
      .error (.typeError "Cannot read properties of null") ∧
    APIManager.generateAPIResponses [sampleCity] (.obj [("cities", .num 5)]) =
      .error (.typeError "apiIntegration?.cities?.find is not a function") :=
  ⟨rfl, rfl⟩

/-- C23, amended: cities without attribution are omitted, not treated as an error.  For
every city list, `generateAPIResponses` returns the empty list when the payload is absent or
null or an object without `cities` (or with a null `cities`); when `cities` is a list
without null entries, it returns, in the cities' order, exactly the responses of the cities
whose first name-matching entry has a truthy `green_space_data` or `emissions_data`, and no
entry for any other city, so not more entries than cities; and on the cities and the
integration payload of any loaded store it does not raise.  For the empty city list it
returns the empty list whatever the payload.  For a city list that is not empty it raises a
`TypeError` when `cities` is a value other than a list, `null` or `undefined`; and it
raises a `TypeError` when, for one of the cities, the `cities` list has a `null` or
`undefined` entry that no entry with the name of that city precedes. -/
theorem generateAPIResponses_omits_unattributed (cities : List City) :
    APIManager.generateAPIResponses cities JsVal.undefined = .ok [] ∧
    APIManager.generateAPIResponses cities JsVal.null = .ok [] ∧
    (∀ p : List (String × JsVal),
      (p.lookup "cities" = none ∨ p.lookup "cities" = some JsVal.null ∨
        p.lookup "cities" = some JsVal.undefined) →
      APIManager.generateAPIResponses cities (.obj p) = .ok []) ∧
    (∀ (p : List (String × JsVal)) (xs : List JsVal),
      p.lookup "cities" = some (.arr xs) → (∀ e ∈ xs, entryReadable e = true) →
      APIManager.generateAPIResponses cities (.obj p) =
        .ok ((cities.filter (hasAttribution xs)).map
          (fun city => apiResponseOf city (entryFor xs city.name))) ∧
      ((cities.filter (hasAttribution xs)).map
          (fun city => apiResponseOf city (entryFor xs city.name))).map (fun r => r.city) =
        (cities.filter (hasAttribution xs)).map City.name ∧
      ((cities.filter (hasAttribution xs)).map
          (fun city => apiResponseOf city (entryFor xs city.name))).length ≤ cities.length) ∧
    (∀ (s : DataManager) (o : FetchOutcome), ∃ rs : List ApiResponse,
      APIManager.generateAPIResponses (s.loadData o).1.getCities
        (optionToJs (s.loadData o).1.getAPIIntegration) = .ok rs ∧
      rs.length ≤ (s.loadData o).1.getCities.length) ∧
    (∀ payload : JsVal, APIManager.generateAPIResponses [] payload = .ok []) ∧
    (∀ (p : List (String × JsVal)) (v : JsVal),
      p.lookup "cities" = some v → (∀ xs, v ≠ .arr xs) → v ≠ JsVal.null →
      v ≠ JsVal.undefined → cities ≠ [] →
      APIManager.generateAPIResponses cities (.obj p) =
        .error (.typeError "apiIntegration?.cities?.find is not a function")) ∧
    (∀ (p : List (String × JsVal)) (pre : List JsVal) (e : JsVal) (post : List JsVal)
      (city : City),
      p.lookup "cities" = some (.arr (pre ++ e :: post)) → city ∈ cities →
      (∀ x ∈ pre, entryHasName x city.name = false) → entryReadable e = false →
      ∃ msg, APIManager.generateAPIResponses cities (.obj p) = .error (.typeError msg)) := by
  refine ⟨?_, ?_, ?_, ?_, ?_, ?_, ?_, ?_⟩
  · exact generateAPIResponses_of_no_entries cities _ (fun _ => rfl)
  · exact generateAPIResponses_of_no_entries cities _ (fun _ => rfl)
  · intro p h
    apply generateAPIResponses_of_no_entries
    intro name
    rcases h with h | h | h <;> simp [lookupCityApiData, getProp, h]
  · intro p xs hl hxs
    have hlook : ∀ name, lookupCityApiData (.obj p) name = .ok (entryFor xs name) := by
      intro name
      simp [lookupCityApiData, getProp, hl, arrayFind_nameIs_readable name xs hxs]
    have hmap : mapThrowing (apiResponseFor (.obj p)) cities =
        .ok (cities.map (fun city => apiResponseOf city (entryFor xs city.name))) :=
      mapThrowing_of_forall _ _ _ (fun city _ => by simp [apiResponseFor, hlook])
    have hkeep : ∀ city : City,
        ((apiResponseOf city (entryFor xs city.name)).green_space_api.isSome ||
          (apiResponseOf city (entryFor xs city.name)).emissions_api.isSome) =
        hasAttribution xs city := by
      intro city
      unfold apiResponseOf hasAttribution
      by_cases hg : truthy (optionalProp (entryFor xs city.name) "green_space_data") = true <;>
        by_cases he : truthy (optionalProp (entryFor xs city.name) "emissions_data") = true <;>
        simp [hg, he]
    refine ⟨?_, ?_, ?_⟩
    · simp only [APIManager.generateAPIResponses, hmap, List.filter_map]
      congr 2
      apply List.filter_congr
      intro city _
      exact hkeep city
    · simp [apiResponseOf, List.map_map, Function.comp_def]
    · rw [List.length_map]
      exact List.length_filter_le _ _
  · intro s o
    obtain ⟨cd, -, hcd, -, hor⟩ := loadData_result s o
    simp only [DataManager.getCities, DataManager.getAPIIntegration, hcd]
    rcases hor with rfl | ⟨d, hd⟩
    · refine ⟨[], ?_, Nat.zero_le _⟩
      exact generateAPIResponses_of_no_entries _ _ (fun _ => rfl)
    · obtain ⟨d1, d2, d3, d4, d5, d6, d7, d8, d9, -, -, -, hapi⟩ :=
        createCityData_shape d cd hd
      have hnames := createCityData_names d cd hd
      have hfinds := createCityData_lookups d cd hd
      have hall : ∀ city ∈ cd.cities, ∃ y, apiResponseFor d city = .ok y := by
        intro city hcity
        have hmem : city.name ∈ cd.cities.map City.name := List.mem_map_of_mem _ hcity
        rw [hnames] at hmem
        obtain ⟨r, hr⟩ := hfinds city.name hmem
        obtain ⟨v, hv⟩ := lookupCityApiData_of_find d city.name r hr
        exact ⟨apiResponseOf city v, by simp [apiResponseFor, hv]⟩
      obtain ⟨ys, hys, hlen⟩ := mapThrowing_of_no_throw _ _ hall
      refine ⟨ys.filter (fun cityData =>
        cityData.green_space_api.isSome || cityData.emissions_api.isSome), ?_, ?_⟩
      · have harg : optionToJs ((some cd).bind fun a => a.api_integration) = d := by
          simp [optionToJs, hapi]
        rw [harg]
        simp only [APIManager.generateAPIResponses, hys]
      · rw [← hlen]
        exact List.length_filter_le _ _
  · intro payload
    rfl
  · intro p v hl harr hnull hundef hne
    have hlook : ∀ name, lookupCityApiData (.obj p) name =
        .error (.typeError "apiIntegration?.cities?.find is not a function") := by
      intro name
      cases v with
      | arr xs => exact absurd rfl (harr xs)
      | null => exact absurd rfl hnull
      | undefined => exact absurd rfl hundef
      | _ => simp only [lookupCityApiData, getProp, hl, Option.getD_some]
    cases cities with
    | nil => exact absurd rfl hne
    | cons c rest =>
      simp [APIManager.generateAPIResponses, mapThrowing, apiResponseFor, hlook]
  · intro p pre e post city hl hcity hpre he
    obtain ⟨err, hfind⟩ := arrayFind_nameIs_unreadable city.name pre e post hpre he
    apply generateAPIResponses_of_throw
    refine ⟨city, hcity, err, ?_⟩
    simp only [lookupCityApiData, getProp, hl, Option.getD_some]
    exact hfind

/-- Witness for C23: on the fallback cities and `samplePayload`, whose only entry is the one
for Paris, the result is the one response for Paris. -/
theorem generateAPIResponses_omits_unattributed_witness :
    APIManager.generateAPIResponses getFallbackData.cities samplePayload =
      .ok ((getFallbackData.cities.filter (hasAttribution
          [.obj [("name", .str "Paris"),
            ("green_space_data", .obj [("source", .str "HUGSI")])]])).map
        (fun city => apiResponseOf city (entryFor
          [.obj [("name", .str "Paris"),
            ("green_space_data", .obj [("source", .str "HUGSI")])]] city.name))) :=
  ((generateAPIResponses_omits_unattributed getFallbackData.cities).2.2.2.1
    [("cities", .arr [.obj [("name", .str "Paris"),
      ("green_space_data", .obj [("source", .str "HUGSI")])]])]
    [.obj [("name", .str "Paris"), ("green_space_data", .obj [("source", .str "HUGSI")])]]
    rfl (by simp [entryReadable])).1

/-- An assignment to a name that the object does not have yet, other than `__proto__`, adds
the property at the end. -/
theorem assignProp_fresh (o : List (String × JsVal)) (key : String) (v : JsVal)
    (hproto : key ≠ "__proto__") (hfresh : ∀ c ∈ o, c.1 ≠ key) :
    assignProp o key v = o ++ [(key, v)] := by
  have hany : o.any (fun kv => kv.1 == key) = false := by
    rw [List.any_eq_false]
    intro c hc
    simpa using hfresh c hc
  simp [assignProp, hproto, hany]

mutual
/-- On a value whose objects have distinct keys, none of them `__proto__` or
`hasOwnProperty`, `deepClone` returns a value equal to its input. -/
theorem deepClone_of_cloneable : ∀ v : JsVal, cloneable v = true → deepClone v = .ok v
  | .undefined, _ => rfl
  | .null, _ => rfl
  | .bool _, _ => rfl
  | .num _, _ => rfl
  | .str _, _ => rfl
  | .arr xs, h => by
    have hx : cloneableItems xs = true := by simpa [cloneable] using h
    simp [deepClone, deepCloneItems_of_cloneable xs hx]
  | .obj kvs, h => by
    have hk : cloneableKeys kvs = true ∧ cloneableProps kvs = true := by
      simpa [cloneable] using h
    have hkeys := hk.1
    simp only [cloneableKeys, Bool.and_eq_true, decide_eq_true_eq, Bool.not_eq_true',
      List.any_eq_false] at hkeys
    obtain ⟨⟨hnodup, hproto⟩, hhas⟩ := hkeys
    have hany : kvs.any (fun kv => kv.1 == "hasOwnProperty") = false := by
      rw [List.any_eq_false]; exact hhas
    have hprops := deepCloneProps_of_cloneable kvs [] hk.2
      (fun kv hkv => by simpa using hproto kv hkv) hnodup (by simp)
    simp [deepClone, hany, hprops]
/-- The clone of a list of such values is the list. -/
theorem deepCloneItems_of_cloneable :
    ∀ xs : List JsVal, cloneableItems xs = true → deepCloneItems xs = .ok xs
  | [], _ => rfl
  | x :: xs, h => by
    have hx : cloneable x = true ∧ cloneableItems xs = true := by
      simpa [cloneableItems] using h
    simp [deepCloneItems, deepClone_of_cloneable x hx.1, deepCloneItems_of_cloneable xs hx.2]
/-- The loop over such properties appends them, unchanged, to the object cloned so far. -/
theorem deepCloneProps_of_cloneable :
    ∀ (kvs cloned : List (String × JsVal)), cloneableProps kvs = true →
      (∀ kv ∈ kvs, kv.1 ≠ "__proto__") → (kvs.map Prod.fst).Nodup →
      (∀ kv ∈ kvs, ∀ c ∈ cloned, c.1 ≠ kv.1) →
      deepCloneProps kvs cloned = .ok (cloned ++ kvs)
  | [], cloned, _, _, _, _ => by simp [deepCloneProps]
  | (key, value) :: rest, cloned, h, hproto, hnodup, hfresh => by
    have hv : cloneable value = true ∧ cloneableProps rest = true := by
      simpa [cloneableProps] using h
    have hassign : assignProp cloned key value = cloned ++ [(key, value)] :=
      assignProp_fresh cloned key value (hproto (key, value) (List.mem_cons_self _ _))
        (fun c hc => hfresh (key, value) (List.mem_cons_self _ _) c hc)
    have hnd := List.nodup_cons.mp hnodup
    have hrest := deepCloneProps_of_cloneable rest (cloned ++ [(key, value)]) hv.2
      (fun kv hkv => hproto kv (List.mem_cons_of_mem _ hkv)) hnd.2
      (by
        intro kv hkv c hc
        rcases List.mem_append.mp hc with hc | hc
        · exact hfresh kv (List.mem_cons_of_mem _ hkv) c hc
        · rw [List.mem_singleton] at hc
          subst hc
          intro heq
          apply hnd.1
          simp only [List.map_cons] at *
          rw [heq]
          exact List.mem_map_of_mem Prod.fst hkv)
    simp [deepCloneProps, deepClone_of_cloneable value hv.1, hassign, hrest]
end

/-- C30, the code at the failing inputs: for the object `{"hasOwnProperty": 1}` `deepClone`
raises a `TypeError`, and for `{"__proto__": 1, "a": [2, null]}` it returns `{"a": [2, null]}`,
an object without the own key `__proto__`; on the sample value, which has no such key, it
returns the value itself, and cloning the clone gives the same. -/
theorem deepClone_special_keys :
    deepClone (.obj [("hasOwnProperty", .num 1)]) =
      .error (.typeError "obj.hasOwnProperty is not a function") ∧
    deepClone (.obj [("__proto__", .num 1), ("a", .arr [.num 2, .null])]) =
      .ok (.obj [("a", .arr [.num 2, .null])]) ∧
    deepClone sampleJson = .ok sampleJson ∧
    (deepClone sampleJson >>= deepClone) = .ok sampleJson ∧
    deepClone JsVal.null = .ok JsVal.null ∧
    deepClone (.num 3) = .ok (.num 3) ∧
    deepClone (.str "x") = .ok (.str "x") ∧
    deepClone (.bool true) = .ok (.bool true) :=
  ⟨rfl, rfl, rfl, rfl, rfl, rfl, rfl, rfl⟩

end EcoBalance
